import Mathlib

/-!
# Filament Vulkan platform swap chains and descriptor sets

A shallow embedding of `filament/backend/src/vulkan/platform/VulkanPlatformSwapChainImpl.cpp`,
of the inline part of `filament/src/ds/DescriptorSet.h` and of the inline name helpers of
`filament/include/filament/MaterialInstance.h`.

* Vulkan handles are natural numbers, `0` being `VK_NULL_HANDLE`.
* `uint32_t` values are natural numbers, reduced modulo `2 ^ 32` where the source does arithmetic.
* A failed `FILAMENT_CHECK_POSTCONDITION` / `assert_invariant` is an `Except.error`.
* Every call into the Vulkan driver and every log line is recorded, in program order, as an
  `Event`; what the driver answers is an explicit argument of the embedded function.
* Constants and predicates that live in headers outside the translated file are fields of
  `Platform`, so every statement holds for whatever values those headers give them.
* Functions and macros whose body is outside the translated files are modelled from the spec;
  the doc comment of each such definition says so.
-/

namespace Filament

deriving instance DecidableEq for Except

/-! ## Vulkan vocabulary -/

abbrev VkHandle := Nat
abbrev VkImage := Nat
abbrev VkDeviceMemory := Nat
abbrev VkSemaphore := Nat
abbrev VkSwapchainKHR := Nat
abbrev VkFormat := Nat
abbrev VkResult := Int

def VK_NULL_HANDLE : Nat := 0
def VK_SUCCESS : VkResult := 0
def VK_SUBOPTIMAL_KHR : VkResult := 1000001003
def VK_ERROR_OUT_OF_DATE_KHR : VkResult := -1000001004
def VK_ERROR_DEVICE_LOST : VkResult := -4
def UINT64_MAX : Nat := 2 ^ 64 - 1
def UINT32_MOD : Nat := 2 ^ 32

def VK_FORMAT_UNDEFINED : VkFormat := 0
def VK_FORMAT_R8G8B8A8_UNORM : VkFormat := 37
def VK_FORMAT_R8G8B8A8_SRGB : VkFormat := 43
def VK_FORMAT_B8G8R8A8_UNORM : VkFormat := 44
def VK_FORMAT_B8G8R8A8_SRGB : VkFormat := 50

def VK_IMAGE_USAGE_TRANSFER_SRC_BIT : Nat := 0x1
def VK_IMAGE_USAGE_TRANSFER_DST_BIT : Nat := 0x2
def VK_IMAGE_USAGE_COLOR_ATTACHMENT_BIT : Nat := 0x10
def VK_IMAGE_USAGE_DEPTH_STENCIL_ATTACHMENT_BIT : Nat := 0x20
def VK_IMAGE_CREATE_PROTECTED_BIT : Nat := 0x800
def VK_MEMORY_PROPERTY_DEVICE_LOCAL_BIT : Nat := 0x1
def VK_MEMORY_PROPERTY_PROTECTED_BIT : Nat := 0x20
def VK_MAX_MEMORY_TYPES : Nat := 32
def VK_IMAGE_TYPE_2D : Nat := 1
def VK_SAMPLE_COUNT_1_BIT : Nat := 1
def VK_IMAGE_TILING_OPTIMAL : Nat := 0
def VK_PRESENT_MODE_FIFO_KHR : Nat := 2
def VK_COMPOSITE_ALPHA_OPAQUE_BIT_KHR : Nat := 0x1
def VK_COMPOSITE_ALPHA_INHERIT_BIT_KHR : Nat := 0x8
def VK_SURFACE_TRANSFORM_IDENTITY_BIT_KHR : Nat := 0x1
def VK_SWAPCHAIN_CREATE_PROTECTED_BIT_KHR : Nat := 0x2

structure VkExtent2D where
  width : Nat
  height : Nat
deriving DecidableEq, Repr

structure VkSurfaceFormatKHR where
  format : VkFormat
  colorSpace : Nat
deriving DecidableEq, Repr

structure VkSurfaceCapabilitiesKHR where
  minImageCount : Nat
  maxImageCount : Nat
  currentExtent : VkExtent2D
  supportedCompositeAlpha : Nat
  currentTransform : Nat
deriving DecidableEq, Repr

structure VkImageCreateInfo where
  flags : Nat
  imageType : Nat
  format : VkFormat
  extent : Nat × Nat × Nat
  mipLevels : Nat
  arrayLayers : Nat
  samples : Nat
  tiling : Nat
  usage : Nat
deriving DecidableEq, Repr

structure VkMemoryAllocateInfo where
  allocationSize : Nat
  memoryTypeIndex : Nat
deriving DecidableEq, Repr

structure VkSwapchainCreateInfoKHR where
  flags : Nat
  surface : VkHandle
  minImageCount : Nat
  imageFormat : VkFormat
  imageColorSpace : Nat
  imageExtent : VkExtent2D
  imageArrayLayers : Nat
  imageUsage : Nat
  preTransform : Nat
  compositeAlpha : Nat
  presentMode : Nat
  clipped : Bool
  oldSwapchain : VkSwapchainKHR
deriving DecidableEq, Repr

structure VkPresentInfoKHR where
  waitSemaphores : List VkSemaphore
  swapchains : List VkSwapchainKHR
  imageIndices : List Nat
deriving DecidableEq, Repr

/-- Every observable action of the translated code: the driver entry points it calls, with the
arguments that matter, and the three log streams. -/
inductive Event where
  | vkGetPhysicalDeviceSurfaceCapabilitiesKHR (physicalDevice surface : VkHandle)
  | vkGetPhysicalDeviceSurfaceFormatsKHR (physicalDevice surface : VkHandle)
  | vkGetPhysicalDeviceSurfacePresentModesKHR (physicalDevice surface : VkHandle)
  | vkCreateSwapchainKHR (device : VkHandle) (createInfo : VkSwapchainCreateInfoKHR)
  | vkGetSwapchainImagesKHR (device : VkHandle) (swapchain : VkSwapchainKHR)
  | vkCreateSemaphore (device : VkHandle) (slot : Nat)
  | vkCreateImage (device : VkHandle) (imageInfo : VkImageCreateInfo)
  | vkGetImageMemoryRequirements (device : VkHandle) (image : VkImage)
  | vkAllocateMemory (device : VkHandle) (allocInfo : VkMemoryAllocateInfo)
  | vkBindImageMemory (device : VkHandle) (image : VkImage) (memory : VkDeviceMemory)
  | vkAcquireNextImageKHR (device : VkHandle) (swapchain : VkSwapchainKHR) (timeout : Nat)
      (semaphore : VkSemaphore) (fence : VkHandle)
  | vkQueuePresentKHR (queue : VkHandle) (presentInfo : VkPresentInfoKHR)
  | vkQueueWaitIdle (queue : VkHandle)
  | vkDestroyImage (device : VkHandle) (image : VkImage)
  | vkFreeMemory (device : VkHandle) (memory : VkDeviceMemory)
  | vkDestroySemaphore (device : VkHandle) (semaphore : VkSemaphore)
  | vkDestroySwapchainKHR (device : VkHandle) (swapchain : VkSwapchainKHR)
  | vkDestroySurfaceKHR (inst surface : VkHandle)
  | logSwapChainDoesNotSupport (desiredImageCount : Nat)
  | logSuboptimalSwapChain
  | logCreateSwapchain (extent : VkExtent2D) (format : VkFormat) (colorSpace swapchainSize : Nat)
      (identityTransform : Bool) (depth : VkFormat) (isProtected : Bool)
deriving DecidableEq, Repr

/-- Which check of the translated file stopped the process. -/
inductive Fatal where
  | unableToCreateImage (result : VkResult)
  | noMemoryType
  | unableToAllocateImageMemory (result : VkResult)
  | unableToBindImage (result : VkResult)
  | noDepthFormat
  | noSurfaceFormat
  | noPresentMode
  | createSwapchainFailed (result : VkResult)
  | createSemaphoreFailed (result : VkResult)
  | surfaceIsNull
deriving DecidableEq, Repr

/-- Values that the translated file takes from headers that are not part of it:
`VULKAN_UNDEFINED_EXTENT` (vulkan/VulkanConstants.h), the two array sizes declared in
VulkanPlatformSwapChainImpl.h, the `fvkutils` format predicates (vulkan/utils/Image.h) and the
swap chain flag masks of backend/DriverEnums.h. -/
structure Platform where
  VULKAN_UNDEFINED_EXTENT : Nat
  IMAGE_READY_SEMAPHORE_COUNT : Nat
  HEADLESS_SWAPCHAIN_SIZE : Nat
  isVkDepthFormat : VkFormat → Bool
  isVkStencilFormat : VkFormat → Bool
  SWAP_CHAIN_CONFIG_SRGB_COLORSPACE : Nat
  SWAP_CHAIN_HAS_STENCIL_BUFFER : Nat
  SWAP_CHAIN_CONFIG_PROTECTED_CONTENT : Nat

/-- The two queries the translated file makes on `VulkanContext`. -/
structure VulkanContext where
  selectMemoryType : Nat → Nat → Nat
  getAttachmentDepthStencilFormats : List VkFormat

/-- What the driver answers during one run of `createImageAndMemory`. -/
structure ImageReply where
  createResult : VkResult
  image : VkImage
  memoryTypeBits : Nat
  size : Nat
  allocateResult : VkResult
  memory : VkDeviceMemory
  bindResult : VkResult
deriving DecidableEq, Repr

/-! ## The anonymous namespace -/

/-- The `VkImageCreateInfo` built by `createImageAndMemory`. -/
def imageCreateInfo (P : Platform) (extent : VkExtent2D) (format : VkFormat)
    (isProtected : Bool) : VkImageCreateInfo :=
  let isDepth := P.isVkDepthFormat format
  let blittable := VK_IMAGE_USAGE_TRANSFER_DST_BIT ||| VK_IMAGE_USAGE_TRANSFER_SRC_BIT
  { flags := if isProtected then VK_IMAGE_CREATE_PROTECTED_BIT else 0
    imageType := VK_IMAGE_TYPE_2D
    format := format
    extent := (extent.width, extent.height, 1)
    mipLevels := 1
    arrayLayers := 1
    samples := VK_SAMPLE_COUNT_1_BIT
    tiling := VK_IMAGE_TILING_OPTIMAL
    usage := blittable ||| (if isDepth then VK_IMAGE_USAGE_DEPTH_STENCIL_ATTACHMENT_BIT
                            else VK_IMAGE_USAGE_COLOR_ATTACHMENT_BIT) }

/-- The memory property flags requested by `createImageAndMemory`. -/
def requiredMemoryFlags (isProtected : Bool) : Nat :=
  VK_MEMORY_PROPERTY_DEVICE_LOCAL_BIT |||
    (if isProtected then VK_MEMORY_PROPERTY_PROTECTED_BIT else 0)

/-- Embedding of `createImageAndMemory`. -/
def createImageAndMemory (P : Platform) (context : VulkanContext) (device : VkHandle)
    (extent : VkExtent2D) (format : VkFormat) (isProtected : Bool) (drv : ImageReply) :
    Except Fatal ((VkImage × VkDeviceMemory) × List Event) :=
  let imageInfo := imageCreateInfo P extent format isProtected
  if drv.createResult ≠ VK_SUCCESS then
    .error (.unableToCreateImage drv.createResult)
  else
    let memoryTypeIndex :=
      context.selectMemoryType drv.memoryTypeBits (requiredMemoryFlags isProtected)
    if ¬ memoryTypeIndex < VK_MAX_MEMORY_TYPES then
      .error .noMemoryType
    else
      let allocInfo : VkMemoryAllocateInfo :=
        { allocationSize := drv.size, memoryTypeIndex := memoryTypeIndex }
      if drv.allocateResult ≠ VK_SUCCESS then
        .error (.unableToAllocateImageMemory drv.allocateResult)
      else if drv.bindResult ≠ VK_SUCCESS then
        .error (.unableToBindImage drv.bindResult)
      else
        .ok ((drv.image, drv.memory),
          [ .vkCreateImage device imageInfo,
            .vkGetImageMemoryRequirements device drv.image,
            .vkAllocateMemory device allocInfo,
            .vkBindImageMemory device drv.image drv.memory ])

/-- Modelled from the spec: the macro `assert_invariant` (utils/debug.h) is not among the
translated files. The spec calls the failure of the checks written with it "a fatal
precondition violation (programming/capability error)": a check that fails halts with its
diagnostic, a check that holds does nothing. -/
def assert_invariant (e : Bool) (diagnostic : Fatal) : Except Fatal Unit :=
  if e then .ok () else .error diagnostic

/-- Embedding of `selectDepthFormat`: `std::find_if` with the predicate chosen by `hasStencil`,
the `assert_invariant` that the iterator is not `end()`, and the dereference. The last branch
is the dereference of `end()`; the check before it has failed whenever it would be reached. -/
def selectDepthFormat (P : Platform) (depthFormats : List VkFormat) (hasStencil : Bool) :
    Except Fatal VkFormat :=
  let formatItr :=
    depthFormats.find? (if hasStencil then P.isVkStencilFormat else P.isVkDepthFormat)
  match assert_invariant formatItr.isSome .noDepthFormat with
  | .error e => .error e
  | .ok _ =>
    match formatItr with
    | some format => .ok format
    | none => .error .noDepthFormat

/-! ## Shared base: `VulkanPlatformSwapChainImpl` -/

structure SwapChainBundle where
  colors : List VkImage
  depth : VkImage
  colorFormat : VkFormat
  depthFormat : VkFormat
  extent : VkExtent2D
  isProtected : Bool
deriving DecidableEq, Repr

/-- The map `mMemory`, as the list of its (image, memory) entries. -/
abbrev MemoryRegistry := List (VkImage × VkDeviceMemory)

/-- The map lookup `mMemory.find(image)` / `mMemory.at(image)`. -/
def registryFind (m : MemoryRegistry) (image : VkImage) : Option VkDeviceMemory :=
  (List.find? (fun e => e.1 == image) m).map Prod.snd

/-- The map insertion `mMemory.insert({image, memory})`: a key already present keeps its entry. -/
def registryInsert (m : MemoryRegistry) (image : VkImage) (memory : VkDeviceMemory) :
    MemoryRegistry :=
  match registryFind m image with
  | some _ => m
  | none => m ++ [(image, memory)]

/-- The map removal `mMemory.erase(image)`. -/
def registryErase (m : MemoryRegistry) (image : VkImage) : MemoryRegistry :=
  List.filter (fun e => !(e.1 == image)) m

/-- Number of entries of the registry whose key is `image`. -/
def registryCount (m : MemoryRegistry) (image : VkImage) : Nat :=
  List.countP (fun e => e.1 == image) m

structure VulkanPlatformSwapChainImpl where
  mDevice : VkHandle
  mQueue : VkHandle
  mSwapChainBundle : SwapChainBundle
  mMemory : MemoryRegistry
deriving DecidableEq, Repr

/-- The block that `VulkanPlatformSwapChainImpl::destroy` runs on the depth image and
`VulkanPlatformHeadlessSwapChain::destroy` runs on each color image: `vkDestroyImage`, then
`vkFreeMemory` and `erase` when the registry has an entry for the image. -/
def destroyImageAndMemory (device : VkHandle) (m : MemoryRegistry) (image : VkImage) :
    MemoryRegistry × List Event :=
  match registryFind m image with
  | some memory =>
      (registryErase m image, [.vkDestroyImage device image, .vkFreeMemory device memory])
  | none => (m, [.vkDestroyImage device image])

/-- Embedding of `VulkanPlatformSwapChainImpl::destroy`. -/
def VulkanPlatformSwapChainImpl.destroy (s : VulkanPlatformSwapChainImpl) :
    VulkanPlatformSwapChainImpl × List Event :=
  let r : MemoryRegistry × List Event :=
    if s.mSwapChainBundle.depth ≠ VK_NULL_HANDLE then
      destroyImageAndMemory s.mDevice s.mMemory s.mSwapChainBundle.depth
    else (s.mMemory, [])
  ({ s with
      mMemory := r.1
      mSwapChainBundle := { s.mSwapChainBundle with depth := VK_NULL_HANDLE, colors := [] } },
   r.2)

/-- Embedding of `VulkanPlatformSwapChainImpl::createImage`. -/
def VulkanPlatformSwapChainImpl.createImage (P : Platform) (context : VulkanContext)
    (s : VulkanPlatformSwapChainImpl) (extent : VkExtent2D) (format : VkFormat)
    (isProtected : Bool) (drv : ImageReply) :
    Except Fatal (VkImage × VulkanPlatformSwapChainImpl × List Event) :=
  match createImageAndMemory P context s.mDevice extent format isProtected drv with
  | .error e => .error e
  | .ok ((image, memory), events) =>
      .ok (image, { s with mMemory := registryInsert s.mMemory image memory }, events)

/-! ## Surface-backed swap chain -/

structure VulkanPlatformSurfaceSwapChain extends VulkanPlatformSwapChainImpl where
  mInstance : VkHandle
  mPhysicalDevice : VkHandle
  mSurface : VkHandle
  mFallbackExtent : VkExtent2D
  mUsesRGB : Bool
  mHasStencil : Bool
  mIsProtected : Bool
  mSwapchain : VkSwapchainKHR
  mImageReady : List VkSemaphore
  mCurrentImageReadyIndex : Nat
  mSuboptimal : Bool
deriving DecidableEq, Repr

/-- What the driver answers during one run of `VulkanPlatformSurfaceSwapChain::create`. -/
structure SurfaceReplies where
  caps : VkSurfaceCapabilitiesKHR
  surfaceFormats : List VkSurfaceFormatKHR
  presentModes : List Nat
  swapchainResult : VkResult
  swapchain : VkSwapchainKHR
  swapchainImages : List VkImage
  depthImage : ImageReply
  semaphores : Nat → VkResult × VkSemaphore

/-- Lines 158-168 of `create`: the image count put in the creation request, with the log line
written on the way. -/
def desiredImageCount (caps : VkSurfaceCapabilitiesKHR) : Nat × List Event :=
  let maxImageCount := caps.maxImageCount
  let minImageCount := caps.minImageCount
  let desiredImageCount := (minImageCount + 1) % UINT32_MOD
  if maxImageCount ≠ 0 ∧ desiredImageCount > maxImageCount then
    (caps.minImageCount, [.logSwapChainDoesNotSupport desiredImageCount])
  else
    (desiredImageCount, [])

/-- The array `expectedFormats` of `create`. -/
def expectedFormats (usesRGB : Bool) : List VkFormat :=
  if usesRGB then [VK_FORMAT_R8G8B8A8_SRGB, VK_FORMAT_B8G8R8A8_SRGB]
  else [VK_FORMAT_R8G8B8A8_UNORM, VK_FORMAT_B8G8R8A8_UNORM]

/-- The range-for loop of `create` over `surfaceFormats`, with its `break`; `surfaceFormat` is
the value the variable holds when the loop is entered. -/
def scanSurfaceFormats (expected : List VkFormat) :
    List VkSurfaceFormatKHR → VkSurfaceFormatKHR → VkSurfaceFormatKHR
  | [], surfaceFormat => surfaceFormat
  | format :: rest, surfaceFormat =>
      if expected.any (fun f => f == format.format) then format
      else scanSurfaceFormats expected rest surfaceFormat

/-- Lines 170-191 of `create`: the scan starting from the zero-initialised `surfaceFormat`,
followed by the check that a format was picked. -/
def selectSurfaceFormat (usesRGB : Bool) (surfaceFormats : List VkSurfaceFormatKHR) :
    Except Fatal VkSurfaceFormatKHR :=
  let surfaceFormat :=
    scanSurfaceFormats (expectedFormats usesRGB) surfaceFormats
      { format := VK_FORMAT_UNDEFINED, colorSpace := 0 }
  if surfaceFormat.format ≠ VK_FORMAT_UNDEFINED then .ok surfaceFormat
  else .error .noSurfaceFormat

/-- The loop of `create` that looks for `VK_PRESENT_MODE_FIFO_KHR`. -/
def foundSuitablePresentMode : List Nat → Bool
  | [] => false
  | mode :: rest => if mode = VK_PRESENT_MODE_FIFO_KHR then true else foundSuitablePresentMode rest

/-- Lines 208-214 of `create`: the extent given to the swap chain. -/
def resolveExtent (P : Platform) (currentExtent fallbackExtent : VkExtent2D) : VkExtent2D :=
  if currentExtent.width = P.VULKAN_UNDEFINED_EXTENT
      ∨ currentExtent.height = P.VULKAN_UNDEFINED_EXTENT then
    fallbackExtent
  else
    currentExtent

/-- The value `compositeAlpha` of `create`. -/
def compositeAlpha (caps : VkSurfaceCapabilitiesKHR) : Nat :=
  if caps.supportedCompositeAlpha &&& VK_COMPOSITE_ALPHA_INHERIT_BIT_KHR ≠ 0 then
    VK_COMPOSITE_ALPHA_INHERIT_BIT_KHR
  else VK_COMPOSITE_ALPHA_OPAQUE_BIT_KHR

/-- The `VkSwapchainCreateInfoKHR` that `create` hands to `vkCreateSwapchainKHR`, from the
members of the object at that point and the values computed before. -/
def swapchainCreateInfo (s : VulkanPlatformSurfaceSwapChain) (caps : VkSurfaceCapabilitiesKHR)
    (desiredImageCount : Nat) (surfaceFormat : VkSurfaceFormatKHR) : VkSwapchainCreateInfoKHR :=
  { flags := if s.mIsProtected then VK_SWAPCHAIN_CREATE_PROTECTED_BIT_KHR else 0
    surface := s.mSurface
    minImageCount := desiredImageCount
    imageFormat := surfaceFormat.format
    imageColorSpace := surfaceFormat.colorSpace
    imageExtent := s.mSwapChainBundle.extent
    imageArrayLayers := 1
    imageUsage := VK_IMAGE_USAGE_COLOR_ATTACHMENT_BIT ||| VK_IMAGE_USAGE_TRANSFER_DST_BIT
      ||| VK_IMAGE_USAGE_TRANSFER_SRC_BIT
    preTransform := VK_SURFACE_TRANSFORM_IDENTITY_BIT_KHR
    compositeAlpha := compositeAlpha caps
    presentMode := VK_PRESENT_MODE_FIFO_KHR
    clipped := true
    oldSwapchain := s.mSwapchain }

/-- The loop of `create` that fills `mImageReady`: `n` iterations are left, `i` is the loop
variable. -/
def createSemaphores (device : VkHandle) (reply : Nat → VkResult × VkSemaphore) :
    Nat → Nat → List VkSemaphore → Except Fatal (List VkSemaphore × List Event)
  | 0, _, imageReady => .ok (imageReady, [])
  | n + 1, i, imageReady =>
      if (reply i).1 ≠ VK_SUCCESS then .error (.createSemaphoreFailed (reply i).1)
      else
        match createSemaphores device reply n (i + 1) (imageReady.set i (reply i).2) with
        | .error e => .error e
        | .ok (imageReady1, events) => .ok (imageReady1, .vkCreateSemaphore device i :: events)

/-- Embedding of `VulkanPlatformSurfaceSwapChain::create`. The returned code is the outer
`result`, the one `vkCreateSwapchainKHR` gave. -/
def VulkanPlatformSurfaceSwapChain.create (P : Platform) (context : VulkanContext)
    (s : VulkanPlatformSurfaceSwapChain) (drv : SurfaceReplies) :
    Except Fatal (VkResult × VulkanPlatformSurfaceSwapChain × List Event) :=
  let caps := drv.caps
  let count := desiredImageCount caps
  match selectSurfaceFormat s.mUsesRGB drv.surfaceFormats with
  | .error e => .error e
  | .ok surfaceFormat =>
    if foundSuitablePresentMode drv.presentModes = false then .error .noPresentMode
    else
      let s1 : VulkanPlatformSurfaceSwapChain :=
        { s with mSwapChainBundle :=
            { s.mSwapChainBundle with
                extent := resolveExtent P caps.currentExtent s.mFallbackExtent } }
      let createInfo := swapchainCreateInfo s1 caps count.1 surfaceFormat
      if drv.swapchainResult ≠ VK_SUCCESS then
        .error (.createSwapchainFailed drv.swapchainResult)
      else
        let s2 : VulkanPlatformSurfaceSwapChain :=
          { s1 with
              mSwapchain := drv.swapchain
              mSwapChainBundle :=
                { s1.mSwapChainBundle with
                    colors := drv.swapchainImages, colorFormat := surfaceFormat.format } }
        match selectDepthFormat P context.getAttachmentDepthStencilFormats s2.mHasStencil with
        | .error e => .error e
        | .ok depthFormat =>
          let s3 : VulkanPlatformSurfaceSwapChain :=
            { s2 with mSwapChainBundle := { s2.mSwapChainBundle with depthFormat := depthFormat } }
          match s3.toVulkanPlatformSwapChainImpl.createImage P context s3.mSwapChainBundle.extent
              s3.mSwapChainBundle.depthFormat s3.mIsProtected drv.depthImage with
          | .error e => .error e
          | .ok (depth, base, imageEvents) =>
            let s4 : VulkanPlatformSurfaceSwapChain :=
              { s3 with
                  toVulkanPlatformSwapChainImpl :=
                    { base with mSwapChainBundle :=
                        { base.mSwapChainBundle with
                            depth := depth, isProtected := s3.mIsProtected } } }
            match createSemaphores s4.mDevice drv.semaphores P.IMAGE_READY_SEMAPHORE_COUNT 0
                s4.mImageReady with
            | .error e => .error e
            | .ok (imageReady, semaphoreEvents) =>
              .ok (drv.swapchainResult, { s4 with mImageReady := imageReady },
                [.vkGetPhysicalDeviceSurfaceCapabilitiesKHR s.mPhysicalDevice s.mSurface]
                ++ count.2
                ++ [ .vkGetPhysicalDeviceSurfaceFormatsKHR s.mPhysicalDevice s.mSurface,
                     .vkGetPhysicalDeviceSurfacePresentModesKHR s.mPhysicalDevice s.mSurface,
                     .vkCreateSwapchainKHR s.mDevice createInfo,
                     .vkGetSwapchainImagesKHR s.mDevice drv.swapchain ]
                ++ imageEvents
                ++ [ .logCreateSwapchain s4.mSwapChainBundle.extent surfaceFormat.format
                       surfaceFormat.colorSpace s4.mSwapChainBundle.colors.length
                       (decide (caps.currentTransform = 1)) s4.mSwapChainBundle.depthFormat
                       s4.mSwapChainBundle.isProtected ]
                ++ semaphoreEvents)

/-- The loop of `VulkanPlatformSurfaceSwapChain::destroy` over `mImageReady`: `n` iterations
are left, `i` is the loop variable. -/
def destroySemaphores (device : VkHandle) :
    Nat → Nat → List VkSemaphore → List VkSemaphore × List Event
  | 0, _, imageReady => (imageReady, [])
  | n + 1, i, imageReady =>
      if imageReady.getD i VK_NULL_HANDLE ≠ VK_NULL_HANDLE then
        let r := destroySemaphores device n (i + 1) (imageReady.set i VK_NULL_HANDLE)
        (r.1, .vkDestroySemaphore device (imageReady.getD i VK_NULL_HANDLE) :: r.2)
      else destroySemaphores device n (i + 1) imageReady

/-- Embedding of `VulkanPlatformSurfaceSwapChain::destroy`. -/
def VulkanPlatformSurfaceSwapChain.destroy (P : Platform) (s : VulkanPlatformSurfaceSwapChain) :
    VulkanPlatformSurfaceSwapChain × List Event :=
  let b := s.toVulkanPlatformSwapChainImpl.destroy
  let sem := destroySemaphores s.mDevice P.IMAGE_READY_SEMAPHORE_COUNT 0 s.mImageReady
  let sc : VkSwapchainKHR × List Event :=
    if s.mSwapchain ≠ VK_NULL_HANDLE then
      (VK_NULL_HANDLE, [.vkDestroySwapchainKHR s.mDevice s.mSwapchain])
    else (s.mSwapchain, [])
  ({ s with toVulkanPlatformSwapChainImpl := b.1, mImageReady := sem.1, mSwapchain := sc.1 },
   [.vkQueueWaitIdle s.mQueue] ++ b.2 ++ sem.2 ++ sc.2)

/-- Embedding of `VulkanPlatformSurfaceSwapChain::recreate`. -/
def VulkanPlatformSurfaceSwapChain.recreate (P : Platform) (context : VulkanContext)
    (s : VulkanPlatformSurfaceSwapChain) (drv : SurfaceReplies) :
    Except Fatal (VkResult × VulkanPlatformSurfaceSwapChain × List Event) :=
  let d := s.destroy P
  match d.1.create P context drv with
  | .error e => .error e
  | .ok (result, s1, events) => .ok (result, s1, d.2 ++ events)

/-- The caller-allocated `VulkanPlatform::ImageSyncData`. -/
structure ImageSyncData where
  imageReadySemaphore : VkSemaphore
  imageIndex : Nat
deriving DecidableEq, Repr

/-- What the driver answers to `vkAcquireNextImageKHR`: the result code and, when it writes
one, the image index. -/
structure AcquireReply where
  result : VkResult
  imageIndex : Option Nat
deriving DecidableEq, Repr

/-- Embedding of `VulkanPlatformSurfaceSwapChain::acquire`. `mCurrentImageReadyIndex` is taken
to be a `uint32_t`, like the loop variables that run over the pool, so the increment wraps at
`2 ^ 32` before the remainder is taken; `imageIndex` is written when the driver writes it. -/
def VulkanPlatformSurfaceSwapChain.acquire (P : Platform) (s : VulkanPlatformSurfaceSwapChain)
    (outImageSyncData : ImageSyncData) (drv : AcquireReply) :
    VkResult × VulkanPlatformSurfaceSwapChain × ImageSyncData × List Event :=
  let index := ((s.mCurrentImageReadyIndex + 1) % UINT32_MOD) % P.IMAGE_READY_SEMAPHORE_COUNT
  let s1 : VulkanPlatformSurfaceSwapChain := { s with mCurrentImageReadyIndex := index }
  let semaphore := s1.mImageReady.getD index VK_NULL_HANDLE
  let out : ImageSyncData :=
    { imageReadySemaphore := semaphore
      imageIndex := drv.imageIndex.getD outImageSyncData.imageIndex }
  let call : Event :=
    .vkAcquireNextImageKHR s1.mDevice s1.mSwapchain UINT64_MAX semaphore VK_NULL_HANDLE
  if drv.result = VK_SUBOPTIMAL_KHR ∧ s1.mSuboptimal = false then
    (drv.result, { s1 with mSuboptimal := true }, out, [call, .logSuboptimalSwapChain])
  else
    (drv.result, s1, out, [call])

/-- Embedding of `VulkanPlatformSurfaceSwapChain::present`; `result` is what
`vkQueuePresentKHR` answers. -/
def VulkanPlatformSurfaceSwapChain.present (s : VulkanPlatformSurfaceSwapChain)
    (index : Nat) (finished : VkSemaphore) (result : VkResult) :
    VkResult × VulkanPlatformSurfaceSwapChain × List Event :=
  let presentInfo : VkPresentInfoKHR :=
    { waitSemaphores := [finished], swapchains := [s.mSwapchain], imageIndices := [index] }
  let call : Event := .vkQueuePresentKHR s.mQueue presentInfo
  if result = VK_SUBOPTIMAL_KHR ∧ s.mSuboptimal = false then
    (result, { s with mSuboptimal := true }, [call, .logSuboptimalSwapChain])
  else
    (result, s, [call])

/-- Modelled from the spec: `fvkutils::equivalent` (vulkan/utils/Helper.h) is not among the
translated files. `hasResized` "compares the bundle's stored extent against the surface's
freshly queried current extent" and "returns whether they differ", so two extents are
equivalent when their widths and their heights agree. -/
def equivalent (a b : VkExtent2D) : Bool :=
  decide (a.width = b.width ∧ a.height = b.height)

/-- Lines 325-330 of `hasResized`: the local `perceivedExtent`, which starts as the reported
current extent and is overwritten with the fallback extent when a dimension is undefined. -/
def perceivedExtent (P : Platform) (currentExtent fallbackExtent : VkExtent2D) : VkExtent2D :=
  let perceivedExtent := currentExtent
  if perceivedExtent.width = P.VULKAN_UNDEFINED_EXTENT
      ∨ perceivedExtent.height = P.VULKAN_UNDEFINED_EXTENT then
    fallbackExtent
  else perceivedExtent

/-- Embedding of `VulkanPlatformSurfaceSwapChain::hasResized`; `caps` is what the surface
reports when asked. Returns the answer, the object after the call and the driver calls made. -/
def VulkanPlatformSurfaceSwapChain.hasResized (P : Platform)
    (s : VulkanPlatformSurfaceSwapChain) (caps : VkSurfaceCapabilitiesKHR) :
    Bool × VulkanPlatformSurfaceSwapChain × List Event :=
  (!(equivalent s.mSwapChainBundle.extent
      (perceivedExtent P caps.currentExtent s.mFallbackExtent)),
   s,
   [.vkGetPhysicalDeviceSurfaceCapabilitiesKHR s.mPhysicalDevice s.mSurface])

/-- Embedding of `VulkanPlatformSurfaceSwapChain::isProtected`. -/
def VulkanPlatformSurfaceSwapChain.isProtected (s : VulkanPlatformSurfaceSwapChain) : Bool :=
  s.mIsProtected

/-- Members of `VulkanPlatformSurfaceSwapChain` whose initial value is given in the class
declaration (VulkanPlatformSwapChainImpl.h), not in the constructor. -/
structure SurfaceMemberInitializers where
  mSwapchain : VkSwapchainKHR
  mImageReady : List VkSemaphore
  mCurrentImageReadyIndex : Nat
  mSuboptimal : Bool
deriving DecidableEq, Repr

/-- Embedding of the constructor of `VulkanPlatformSwapChainImpl`. The containers start empty;
the scalar members of the bundle start at the initialisers of its declaration, passed in
`members`. -/
def VulkanPlatformSwapChainImpl.construct (device queue : VkHandle)
    (members : SwapChainBundle) : VulkanPlatformSwapChainImpl :=
  { mDevice := device
    mQueue := queue
    mSwapChainBundle := { members with colors := [] }
    mMemory := [] }

/-- Embedding of the constructor of `VulkanPlatformSurfaceSwapChain`. -/
def VulkanPlatformSurfaceSwapChain.construct (P : Platform) (context : VulkanContext)
    (physicalDevice device queue inst surface : VkHandle) (fallbackExtent : VkExtent2D)
    (flags : Nat) (members : SwapChainBundle) (init : SurfaceMemberInitializers)
    (drv : SurfaceReplies) : Except Fatal (VulkanPlatformSurfaceSwapChain × List Event) :=
  let s : VulkanPlatformSurfaceSwapChain :=
    { toVulkanPlatformSwapChainImpl := VulkanPlatformSwapChainImpl.construct device queue members
      mInstance := inst
      mPhysicalDevice := physicalDevice
      mSurface := surface
      mFallbackExtent := fallbackExtent
      mUsesRGB := decide (flags &&& P.SWAP_CHAIN_CONFIG_SRGB_COLORSPACE ≠ 0)
      mHasStencil := decide (flags &&& P.SWAP_CHAIN_HAS_STENCIL_BUFFER ≠ 0)
      mIsProtected := decide (flags &&& P.SWAP_CHAIN_CONFIG_PROTECTED_CONTENT ≠ 0)
      mSwapchain := init.mSwapchain
      mImageReady := init.mImageReady
      mCurrentImageReadyIndex := init.mCurrentImageReadyIndex
      mSuboptimal := init.mSuboptimal }
  match assert_invariant (decide (surface ≠ VK_NULL_HANDLE)) .surfaceIsNull with
  | .error e => .error e
  | .ok _ =>
    match s.create P context drv with
    | .error e => .error e
    | .ok (_, s1, events) => .ok (s1, events)

/-- Embedding of the destructor of `VulkanPlatformSurfaceSwapChain`, the base class
destructor included. -/
def VulkanPlatformSurfaceSwapChain.destruct (P : Platform) (s : VulkanPlatformSurfaceSwapChain) :
    VulkanPlatformSurfaceSwapChain × List Event :=
  let d := s.destroy P
  let b := d.1.toVulkanPlatformSwapChainImpl.destroy
  ({ d.1 with toVulkanPlatformSwapChainImpl := b.1 },
   d.2 ++ [.vkDestroySurfaceKHR s.mInstance s.mSurface] ++ b.2)

/-! ## Headless swap chain -/

structure VulkanPlatformHeadlessSwapChain extends VulkanPlatformSwapChainImpl where
  mCurrentIndex : Nat
deriving DecidableEq, Repr

/-- The loop of the headless constructor that fills `images`: `n` iterations are left, `i` is
the loop variable. -/
def createColorImages (P : Platform) (context : VulkanContext) (extent : VkExtent2D)
    (reply : Nat → ImageReply) :
    Nat → Nat → VulkanPlatformSwapChainImpl →
      Except Fatal (VulkanPlatformSwapChainImpl × List Event)
  | 0, _, s => .ok (s, [])
  | n + 1, i, s =>
      match s.createImage P context extent s.mSwapChainBundle.colorFormat false (reply i) with
      | .error e => .error e
      | .ok (image, s1, events) =>
        match createColorImages P context extent reply n (i + 1)
            { s1 with mSwapChainBundle :=
                { s1.mSwapChainBundle with colors := s1.mSwapChainBundle.colors.set i image } } with
        | .error e => .error e
        | .ok (s2, rest) => .ok (s2, events ++ rest)

/-- The call `images.resize(n)`: the first `n` elements, padded with null handles. -/
def resizeImages (images : List VkImage) (n : Nat) : List VkImage :=
  images.take n ++ List.replicate (n - images.length) VK_NULL_HANDLE

/-- Embedding of the constructor of `VulkanPlatformHeadlessSwapChain`; `colorReply i` is what
the driver answers while image `i` is created. -/
def VulkanPlatformHeadlessSwapChain.construct (P : Platform) (context : VulkanContext)
    (device queue : VkHandle) (extent : VkExtent2D) (flags : Nat) (members : SwapChainBundle)
    (colorReply : Nat → ImageReply) (depthReply : ImageReply) :
    Except Fatal (VulkanPlatformHeadlessSwapChain × List Event) :=
  let b0 := VulkanPlatformSwapChainImpl.construct device queue members
  let b1 : VulkanPlatformSwapChainImpl :=
    { b0 with mSwapChainBundle :=
        { b0.mSwapChainBundle with
            extent := extent
            colorFormat :=
              if flags &&& P.SWAP_CHAIN_CONFIG_SRGB_COLORSPACE ≠ 0 then VK_FORMAT_R8G8B8A8_SRGB
              else VK_FORMAT_R8G8B8A8_UNORM } }
  let b2 : VulkanPlatformSwapChainImpl :=
    { b1 with mSwapChainBundle :=
        { b1.mSwapChainBundle with
            colors := resizeImages b1.mSwapChainBundle.colors P.HEADLESS_SWAPCHAIN_SIZE } }
  match createColorImages P context extent colorReply P.HEADLESS_SWAPCHAIN_SIZE 0 b2 with
  | .error e => .error e
  | .ok (b3, colorEvents) =>
    let hasStencil := decide (flags &&& P.SWAP_CHAIN_HAS_STENCIL_BUFFER ≠ 0)
    match selectDepthFormat P context.getAttachmentDepthStencilFormats hasStencil with
    | .error e => .error e
    | .ok depthFormat =>
      let b4 : VulkanPlatformSwapChainImpl :=
        { b3 with mSwapChainBundle := { b3.mSwapChainBundle with depthFormat := depthFormat } }
      match b4.createImage P context extent b4.mSwapChainBundle.depthFormat false depthReply with
      | .error e => .error e
      | .ok (depth, b5, depthEvents) =>
        .ok ({ toVulkanPlatformSwapChainImpl :=
                 { b5 with mSwapChainBundle := { b5.mSwapChainBundle with depth := depth } }
               mCurrentIndex := 0 },
             colorEvents ++ depthEvents)

/-- Embedding of `VulkanPlatformHeadlessSwapChain::present`. -/
def VulkanPlatformHeadlessSwapChain.present (s : VulkanPlatformHeadlessSwapChain)
    (_index : Nat) (_finished : VkSemaphore) :
    VkResult × VulkanPlatformHeadlessSwapChain × List Event :=
  (VK_SUCCESS, s, [])

/-- Embedding of `VulkanPlatformHeadlessSwapChain::acquire`. -/
def VulkanPlatformHeadlessSwapChain.acquire (P : Platform)
    (s : VulkanPlatformHeadlessSwapChain) (outImageSyncData : ImageSyncData) :
    VkResult × VulkanPlatformHeadlessSwapChain × ImageSyncData × List Event :=
  (VK_SUCCESS,
   { s with mCurrentIndex := (s.mCurrentIndex + 1) % P.HEADLESS_SWAPCHAIN_SIZE },
   { outImageSyncData with imageIndex := s.mCurrentIndex },
   [])

/-- The range-for loop of `VulkanPlatformHeadlessSwapChain::destroy` over the color images. -/
def destroyColorImages (device : VkHandle) :
    List VkImage → MemoryRegistry → MemoryRegistry × List Event
  | [], m => (m, [])
  | image :: rest, m =>
      let r := destroyImageAndMemory device m image
      let t := destroyColorImages device rest r.1
      (t.1, r.2 ++ t.2)

/-- Embedding of `VulkanPlatformHeadlessSwapChain::destroy`. -/
def VulkanPlatformHeadlessSwapChain.destroy (s : VulkanPlatformHeadlessSwapChain) :
    VulkanPlatformHeadlessSwapChain × List Event :=
  let r := destroyColorImages s.mDevice s.mSwapChainBundle.colors s.mMemory
  ({ s with
      toVulkanPlatformSwapChainImpl :=
        { s.toVulkanPlatformSwapChainImpl with
            mMemory := r.1
            mSwapChainBundle := { s.mSwapChainBundle with colors := [] } } },
   r.2)

/-- Embedding of the destructor of `VulkanPlatformHeadlessSwapChain`, the base class
destructor included. -/
def VulkanPlatformHeadlessSwapChain.destruct (s : VulkanPlatformHeadlessSwapChain) :
    VulkanPlatformHeadlessSwapChain × List Event :=
  let d := s.destroy
  let b := d.1.toVulkanPlatformSwapChainImpl.destroy
  ({ d.1 with toVulkanPlatformSwapChainImpl := b.1 }, d.2 ++ b.2)

/-! ## DescriptorSet (`filament/src/ds/DescriptorSet.h`) -/

/-- Modelled from the spec: `utils::bitset64` (utils/bitset.h) is not among the translated
files. The spec describes `dirty` and `valid` as a "bitset, one bit per binding"; it is the
number whose binary digit `i` is bit `i`, and `any()` tells whether some bit is set. -/
def bitsetAny (bits : Nat) : Bool :=
  decide (bits ≠ 0)

/-- Modelled from the spec: setting bit `i` of a `utils::bitset64` ("set whenever a slot is
written"). -/
def bitsetSet (bits i : Nat) : Nat :=
  bits ||| 1 <<< i

/-- Modelled from the spec: reading bit `i` of a `utils::bitset64`. -/
def bitsetTest (bits i : Nat) : Bool :=
  bits.testBit i

/-- The union `DescriptorSet::Desc`: the `buffer` member (handle, offset, size) or the
`texture` member (handle, sampler parameters). -/
inductive Desc where
  | buffer (boh offset size : Nat)
  | texture (th params : Nat)
deriving DecidableEq, Repr

/-- The data members of `DescriptorSet`. -/
structure DescriptorSet where
  mDescriptors : List Desc
  mDirty : Nat
  mValid : Nat
  mDescriptorSetHandle : Nat
  mSetAfterCommitWarning : Bool
  mSetUndefinedParameterWarning : Bool
  mName : String
deriving DecidableEq, Repr

/-- What a layout declares for a binding slot. -/
inductive DescriptorKind where
  | buffer
  | sampler
deriving DecidableEq, Repr

/-- Modelled from the spec: `DescriptorSetLayout` (DescriptorSetLayout.h) is not among the
translated files. It "declares, per binding slot, whether it expects a buffer or sampler
resource": the list of the declared bindings with their kind. -/
structure DescriptorSetLayout where
  bindings : List (Nat × DescriptorKind)
deriving DecidableEq, Repr

/-- The kind a layout declares for `binding`, if it declares the binding at all. -/
def DescriptorSetLayout.declared (layout : DescriptorSetLayout) (binding : Nat) :
    Option DescriptorKind :=
  (layout.bindings.find? (fun d => d.1 == binding)).map Prod.snd

/-- The backend calls a descriptor set makes through `backend::DriverApi`. -/
inductive DriverCall where
  | updateDescriptorSetBuffer (dsh binding boh offset size : Nat)
  | updateDescriptorSetTexture (dsh binding th params : Nat)
deriving DecidableEq, Repr

/-- The precondition violations of the setters. -/
inductive DescriptorFatal where
  | unknownBinding (binding : Nat)
  | typeMismatch (binding : Nat)
deriving DecidableEq, Repr

/-- Modelled from the spec: `DescriptorSet::setBuffer` is declared in DescriptorSet.h and
defined in DescriptorSet.cpp, which is not among the translated files. The spec: "validate
that `binding` exists in `layout` and that its declared type matches the call (fatal
precondition violation on mismatch); write the tagged slot; set both `dirty[binding]` and
`valid[binding]`". Diagnostics are left out. -/
def DescriptorSet.setBuffer (s : DescriptorSet) (layout : DescriptorSetLayout)
    (binding boh offset size : Nat) : Except DescriptorFatal DescriptorSet :=
  match layout.declared binding with
  | none => .error (.unknownBinding binding)
  | some .sampler => .error (.typeMismatch binding)
  | some .buffer =>
      .ok { s with
              mDescriptors := s.mDescriptors.set binding (.buffer boh offset size)
              mDirty := bitsetSet s.mDirty binding
              mValid := bitsetSet s.mValid binding }

/-- Modelled from the spec: `DescriptorSet::setSampler`, defined in DescriptorSet.cpp like
`setBuffer` and described by the same sentence of the spec. -/
def DescriptorSet.setSampler (s : DescriptorSet) (layout : DescriptorSetLayout)
    (binding th params : Nat) : Except DescriptorFatal DescriptorSet :=
  match layout.declared binding with
  | none => .error (.unknownBinding binding)
  | some .buffer => .error (.typeMismatch binding)
  | some .sampler =>
      .ok { s with
              mDescriptors := s.mDescriptors.set binding (.texture th params)
              mDirty := bitsetSet s.mDirty binding
              mValid := bitsetSet s.mValid binding }

/-- The backend update for one binding, from the contents of its slot; a binding without a
slot reads as a default-constructed `Desc`, whose `buffer` member is zero-initialised. -/
def descriptorUpdate (s : DescriptorSet) (binding : Nat) : DriverCall :=
  match s.mDescriptors.getD binding (.buffer 0 0 0) with
  | .buffer boh offset size =>
      .updateDescriptorSetBuffer s.mDescriptorSetHandle binding boh offset size
  | .texture th params => .updateDescriptorSetTexture s.mDescriptorSetHandle binding th params

/-- Modelled from the spec: `DescriptorSet::commitSlow` is declared in DescriptorSet.h and
defined in DescriptorSet.cpp, which is not among the translated files. The spec: "for each
dirty bit, translate the slot's tagged contents into a backend update call for that binding
(buffer update carries handle+offset+size; sampler update carries handle+params), then clear
all dirty bits", the bindings being visited "in binding order". The warning about bindings
that were never set is a diagnostic and is left out. -/
def DescriptorSet.commitSlow (_layout : DescriptorSetLayout) (s : DescriptorSet) :
    DescriptorSet × List DriverCall :=
  ({ s with mDirty := 0 },
   ((List.range 64).filter (fun binding => bitsetTest s.mDirty binding)).map
     (descriptorUpdate s))

/-- Embedding of `DescriptorSet::commit`, the inline function of DescriptorSet.h; the
out-of-line `commitSlow` it calls is an argument. -/
def DescriptorSet.commit
    (commitSlow : DescriptorSetLayout → DescriptorSet → DescriptorSet × List DriverCall)
    (layout : DescriptorSetLayout) (s : DescriptorSet) : DescriptorSet × List DriverCall :=
  if bitsetAny s.mDirty then commitSlow layout s else (s, [])

/-! ## MaterialInstance name helpers (`filament/include/filament/MaterialInstance.h`)

A `const char*` is the characters found in memory from the pointer on, as a list of character
codes; a `const char[N]` is such a list of length `N`. The name+length member functions are
only declared in the header: each helper takes the one it forwards to as the argument
`target`. -/

/-- The C library function `strlen`: the number of characters before the first NUL. -/
def strlen : List Nat → Nat
  | [] => 0
  | c :: rest => if c = 0 then 0 else strlen rest + 1

/-- The struct `MaterialInstance::StringLiteral`. -/
structure StringLiteral where
  data : List Nat
  size : Nat
deriving DecidableEq, Repr

/-- The converting constructor of `StringLiteral` from a `const char[N]`: `data(s)`,
`size(N - 1)`; an array has at least one element, so the subtraction does not wrap. -/
def StringLiteral.construct (s : List Nat) : StringLiteral :=
  { data := s, size := s.length - 1 }

/-- Embedding of `setParameter(StringLiteral name, T const& value)` (lines 125-127). -/
def setParameterLiteral {T R : Type} (target : List Nat → Nat → T → R)
    (name : StringLiteral) (value : T) : R :=
  target name.data name.size value

/-- Embedding of `setParameter(const char* name, T const& value)` (lines 131-133). -/
def setParameterCString {T R : Type} (target : List Nat → Nat → T → R)
    (name : List Nat) (value : T) : R :=
  target name (strlen name) value

/-- Embedding of `setParameter(StringLiteral name, const T* values, size_t count)`
(lines 152-154). -/
def setParameterArrayLiteral {A R : Type} (target : List Nat → Nat → A → Nat → R)
    (name : StringLiteral) (values : A) (count : Nat) : R :=
  target name.data name.size values count

/-- Embedding of `setParameter(const char* name, const T* values, size_t count)`
(lines 158-161). -/
def setParameterArrayCString {A R : Type} (target : List Nat → Nat → A → Nat → R)
    (name : List Nat) (values : A) (count : Nat) : R :=
  target name (strlen name) values count

/-- Embedding of `setParameter(StringLiteral name, Texture const* texture,
TextureSampler const& sampler)` (lines 180-183). -/
def setParameterTextureLiteral {X S R : Type} (target : List Nat → Nat → X → S → R)
    (name : StringLiteral) (texture : X) (sampler : S) : R :=
  target name.data name.size texture sampler

/-- Embedding of `setParameter(const char* name, Texture const* texture,
TextureSampler const& sampler)` (lines 186-189). -/
def setParameterTextureCString {X S R : Type} (target : List Nat → Nat → X → S → R)
    (name : List Nat) (texture : X) (sampler : S) : R :=
  target name (strlen name) texture sampler

/-- Embedding of `setParameter(StringLiteral name, RgbType type, math::float3 color)`
(lines 206-208). -/
def setParameterRgbLiteral {K C R : Type} (target : List Nat → Nat → K → C → R)
    (name : StringLiteral) (type : K) (color : C) : R :=
  target name.data name.size type color

/-- Embedding of `setParameter(const char* name, RgbType type, math::float3 color)`
(lines 211-213). -/
def setParameterRgbCString {K C R : Type} (target : List Nat → Nat → K → C → R)
    (name : List Nat) (type : K) (color : C) : R :=
  target name (strlen name) type color

/-- Embedding of `setParameter(StringLiteral name, RgbaType type, math::float4 color)`
(lines 230-232). -/
def setParameterRgbaLiteral {K C R : Type} (target : List Nat → Nat → K → C → R)
    (name : StringLiteral) (type : K) (color : C) : R :=
  target name.data name.size type color

/-- Embedding of `setParameter(const char* name, RgbaType type, math::float4 color)`
(lines 235-237). -/
def setParameterRgbaCString {K C R : Type} (target : List Nat → Nat → K → C → R)
    (name : List Nat) (type : K) (color : C) : R :=
  target name (strlen name) type color

/-- Embedding of `getParameter(StringLiteral name)` (lines 255-257). -/
def getParameterLiteral {T : Type} (target : List Nat → Nat → T) (name : StringLiteral) : T :=
  target name.data name.size

/-- Embedding of `getParameter(const char* name)` (lines 261-263). -/
def getParameterCString {T : Type} (target : List Nat → Nat → T) (name : List Nat) : T :=
  target name (strlen name)

/-- A name+length member function that does nothing but report the call it received: the
pointer, the length and the value arguments. -/
def recordCall {V : Type} (name : List Nat) (nameLength : Nat) (value : V) :
    List Nat × Nat × V :=
  (name, nameLength, value)

/-! ## The surface format selection as the spec words it -/

/-- The ordered preference list of the spec: "`{RGBA8-unorm, BGRA8-unorm}` normally, or
`{RGBA8-srgb, BGRA8-srgb}` if sRGB colorspace was requested". -/
def specPreferenceList (sRGB : Bool) : List VkFormat :=
  match sRGB with
  | false => [VK_FORMAT_R8G8B8A8_UNORM, VK_FORMAT_B8G8R8A8_UNORM]
  | true => [VK_FORMAT_R8G8B8A8_SRGB, VK_FORMAT_B8G8R8A8_SRGB]

/-- The scan of the spec: "scan the surface's supported formats for the first match against an
ordered preference list"; `none` stands for "No match". -/
def specSelectSurfaceFormat (sRGB : Bool) (supported : List VkSurfaceFormatKHR) :
    Option VkSurfaceFormatKHR :=
  supported.find? (fun candidate => decide (candidate.format ∈ specPreferenceList sRGB))

/-! ## Call sequences on a headless swap chain -/

/-- One call of a client on a headless swap chain. -/
inductive HeadlessCall where
  | acquire
  | present (index : Nat) (finished : VkSemaphore)
deriving DecidableEq, Repr

/-- Runs the calls in order on the object `s`, the client passing the same `ImageSyncData` to
every `acquire`. Returns, for each call, the code it returned and, for an `acquire`, the image
index found in the sync data afterwards; then the object and the sync data at the end. -/
def headlessRun (P : Platform) :
    VulkanPlatformHeadlessSwapChain → ImageSyncData → List HeadlessCall →
      List (VkResult × Option Nat) × VulkanPlatformHeadlessSwapChain × ImageSyncData
  | s, out, [] => ([], s, out)
  | s, out, .acquire :: rest =>
      let r := s.acquire P out
      let t := headlessRun P r.2.1 r.2.2.1 rest
      ((r.1, some r.2.2.1.imageIndex) :: t.1, t.2)
  | s, out, .present index finished :: rest =>
      let r := s.present index finished
      let t := headlessRun P r.2.1 out rest
      ((r.1, none) :: t.1, t.2)

/-- The image indices written by the `acquire` calls of a run, in order. -/
def acquiredIndices (log : List (VkResult × Option Nat)) : List Nat :=
  log.filterMap Prod.snd

/-- Number of `acquire` calls in a list of calls. -/
def acquireCount : List HeadlessCall → Nat
  | [] => 0
  | .acquire :: rest => acquireCount rest + 1
  | .present _ _ :: rest => acquireCount rest

/-! ## Life of a surface-backed swap chain -/

/-- The keys of the registry: the images that have an entry, one occurrence per entry. -/
def registryKeys (m : MemoryRegistry) : List VkImage :=
  m.map Prod.fst

/-- Runs `recreate` once for every element of `replies`, in order, each time with the driver
answers of that element; stops at the first fatal check. -/
def recreateAll (P : Platform) (context : VulkanContext) :
    VulkanPlatformSurfaceSwapChain → List SurfaceReplies →
      Except Fatal VulkanPlatformSurfaceSwapChain
  | s, [] => .ok s
  | s, drv :: rest =>
      match s.recreate P context drv with
      | .error e => .error e
      | .ok (_, s1, _) => recreateAll P context s1 rest

/-! ## Repeated `acquire` on a surface-backed swap chain -/

/-- Runs `acquire` once for every driver answer of `replies`, in order, the client passing
the sync data of the previous call; returns what each call returned. -/
def acquireAll (P : Platform) :
    VulkanPlatformSurfaceSwapChain → ImageSyncData → List AcquireReply →
      List (VkResult × VulkanPlatformSurfaceSwapChain × ImageSyncData × List Event)
  | _, _, [] => []
  | s, out, reply :: rest =>
      let r := s.acquire P out reply
      r :: acquireAll P r.2.1 r.2.2.1 rest

/-- The pool slot each call of a run of `acquire` used: the value of
`mCurrentImageReadyIndex` it left. -/
def acquireSlots
    (run : List (VkResult × VulkanPlatformSurfaceSwapChain × ImageSyncData × List Event)) :
    List Nat :=
  run.map (fun r => r.2.1.mCurrentImageReadyIndex)

/-! ## Mixed `acquire` and `present` calls on a surface-backed swap chain -/

/-- One call of a client on a surface-backed swap chain, with what the driver answers. -/
inductive SurfaceCall where
  | acquire (reply : AcquireReply)
  | present (index : Nat) (finished : VkSemaphore) (result : VkResult)
deriving DecidableEq, Repr

/-- The result code the driver gives during a call. -/
def SurfaceCall.driverResult : SurfaceCall → VkResult
  | .acquire reply => reply.result
  | .present _ _ result => result

/-- Runs the calls in order on the object `s`, the client passing the sync data of the
previous `acquire`. Returns, for each call, the code it returned and its trace; then the
object at the end. -/
def surfaceRun (P : Platform) :
    VulkanPlatformSurfaceSwapChain → ImageSyncData → List SurfaceCall →
      List (VkResult × List Event) × VulkanPlatformSurfaceSwapChain
  | s, _, [] => ([], s)
  | s, out, .acquire reply :: rest =>
      let r := s.acquire P out reply
      let t := surfaceRun P r.2.1 r.2.2.1 rest
      ((r.1, r.2.2.2) :: t.1, t.2)
  | s, out, .present index finished result :: rest =>
      let r := s.present index finished result
      let t := surfaceRun P r.2.1 out rest
      ((r.1, r.2.2) :: t.1, t.2)

/-- Number of "Suboptimal swap chain" warnings in a trace. -/
def suboptimalWarnings : List Event → Nat
  | [] => 0
  | .logSuboptimalSwapChain :: rest => suboptimalWarnings rest + 1
  | _ :: rest => suboptimalWarnings rest

/-! ## Reading a trace -/

/-- The creation requests handed to `vkCreateSwapchainKHR` in a trace, in order. -/
def swapchainRequests : List Event → List VkSwapchainCreateInfoKHR
  | [] => []
  | .vkCreateSwapchainKHR _ createInfo :: rest => createInfo :: swapchainRequests rest
  | _ :: rest => swapchainRequests rest

/-- The images handed to `vkDestroyImage` in a trace, in order. -/
def destroyedImages : List Event → List VkImage
  | [] => []
  | .vkDestroyImage _ image :: rest => image :: destroyedImages rest
  | _ :: rest => destroyedImages rest

/-- The memory objects handed to `vkFreeMemory` in a trace, in order. -/
def freedMemories : List Event → List VkDeviceMemory
  | [] => []
  | .vkFreeMemory _ memory :: rest => memory :: freedMemories rest
  | _ :: rest => freedMemories rest

/-- Whether an event destroys or frees a driver object. -/
def isDestruction : Event → Bool
  | .vkDestroyImage _ _ => true
  | .vkFreeMemory _ _ => true
  | .vkDestroySemaphore _ _ => true
  | .vkDestroySwapchainKHR _ _ => true
  | _ => false

/-! ## Concrete instances

A platform, a context, an object and driver answers on which the embedded functions are
evaluated. -/

/-- A platform with the Vulkan value of the undefined extent, a pool of three semaphores and a
headless ring of three images; the format predicates recognise the Vulkan depth and
depth-stencil formats (124 to 130), and the flag masks are those of `DriverEnums.h`. -/
def samplePlatform : Platform :=
  { VULKAN_UNDEFINED_EXTENT := 0xFFFFFFFF
    IMAGE_READY_SEMAPHORE_COUNT := 3
    HEADLESS_SWAPCHAIN_SIZE := 3
    isVkDepthFormat := fun f => [124, 125, 126, 128, 129, 130].contains f
    isVkStencilFormat := fun f => [127, 128, 129, 130].contains f
    SWAP_CHAIN_CONFIG_SRGB_COLORSPACE := 0x10
    SWAP_CHAIN_HAS_STENCIL_BUFFER := 0x20
    SWAP_CHAIN_CONFIG_PROTECTED_CONTENT := 0x40 }

/-- A context that offers D32_SFLOAT (126) and D24_UNORM_S8_UINT (129) and always finds
memory type 1. -/
def sampleContext : VulkanContext :=
  { selectMemoryType := fun _ _ => 1
    getAttachmentDepthStencilFormats := [126, 129] }

/-- A driver answer for one image: every call succeeds. -/
def sampleImageReply (image : VkImage) (memory : VkDeviceMemory) : ImageReply :=
  { createResult := VK_SUCCESS
    image := image
    memoryTypeBits := 0x3
    size := 4096
    allocateResult := VK_SUCCESS
    memory := memory
    bindResult := VK_SUCCESS }

/-- Driver answers for one `create`: the given capabilities, the formats BGRA8-unorm then
RGBA8-unorm, FIFO presentation, swap chain 900 with images 901 and 902, depth image 950 backed
by memory 951, semaphores 960, 961, ... -/
def sampleReplies (caps : VkSurfaceCapabilitiesKHR) : SurfaceReplies :=
  { caps := caps
    surfaceFormats :=
      [ { format := VK_FORMAT_B8G8R8A8_UNORM, colorSpace := 0 },
        { format := VK_FORMAT_R8G8B8A8_UNORM, colorSpace := 0 } ]
    presentModes := [0, VK_PRESENT_MODE_FIFO_KHR]
    swapchainResult := VK_SUCCESS
    swapchain := 900
    swapchainImages := [901, 902]
    depthImage := sampleImageReply 950 951
    semaphores := fun i => (VK_SUCCESS, 960 + i) }

/-- Capabilities with the given image counts and current extent. -/
def sampleCaps (minImageCount maxImageCount width height : Nat) : VkSurfaceCapabilitiesKHR :=
  { minImageCount := minImageCount
    maxImageCount := maxImageCount
    currentExtent := { width := width, height := height }
    supportedCompositeAlpha := VK_COMPOSITE_ALPHA_OPAQUE_BIT_KHR
    currentTransform := 1 }

/-- A surface-backed swap chain as `create` leaves it: swap chain 7 with images 11 and 12,
depth image 21 backed by memory 31, semaphores 41, 42, 43, extent 640x480, fallback extent
800x600. -/
def sampleSurface (suboptimal : Bool) : VulkanPlatformSurfaceSwapChain :=
  { mDevice := 1
    mQueue := 2
    mSwapChainBundle :=
      { colors := [11, 12]
        depth := 21
        colorFormat := VK_FORMAT_B8G8R8A8_UNORM
        depthFormat := 126
        extent := { width := 640, height := 480 }
        isProtected := false }
    mMemory := [(21, 31)]
    mInstance := 3
    mPhysicalDevice := 4
    mSurface := 5
    mFallbackExtent := { width := 800, height := 600 }
    mUsesRGB := false
    mHasStencil := false
    mIsProtected := false
    mSwapchain := 7
    mImageReady := [41, 42, 43]
    mCurrentImageReadyIndex := 0
    mSuboptimal := suboptimal }

/-- The bundle members before any constructor body runs. -/
def sampleMembers : SwapChainBundle :=
  { colors := []
    depth := VK_NULL_HANDLE
    colorFormat := VK_FORMAT_UNDEFINED
    depthFormat := VK_FORMAT_UNDEFINED
    extent := { width := 0, height := 0 }
    isProtected := false }

/-- The object `sampleSurface` after `destroy`, which is also how a new object looks when
`create` runs for the first time: no image, no registry entry, no swap chain, null semaphores. -/
def sampleDestroyed (suboptimal : Bool) : VulkanPlatformSurfaceSwapChain :=
  { sampleSurface suboptimal with
      mSwapChainBundle :=
        { colors := []
          depth := VK_NULL_HANDLE
          colorFormat := VK_FORMAT_B8G8R8A8_UNORM
          depthFormat := 126
          extent := { width := 640, height := 480 }
          isProtected := false }
      mMemory := []
      mSwapchain := VK_NULL_HANDLE
      mImageReady := [0, 0, 0] }

/-- The object that `create` with the answers `sampleReplies` leaves behind, for the extent it
resolved. -/
def sampleCreated (suboptimal : Bool) (extent : VkExtent2D) : VulkanPlatformSurfaceSwapChain :=
  { sampleSurface suboptimal with
      mSwapChainBundle :=
        { colors := [901, 902]
          depth := 950
          colorFormat := VK_FORMAT_B8G8R8A8_UNORM
          depthFormat := 126
          extent := extent
          isProtected := false }
      mMemory := [(950, 951)]
      mSwapchain := 900
      mImageReady := [960, 961, 962] }

/-- The trace of `create` on `sampleDestroyed` with the answers `sampleReplies`, for the image
count it requested, the extent it resolved and the warning it logged on the way. -/
def sampleCreateEvents (count : Nat) (extent : VkExtent2D) (warning : List Event) : List Event :=
  [.vkGetPhysicalDeviceSurfaceCapabilitiesKHR 4 5] ++ warning ++
  [ .vkGetPhysicalDeviceSurfaceFormatsKHR 4 5,
    .vkGetPhysicalDeviceSurfacePresentModesKHR 4 5,
    .vkCreateSwapchainKHR 1
      { flags := 0, surface := 5, minImageCount := count, imageFormat := 44,
        imageColorSpace := 0, imageExtent := extent, imageArrayLayers := 1, imageUsage := 19,
        preTransform := 1, compositeAlpha := 1, presentMode := 2, clipped := true,
        oldSwapchain := 0 },
    .vkGetSwapchainImagesKHR 1 900,
    .vkCreateImage 1
      { flags := 0, imageType := 1, format := 126, extent := (extent.width, extent.height, 1),
        mipLevels := 1, arrayLayers := 1, samples := 1, tiling := 0, usage := 35 },
    .vkGetImageMemoryRequirements 1 950,
    .vkAllocateMemory 1 { allocationSize := 4096, memoryTypeIndex := 1 },
    .vkBindImageMemory 1 950 951,
    .logCreateSwapchain extent 44 0 2 true 126 false,
    .vkCreateSemaphore 1 0,
    .vkCreateSemaphore 1 1,
    .vkCreateSemaphore 1 2 ]

/-- The trace of `destroy` on `sampleSurface`. -/
def sampleDestroyEvents : List Event :=
  [ .vkQueueWaitIdle 2, .vkDestroyImage 1 21, .vkFreeMemory 1 31, .vkDestroySemaphore 1 41,
    .vkDestroySemaphore 1 42, .vkDestroySemaphore 1 43, .vkDestroySwapchainKHR 1 7 ]

/-- The four driver calls of one successful `createImageAndMemory` on device 1 with the
answers `sampleImageReply image memory`, for a 64x64 image. -/
def sampleImageEvents (format usage : Nat) (image : VkImage) (memory : VkDeviceMemory) :
    List Event :=
  [ .vkCreateImage 1
      { flags := 0, imageType := 1, format := format, extent := (64, 64, 1), mipLevels := 1,
        arrayLayers := 1, samples := 1, tiling := 0, usage := usage },
    .vkGetImageMemoryRequirements 1 image,
    .vkAllocateMemory 1 { allocationSize := 4096, memoryTypeIndex := 1 },
    .vkBindImageMemory 1 image memory ]

/-- The headless swap chain built on `samplePlatform` for a 64x64 extent with the stencil flag,
when the driver hands out the color images 100, 101, 102 (memory 200, 201, 202) and the depth
image 150 (memory 250). -/
def sampleHeadless : VulkanPlatformHeadlessSwapChain :=
  { mDevice := 1
    mQueue := 2
    mSwapChainBundle :=
      { colors := [100, 101, 102]
        depth := 150
        colorFormat := VK_FORMAT_R8G8B8A8_UNORM
        depthFormat := 129
        extent := { width := 64, height := 64 }
        isProtected := false }
    mMemory := [(100, 200), (101, 201), (102, 202), (150, 250)]
    mCurrentIndex := 0 }

/-- The trace of the construction of `sampleHeadless`. -/
def sampleHeadlessEvents : List Event :=
  sampleImageEvents 37 19 100 200 ++ sampleImageEvents 37 19 101 201
    ++ sampleImageEvents 37 19 102 202 ++ sampleImageEvents 129 35 150 250


/-- A layout declaring binding 0 as a buffer, binding 1 as a sampler and binding 3 as a
buffer. -/
def sampleLayout : DescriptorSetLayout :=
  { bindings := [(0, .buffer), (1, .sampler), (3, .buffer)] }

/-- A descriptor set with four slots, backend handle 9 and no dirty bit. -/
def sampleDescriptorSet : DescriptorSet :=
  { mDescriptors := [.buffer 0 0 0, .buffer 0 0 0, .buffer 0 0 0, .buffer 0 0 0]
    mDirty := 0
    mValid := 0
    mDescriptorSetHandle := 9
    mSetAfterCommitWarning := false
    mSetUndefinedParameterWarning := false
    mName := "sample" }

/-- The sample descriptor set after `setBuffer` of buffer 70, offset 16, size 256 on
binding 3. -/
def sampleDescriptorSetWritten : DescriptorSet :=
  { sampleDescriptorSet with
      mDescriptors := [.buffer 0 0 0, .buffer 0 0 0, .buffer 0 0 0, .buffer 70 16 256]
      mDirty := 8
      mValid := 8 }

/-- The sample descriptor set after that write and a `commit`. -/
def sampleDescriptorSetCommitted : DescriptorSet :=
  { sampleDescriptorSetWritten with mDirty := 0 }

/-- A context that offers only D32_SFLOAT (126), which has no stencil aspect. -/
def sampleContextNoStencil : VulkanContext :=
  { selectMemoryType := fun _ _ => 1
    getAttachmentDepthStencilFormats := [126] }

/-- The object `sampleDestroyed false` configured with a stencil buffer. -/
def sampleDestroyedStencil : VulkanPlatformSurfaceSwapChain :=
  { sampleDestroyed false with mHasStencil := true }

/-- A context whose memory type query finds nothing and answers `VK_MAX_MEMORY_TYPES`. -/
def sampleContextNoMemory : VulkanContext :=
  { selectMemoryType := fun _ _ => VK_MAX_MEMORY_TYPES
    getAttachmentDepthStencilFormats := [126, 129] }

/-- Driver answers for one `create` in which every call reports success, but the driver
enumerates no swap chain image and hands back the null handle for the depth image. -/
def sampleRepliesNoImages : SurfaceReplies :=
  { sampleReplies (sampleCaps 2 3 1024 600) with
      swapchainImages := []
      depthImage := sampleImageReply VK_NULL_HANDLE 951 }

/-! ## Auxiliary facts about `create` -/

theorem createImageAndMemory_ok_inv {P : Platform} {context : VulkanContext} {device : VkHandle}
    {extent : VkExtent2D} {format : VkFormat} {isProtected : Bool} {drv : ImageReply}
    {x : (VkImage × VkDeviceMemory) × List Event}
    (h : createImageAndMemory P context device extent format isProtected drv = .ok x) :
    x = ((drv.image, drv.memory),
          [ .vkCreateImage device (imageCreateInfo P extent format isProtected),
            .vkGetImageMemoryRequirements device drv.image,
            .vkAllocateMemory device
              { allocationSize := drv.size
                memoryTypeIndex :=
                  context.selectMemoryType drv.memoryTypeBits (requiredMemoryFlags isProtected) },
            .vkBindImageMemory device drv.image drv.memory ]) := by
  unfold createImageAndMemory at h
  simp only at h
  split at h
  · cases h
  · split at h
    · cases h
    · split at h
      · cases h
      · split at h
        · cases h
        · cases h
          rfl

theorem createImage_ok_inv {P : Platform} {context : VulkanContext}
    {s : VulkanPlatformSwapChainImpl} {extent : VkExtent2D} {format : VkFormat}
    {isProtected : Bool} {drv : ImageReply}
    {image : VkImage} {s1 : VulkanPlatformSwapChainImpl} {events : List Event}
    (h : s.createImage P context extent format isProtected drv = .ok (image, s1, events)) :
    image = drv.image ∧
      s1 = { s with mMemory := registryInsert s.mMemory drv.image drv.memory } ∧
      swapchainRequests events = [] := by
  unfold VulkanPlatformSwapChainImpl.createImage at h
  split at h
  · cases h
  · rename_i img mem ev heq
    have h1 := createImageAndMemory_ok_inv heq
    simp only [Prod.mk.injEq] at h1
    obtain ⟨⟨rfl, rfl⟩, rfl⟩ := h1
    simp only [Except.ok.injEq, Prod.mk.injEq] at h
    obtain ⟨rfl, rfl, rfl⟩ := h
    exact ⟨rfl, rfl, rfl⟩

theorem swapchainRequests_append (a b : List Event) :
    swapchainRequests (a ++ b) = swapchainRequests a ++ swapchainRequests b := by
  induction a with
  | nil => rfl
  | cons e rest ih =>
    cases e <;> simp [swapchainRequests, ih]

theorem createSemaphores_requests {device : VkHandle} {reply : Nat → VkResult × VkSemaphore}
    (n : Nat) :
    ∀ (i : Nat) (imageReady imageReady1 : List VkSemaphore) (events : List Event),
      createSemaphores device reply n i imageReady = .ok (imageReady1, events) →
      swapchainRequests events = [] := by
  induction n with
  | zero =>
    intro i a b ev h
    simp only [createSemaphores, Except.ok.injEq, Prod.mk.injEq] at h
    rw [← h.2]
    rfl
  | succ n ih =>
    intro i a b ev h
    simp only [createSemaphores] at h
    split at h
    · cases h
    · split at h
      · cases h
      · rename_i a1 ev1 heq
        simp only [Except.ok.injEq, Prod.mk.injEq] at h
        rw [← h.2]
        simpa [swapchainRequests] using ih _ _ _ _ heq

theorem desiredImageCount_requests (caps : VkSurfaceCapabilitiesKHR) :
    swapchainRequests (desiredImageCount caps).2 = [] := by
  unfold desiredImageCount
  simp only
  split <;> rfl

/-- What a successful `create` did: every check passed, and the object and the creation
request are the ones spelled out here. -/
theorem create_ok_inv {P : Platform} {context : VulkanContext}
    {s : VulkanPlatformSurfaceSwapChain} {drv : SurfaceReplies} {r : VkResult}
    {s1 : VulkanPlatformSurfaceSwapChain} {events : List Event}
    (h : s.create P context drv = .ok (r, s1, events)) :
    ∃ surfaceFormat depthFormat imageReady semaphoreEvents,
      selectSurfaceFormat s.mUsesRGB drv.surfaceFormats = .ok surfaceFormat ∧
      foundSuitablePresentMode drv.presentModes = true ∧
      drv.swapchainResult = VK_SUCCESS ∧
      selectDepthFormat P context.getAttachmentDepthStencilFormats s.mHasStencil
        = .ok depthFormat ∧
      createSemaphores s.mDevice drv.semaphores P.IMAGE_READY_SEMAPHORE_COUNT 0 s.mImageReady
        = .ok (imageReady, semaphoreEvents) ∧
      r = VK_SUCCESS ∧
      s1 = { s with
              mSwapChainBundle :=
                { colors := drv.swapchainImages
                  depth := drv.depthImage.image
                  colorFormat := surfaceFormat.format
                  depthFormat := depthFormat
                  extent := resolveExtent P drv.caps.currentExtent s.mFallbackExtent
                  isProtected := s.mIsProtected }
              mMemory := registryInsert s.mMemory drv.depthImage.image drv.depthImage.memory
              mSwapchain := drv.swapchain
              mImageReady := imageReady } ∧
      swapchainRequests events =
        [ swapchainCreateInfo
            { s with mSwapChainBundle :=
                { s.mSwapChainBundle with
                    extent := resolveExtent P drv.caps.currentExtent s.mFallbackExtent } }
            drv.caps (desiredImageCount drv.caps).1 surfaceFormat ] := by
  unfold VulkanPlatformSurfaceSwapChain.create at h
  simp only at h
  split at h
  · cases h
  · rename_i surfaceFormat hsf
    split_ifs at h with hpm hsc
    split at h
    · cases h
    · rename_i depthFormat hdf
      split at h
      · cases h
      · rename_i depth base imageEvents himg
        split at h
        · cases h
        · rename_i imageReady semaphoreEvents hsem
          obtain ⟨rfl, rfl, hreq⟩ := createImage_ok_inv himg
          have hsemreq := createSemaphores_requests _ _ _ _ _ hsem
          simp only [Except.ok.injEq, Prod.mk.injEq] at h
          obtain ⟨rfl, rfl, rfl⟩ := h
          refine ⟨surfaceFormat, depthFormat, imageReady, semaphoreEvents, hsf, ?_, ?_, hdf,
            hsem, ?_, rfl, ?_⟩
          · simpa using hpm
          · simpa using hsc
          · simpa using hsc
          · simp [swapchainRequests_append, swapchainRequests, hreq, hsemreq,
              desiredImageCount_requests]


/-! ## C1: the extent of the bundle -/

/-- C1, as stated, fails: with a current extent whose width is the undefined sentinel and whose
height is 600, `create` succeeds and stores the fallback extent 800x600, although only one of
the two dimensions is the sentinel; the claim asks for the reported extent there. -/
theorem create_extent_one_sentinel_counterexample :
    (sampleDestroyed false).create samplePlatform sampleContext
        (sampleReplies (sampleCaps 2 3 0xFFFFFFFF 600))
      = .ok (VK_SUCCESS, sampleCreated false ⟨800, 600⟩, sampleCreateEvents 3 ⟨800, 600⟩ [])
    ∧ (sampleCaps 2 3 0xFFFFFFFF 600).currentExtent.width = samplePlatform.VULKAN_UNDEFINED_EXTENT
    ∧ (sampleCaps 2 3 0xFFFFFFFF 600).currentExtent.height ≠ samplePlatform.VULKAN_UNDEFINED_EXTENT
    ∧ (sampleCreated false ⟨800, 600⟩).mSwapChainBundle.extent
        = (sampleDestroyed false).mFallbackExtent
    ∧ (sampleCreated false ⟨800, 600⟩).mSwapChainBundle.extent
        ≠ (sampleCaps 2 3 0xFFFFFFFF 600).currentExtent := by
  decide

/-- C1, amended: after every successful `create`, the bundle extent is the fallback extent when
the reported width OR the reported height equals `VULKAN_UNDEFINED_EXTENT`, and is the reported
current extent when neither does. -/
theorem create_extent_resolved (P : Platform) (context : VulkanContext)
    (s s1 : VulkanPlatformSurfaceSwapChain) (drv : SurfaceReplies) (r : VkResult)
    (events : List Event) (h : s.create P context drv = .ok (r, s1, events)) :
    s1.mSwapChainBundle.extent =
      if drv.caps.currentExtent.width = P.VULKAN_UNDEFINED_EXTENT
          ∨ drv.caps.currentExtent.height = P.VULKAN_UNDEFINED_EXTENT then
        s.mFallbackExtent
      else drv.caps.currentExtent := by
  obtain ⟨_, _, _, _, _, _, _, _, _, _, rfl, _⟩ := create_ok_inv h
  rfl

/-- C1, amended, on a report with the defined extent 1024x600: the bundle gets the reported
extent. -/
theorem create_extent_resolved_witness :
    (sampleDestroyed false).create samplePlatform sampleContext
        (sampleReplies (sampleCaps 2 3 1024 600))
      = .ok (VK_SUCCESS, sampleCreated false ⟨1024, 600⟩, sampleCreateEvents 3 ⟨1024, 600⟩ [])
    ∧ (sampleCreated false ⟨1024, 600⟩).mSwapChainBundle.extent =
        if (sampleReplies (sampleCaps 2 3 1024 600)).caps.currentExtent.width
              = samplePlatform.VULKAN_UNDEFINED_EXTENT
            ∨ (sampleReplies (sampleCaps 2 3 1024 600)).caps.currentExtent.height
              = samplePlatform.VULKAN_UNDEFINED_EXTENT then
          (sampleDestroyed false).mFallbackExtent
        else (sampleReplies (sampleCaps 2 3 1024 600)).caps.currentExtent :=
  ⟨by decide,
   create_extent_resolved samplePlatform sampleContext (sampleDestroyed false)
     (sampleCreated false ⟨1024, 600⟩) (sampleReplies (sampleCaps 2 3 1024 600)) VK_SUCCESS
     (sampleCreateEvents 3 ⟨1024, 600⟩ []) (by decide)⟩

/-! ## C2: the requested image count -/

/-- The image count computed by lines 158-168 of `create`. -/
theorem desiredImageCount_value (caps : VkSurfaceCapabilitiesKHR) :
    (desiredImageCount caps).1 =
      if caps.maxImageCount = 0 ∨ (caps.minImageCount + 1) % 2 ^ 32 ≤ caps.maxImageCount then
        (caps.minImageCount + 1) % 2 ^ 32
      else caps.minImageCount := by
  unfold desiredImageCount UINT32_MOD
  simp only
  generalize (caps.minImageCount + 1) % 2 ^ 32 = d
  split_ifs with h1 h2 h2
  · omega
  · rfl
  · rfl
  · omega

/-- C2, as stated, fails: for the report minImageCount = 5, maxImageCount = 3 the cap is nonzero
and exceeded (6 > 3), and the single creation request of `create` asks for 5 images, the
reported minimum, not for the cap 3. -/
theorem create_image_count_counterexample :
    (sampleDestroyed false).create samplePlatform sampleContext
        (sampleReplies (sampleCaps 5 3 1024 600))
      = .ok (VK_SUCCESS, sampleCreated false ⟨1024, 600⟩,
          sampleCreateEvents 5 ⟨1024, 600⟩ [.logSwapChainDoesNotSupport 6])
    ∧ (swapchainRequests
          (sampleCreateEvents 5 ⟨1024, 600⟩ [.logSwapChainDoesNotSupport 6])).map
        (fun createInfo => createInfo.minImageCount) = [5]
    ∧ ¬ ((sampleCaps 5 3 1024 600).maxImageCount = 0
          ∨ ((sampleCaps 5 3 1024 600).minImageCount + 1) % 2 ^ 32
              ≤ (sampleCaps 5 3 1024 600).maxImageCount)
    ∧ (sampleCaps 5 3 1024 600).maxImageCount ≠ 5 := by
  decide

/-- C2, amended: every successful `create` issues exactly one swap chain creation request, and
its image count is `(minImageCount + 1) mod 2^32` when `maxImageCount` is 0 or that value does
not exceed `maxImageCount`, and is `minImageCount` otherwise. On a report with
`minImageCount ≤ maxImageCount` the latter value is `maxImageCount`, the figure of the claim. -/
theorem create_requested_image_count (P : Platform) (context : VulkanContext)
    (s s1 : VulkanPlatformSurfaceSwapChain) (drv : SurfaceReplies) (r : VkResult)
    (events : List Event) (h : s.create P context drv = .ok (r, s1, events)) :
    (swapchainRequests events).map (fun createInfo => createInfo.minImageCount) =
        [ if drv.caps.maxImageCount = 0
              ∨ (drv.caps.minImageCount + 1) % 2 ^ 32 ≤ drv.caps.maxImageCount then
            (drv.caps.minImageCount + 1) % 2 ^ 32
          else drv.caps.minImageCount ]
    ∧ (drv.caps.minImageCount ≤ drv.caps.maxImageCount →
        (swapchainRequests events).map (fun createInfo => createInfo.minImageCount) =
          [ if drv.caps.maxImageCount = 0
                ∨ (drv.caps.minImageCount + 1) % 2 ^ 32 ≤ drv.caps.maxImageCount then
              (drv.caps.minImageCount + 1) % 2 ^ 32
            else drv.caps.maxImageCount ]) := by
  obtain ⟨surfaceFormat, _, _, _, _, _, _, _, _, _, _, hreq⟩ := create_ok_inv h
  rw [hreq]
  simp only [List.map_cons, List.map_nil, swapchainCreateInfo, desiredImageCount_value]
  refine ⟨trivial, ?_⟩
  intro hle
  congr 1
  split_ifs with h1
  · rfl
  · omega

/-- C2, amended, on a report whose cap is nonzero and exceeded: minImageCount = 3 and
maxImageCount = 3 give a request for 3 images. -/
theorem create_requested_image_count_witness :
    (sampleDestroyed false).create samplePlatform sampleContext
        (sampleReplies (sampleCaps 3 3 1024 600))
      = .ok (VK_SUCCESS, sampleCreated false ⟨1024, 600⟩,
          sampleCreateEvents 3 ⟨1024, 600⟩ [.logSwapChainDoesNotSupport 4])
    ∧ (swapchainRequests
          (sampleCreateEvents 3 ⟨1024, 600⟩ [.logSwapChainDoesNotSupport 4])).map
        (fun createInfo => createInfo.minImageCount) = [3] :=
  ⟨by decide,
   (create_requested_image_count samplePlatform sampleContext (sampleDestroyed false)
     (sampleCreated false ⟨1024, 600⟩) (sampleReplies (sampleCaps 3 3 1024 600)) VK_SUCCESS
     (sampleCreateEvents 3 ⟨1024, 600⟩ [.logSwapChainDoesNotSupport 4]) (by decide)).1⟩


/-! ## C3: the surface format -/

theorem expectedFormats_eq_spec (usesRGB : Bool) :
    expectedFormats usesRGB = specPreferenceList usesRGB := by
  cases usesRGB <;> rfl

theorem undefined_not_preferred (usesRGB : Bool) :
    VK_FORMAT_UNDEFINED ∉ specPreferenceList usesRGB := by
  cases usesRGB <;> decide

theorem scanSurfaceFormats_eq_find (expected : List VkFormat)
    (surfaceFormats : List VkSurfaceFormatKHR) (surfaceFormat : VkSurfaceFormatKHR) :
    scanSurfaceFormats expected surfaceFormats surfaceFormat =
      (surfaceFormats.find? (fun candidate => decide (candidate.format ∈ expected))).getD
        surfaceFormat := by
  induction surfaceFormats with
  | nil => rfl
  | cons format rest ih =>
    by_cases hm : format.format ∈ expected
    · have hany : expected.any (fun f => f == format.format) = true := by
        simp only [List.any_eq_true, beq_iff_eq]
        exact ⟨_, hm, rfl⟩
      simp [scanSurfaceFormats, hany, List.find?, hm]
    · have hany : ¬ (expected.any (fun f => f == format.format) = true) := by
        simp only [List.any_eq_true, beq_iff_eq, not_exists, not_and]
        intro f hf heq
        exact hm (heq ▸ hf)
      simp [scanSurfaceFormats, hany, List.find?, hm, ih]

theorem selectSurfaceFormat_eq_spec (usesRGB : Bool) (surfaceFormats : List VkSurfaceFormatKHR) :
    selectSurfaceFormat usesRGB surfaceFormats =
      match specSelectSurfaceFormat usesRGB surfaceFormats with
      | some surfaceFormat => .ok surfaceFormat
      | none => .error .noSurfaceFormat := by
  unfold selectSurfaceFormat specSelectSurfaceFormat
  rw [scanSurfaceFormats_eq_find, expectedFormats_eq_spec]
  cases hfind : surfaceFormats.find?
      (fun candidate => decide (candidate.format ∈ specPreferenceList usesRGB)) with
  | none => simp
  | some found =>
    have hmem : found.format ∈ specPreferenceList usesRGB := by
      simpa using List.find?_some hfind
    have hne : found.format ≠ VK_FORMAT_UNDEFINED := by
      intro heq
      exact undefined_not_preferred usesRGB (heq ▸ hmem)
    simp [hne]

/-- C3: the format picked by `create` is the one the scan of the spec yields, namely the first
format, in the order the surface lists its supported formats, that belongs to the preference
list {RGBA8-unorm, BGRA8-unorm} (or {RGBA8-srgb, BGRA8-srgb} with the sRGB flag). It is a
supported format and a member of the active preference list, a successful `create` records it
as the bundle's color format and sends it in its one creation request, and when no supported
format is in the list `create` ends in the fatal "Cannot find suitable swapchain format"
without producing a bundle. -/
theorem create_surface_format_selection (P : Platform) (context : VulkanContext)
    (s : VulkanPlatformSurfaceSwapChain) (drv : SurfaceReplies) :
    (selectSurfaceFormat s.mUsesRGB drv.surfaceFormats =
        match specSelectSurfaceFormat s.mUsesRGB drv.surfaceFormats with
        | some surfaceFormat => .ok surfaceFormat
        | none => .error .noSurfaceFormat)
    ∧ (∀ surfaceFormat, selectSurfaceFormat s.mUsesRGB drv.surfaceFormats = .ok surfaceFormat →
        surfaceFormat ∈ drv.surfaceFormats
        ∧ surfaceFormat.format ∈ specPreferenceList s.mUsesRGB)
    ∧ (∀ r s1 events, s.create P context drv = .ok (r, s1, events) →
        ∃ surfaceFormat,
          specSelectSurfaceFormat s.mUsesRGB drv.surfaceFormats = some surfaceFormat
          ∧ s1.mSwapChainBundle.colorFormat = surfaceFormat.format
          ∧ (swapchainRequests events).map (fun createInfo => createInfo.imageFormat)
              = [surfaceFormat.format]
          ∧ surfaceFormat.format ∈ specPreferenceList s.mUsesRGB)
    ∧ ((∀ candidate ∈ drv.surfaceFormats, candidate.format ∉ specPreferenceList s.mUsesRGB) →
        s.create P context drv = .error .noSurfaceFormat) := by
  have hsel := selectSurfaceFormat_eq_spec s.mUsesRGB drv.surfaceFormats
  have hmem : ∀ surfaceFormat,
      specSelectSurfaceFormat s.mUsesRGB drv.surfaceFormats = some surfaceFormat →
      surfaceFormat ∈ drv.surfaceFormats
        ∧ surfaceFormat.format ∈ specPreferenceList s.mUsesRGB := by
    intro surfaceFormat hsome
    unfold specSelectSurfaceFormat at hsome
    exact ⟨List.mem_of_find?_eq_some hsome, by simpa using List.find?_some hsome⟩
  refine ⟨hsel, ?_, ?_, ?_⟩
  · intro surfaceFormat hok
    rw [hsel] at hok
    cases hspec : specSelectSurfaceFormat s.mUsesRGB drv.surfaceFormats with
    | none => rw [hspec] at hok; cases hok
    | some found =>
      rw [hspec] at hok
      cases hok
      exact hmem _ hspec
  · intro r s1 events hcreate
    obtain ⟨surfaceFormat, _, _, _, hok, _, _, _, _, _, rfl, hreq⟩ := create_ok_inv hcreate
    rw [hsel] at hok
    cases hspec : specSelectSurfaceFormat s.mUsesRGB drv.surfaceFormats with
    | none => rw [hspec] at hok; cases hok
    | some found =>
      rw [hspec] at hok
      cases hok
      refine ⟨surfaceFormat, rfl, rfl, ?_, (hmem _ hspec).2⟩
      rw [hreq]
      rfl
  · intro hnone
    have hspec : specSelectSurfaceFormat s.mUsesRGB drv.surfaceFormats = none := by
      unfold specSelectSurfaceFormat
      rw [List.find?_eq_none]
      intro candidate hc
      simpa using hnone candidate hc
    rw [hspec] at hsel
    unfold VulkanPlatformSurfaceSwapChain.create
    simp only [hsel]

/-- C3 on the sample surface, which lists BGRA8-unorm before RGBA8-unorm: BGRA8-unorm (44),
the first listed format that is in the preference list, is selected. -/
theorem create_surface_format_selection_witness :
    specSelectSurfaceFormat false (sampleReplies (sampleCaps 2 3 1024 600)).surfaceFormats
      = some { format := VK_FORMAT_B8G8R8A8_UNORM, colorSpace := 0 }
    ∧ selectSurfaceFormat (sampleDestroyed false).mUsesRGB
        (sampleReplies (sampleCaps 2 3 1024 600)).surfaceFormats
      = .ok { format := VK_FORMAT_B8G8R8A8_UNORM, colorSpace := 0 }
    ∧ (sampleCreated false ⟨1024, 600⟩).mSwapChainBundle.colorFormat = VK_FORMAT_B8G8R8A8_UNORM
    ∧ (sampleDestroyed false).create samplePlatform sampleContext
        { sampleReplies (sampleCaps 2 3 1024 600) with
            surfaceFormats := [{ format := VK_FORMAT_R8G8B8A8_SRGB, colorSpace := 0 }] }
      = .error .noSurfaceFormat :=
  ⟨by decide,
   (create_surface_format_selection samplePlatform sampleContext (sampleDestroyed false)
      (sampleReplies (sampleCaps 2 3 1024 600))).1.trans (by decide),
   by decide,
   (create_surface_format_selection samplePlatform sampleContext (sampleDestroyed false)
      { sampleReplies (sampleCaps 2 3 1024 600) with
          surfaceFormats := [{ format := VK_FORMAT_R8G8B8A8_SRGB, colorSpace := 0 }] }).2.2.2
      (by decide)⟩


/-! ## C4: the recycling hint of `recreate` -/

theorem destroyImageAndMemory_requests (device : VkHandle) (m : MemoryRegistry)
    (image : VkImage) : swapchainRequests (destroyImageAndMemory device m image).2 = [] := by
  unfold destroyImageAndMemory
  split <;> rfl

theorem base_destroy_requests (s : VulkanPlatformSwapChainImpl) :
    swapchainRequests s.destroy.2 = [] := by
  unfold VulkanPlatformSwapChainImpl.destroy
  simp only
  split
  · exact destroyImageAndMemory_requests _ _ _
  · rfl

theorem destroySemaphores_requests (device : VkHandle) (n : Nat) :
    ∀ (i : Nat) (imageReady : List VkSemaphore),
      swapchainRequests (destroySemaphores device n i imageReady).2 = [] := by
  induction n with
  | zero => intro i a; rfl
  | succ n ih =>
    intro i a
    simp only [destroySemaphores]
    split
    · simpa [swapchainRequests] using ih _ _
    · exact ih _ _

theorem surface_destroy_requests (P : Platform) (s : VulkanPlatformSurfaceSwapChain) :
    swapchainRequests (s.destroy P).2 = [] := by
  unfold VulkanPlatformSurfaceSwapChain.destroy
  simp only [swapchainRequests_append, base_destroy_requests, destroySemaphores_requests]
  split <;> rfl

theorem surface_destroy_swapchain (P : Platform) (s : VulkanPlatformSurfaceSwapChain) :
    (s.destroy P).1.mSwapchain = VK_NULL_HANDLE := by
  unfold VulkanPlatformSurfaceSwapChain.destroy
  simp only
  split
  · rfl
  · rename_i h
    simpa using h

theorem recreate_ok_inv {P : Platform} {context : VulkanContext}
    {s s1 : VulkanPlatformSurfaceSwapChain} {drv : SurfaceReplies} {r : VkResult}
    {events : List Event} (h : s.recreate P context drv = .ok (r, s1, events)) :
    ∃ createEvents, (s.destroy P).1.create P context drv = .ok (r, s1, createEvents)
      ∧ events = (s.destroy P).2 ++ createEvents := by
  unfold VulkanPlatformSurfaceSwapChain.recreate at h
  simp only at h
  split at h
  · cases h
  · rename_i r0 s0 ev0 heq
    simp only [Except.ok.injEq, Prod.mk.injEq] at h
    obtain ⟨rfl, rfl, rfl⟩ := h
    exact ⟨ev0, heq, rfl⟩

/-- C4, as stated, fails: `recreate` on the sample object, which holds swap chain 7, succeeds,
destroys swap chain 7 first, and its one creation request carries the null handle as
`oldSwapchain`, not 7. -/
theorem recreate_old_swapchain_counterexample :
    (sampleSurface false).mSwapchain = 7
    ∧ (sampleSurface false).recreate samplePlatform sampleContext
        (sampleReplies (sampleCaps 2 3 1024 600))
      = .ok (VK_SUCCESS, sampleCreated false ⟨1024, 600⟩,
          sampleDestroyEvents ++ sampleCreateEvents 3 ⟨1024, 600⟩ [])
    ∧ (swapchainRequests (sampleDestroyEvents ++ sampleCreateEvents 3 ⟨1024, 600⟩ [])).map
        (fun createInfo => createInfo.oldSwapchain) = [VK_NULL_HANDLE]
    ∧ VK_NULL_HANDLE ≠ (sampleSurface false).mSwapchain := by
  decide

/-- C4, amended: when `recreate` runs on a surface-backed swap chain, whatever swap chain
object it holds, `destroy` has reset the handle to null before the nested `create` builds its
request, so the one creation request of a successful `recreate` carries `VK_NULL_HANDLE` as its
`oldSwapchain`. -/
theorem recreate_old_swapchain_is_null (P : Platform) (context : VulkanContext)
    (s s1 : VulkanPlatformSurfaceSwapChain) (drv : SurfaceReplies) (r : VkResult)
    (events : List Event) (h : s.recreate P context drv = .ok (r, s1, events)) :
    (s.destroy P).1.mSwapchain = VK_NULL_HANDLE
    ∧ (swapchainRequests events).map (fun createInfo => createInfo.oldSwapchain)
        = [VK_NULL_HANDLE] := by
  obtain ⟨createEvents, hcreate, rfl⟩ := recreate_ok_inv h
  obtain ⟨_, _, _, _, _, _, _, _, _, _, _, hreq⟩ := create_ok_inv hcreate
  refine ⟨surface_destroy_swapchain P s, ?_⟩
  rw [swapchainRequests_append, surface_destroy_requests, hreq]
  simp only [List.nil_append, List.map_cons, List.map_nil, swapchainCreateInfo]
  rw [surface_destroy_swapchain]

/-- C4, amended, on the sample object holding swap chain 7. -/
theorem recreate_old_swapchain_is_null_witness :
    (sampleSurface false).recreate samplePlatform sampleContext
        (sampleReplies (sampleCaps 2 3 1024 600))
      = .ok (VK_SUCCESS, sampleCreated false ⟨1024, 600⟩,
          sampleDestroyEvents ++ sampleCreateEvents 3 ⟨1024, 600⟩ [])
    ∧ ((sampleSurface false).destroy samplePlatform).1.mSwapchain = VK_NULL_HANDLE
    ∧ (swapchainRequests (sampleDestroyEvents ++ sampleCreateEvents 3 ⟨1024, 600⟩ [])).map
        (fun createInfo => createInfo.oldSwapchain) = [VK_NULL_HANDLE] :=
  ⟨by decide,
   recreate_old_swapchain_is_null samplePlatform sampleContext (sampleSurface false)
     (sampleCreated false ⟨1024, 600⟩) (sampleReplies (sampleCaps 2 3 1024 600)) VK_SUCCESS
     (sampleDestroyEvents ++ sampleCreateEvents 3 ⟨1024, 600⟩ []) (by decide)⟩

/-! ## C5: the sticky flag across `recreate` -/

/-- C5, as stated, fails: the sample object with the sticky flag set (the warning has been
logged) is recreated successfully; the flag is still set afterwards, and the next `acquire` and
the next `present` whose driver result is suboptimal return that result and log nothing. -/
theorem recreate_keeps_suboptimal_counterexample :
    (sampleSurface true).mSuboptimal = true
    ∧ (sampleSurface true).recreate samplePlatform sampleContext
        (sampleReplies (sampleCaps 2 3 1024 600))
      = .ok (VK_SUCCESS, sampleCreated true ⟨1024, 600⟩,
          sampleDestroyEvents ++ sampleCreateEvents 3 ⟨1024, 600⟩ [])
    ∧ (sampleCreated true ⟨1024, 600⟩).mSuboptimal = true
    ∧ (sampleCreated true ⟨1024, 600⟩).acquire samplePlatform ⟨0, 0⟩ ⟨VK_SUBOPTIMAL_KHR, some 1⟩
      = (VK_SUBOPTIMAL_KHR, { sampleCreated true ⟨1024, 600⟩ with mCurrentImageReadyIndex := 1 },
          ⟨961, 1⟩, [.vkAcquireNextImageKHR 1 900 UINT64_MAX 961 VK_NULL_HANDLE])
    ∧ (sampleCreated true ⟨1024, 600⟩).present 1 77 VK_SUBOPTIMAL_KHR
      = (VK_SUBOPTIMAL_KHR, sampleCreated true ⟨1024, 600⟩,
          [.vkQueuePresentKHR 2
            { waitSemaphores := [77], swapchains := [900], imageIndices := [1] }]) := by
  decide

/-- C5, amended: `recreate` leaves the sticky suboptimal flag as it was. For a swap chain that
has already logged the warning (flag set), the flag is therefore still set after `recreate`,
and no later `acquire` or `present` logs the warning, whatever the driver result; the result
is still returned. -/
theorem recreate_keeps_suboptimal (P : Platform) (context : VulkanContext)
    (s s1 : VulkanPlatformSurfaceSwapChain) (drv : SurfaceReplies) (r : VkResult)
    (events : List Event) (h : s.recreate P context drv = .ok (r, s1, events)) :
    s1.mSuboptimal = s.mSuboptimal
    ∧ (s.mSuboptimal = true →
        (∀ out reply,
            Event.logSuboptimalSwapChain ∉ (s1.acquire P out reply).2.2.2
            ∧ (s1.acquire P out reply).1 = reply.result
            ∧ (s1.acquire P out reply).2.1.mSuboptimal = true)
        ∧ (∀ index finished result,
            Event.logSuboptimalSwapChain ∉ (s1.present index finished result).2.2
            ∧ (s1.present index finished result).1 = result
            ∧ (s1.present index finished result).2.1 = s1)) := by
  obtain ⟨createEvents, hcreate, rfl⟩ := recreate_ok_inv h
  obtain ⟨_, _, _, _, _, _, _, _, _, _, rfl, _⟩ := create_ok_inv hcreate
  have hflag : (s.destroy P).1.mSuboptimal = s.mSuboptimal := rfl
  refine ⟨hflag, ?_⟩
  intro hs
  refine ⟨?_, ?_⟩
  · intro out reply
    simp [VulkanPlatformSurfaceSwapChain.acquire, hflag, hs]
  · intro index finished result
    simp [VulkanPlatformSurfaceSwapChain.present, hflag, hs]

/-- C5, amended, on the sample object with the flag set. -/
theorem recreate_keeps_suboptimal_witness :
    (sampleSurface true).recreate samplePlatform sampleContext
        (sampleReplies (sampleCaps 2 3 1024 600))
      = .ok (VK_SUCCESS, sampleCreated true ⟨1024, 600⟩,
          sampleDestroyEvents ++ sampleCreateEvents 3 ⟨1024, 600⟩ [])
    ∧ (sampleCreated true ⟨1024, 600⟩).mSuboptimal = (sampleSurface true).mSuboptimal :=
  ⟨by decide,
   (recreate_keeps_suboptimal samplePlatform sampleContext (sampleSurface true)
     (sampleCreated true ⟨1024, 600⟩) (sampleReplies (sampleCaps 2 3 1024 600)) VK_SUCCESS
     (sampleDestroyEvents ++ sampleCreateEvents 3 ⟨1024, 600⟩ []) (by decide)).1⟩

/-! ## C6: the driver result is forwarded -/

/-- C6: surface-backed `acquire` returns exactly the result of `vkAcquireNextImageKHR` and
surface-backed `present` returns exactly the result of `vkQueuePresentKHR`, for every result
code and every value of the sticky flag; both are total, so no result, suboptimal included,
turns into a fatal violation. -/
theorem acquire_present_forward_result (P : Platform) (s : VulkanPlatformSurfaceSwapChain)
    (outImageSyncData : ImageSyncData) (reply : AcquireReply) (index : Nat)
    (finished : VkSemaphore) (result : VkResult) :
    (s.acquire P outImageSyncData reply).1 = reply.result
    ∧ (s.present index finished result).1 = result := by
  constructor
  · unfold VulkanPlatformSurfaceSwapChain.acquire
    simp only
    split <;> rfl
  · unfold VulkanPlatformSurfaceSwapChain.present
    simp only
    split <;> rfl

/-- C6 on the sample object: an out-of-date error from `vkAcquireNextImageKHR` and a suboptimal
result from `vkQueuePresentKHR` come back unchanged. -/
theorem acquire_present_forward_result_witness :
    ((sampleCreated true ⟨1024, 600⟩).acquire samplePlatform ⟨0, 0⟩
        ⟨VK_ERROR_OUT_OF_DATE_KHR, none⟩).1 = VK_ERROR_OUT_OF_DATE_KHR
    ∧ ((sampleCreated true ⟨1024, 600⟩).present 1 77 VK_SUBOPTIMAL_KHR).1 = VK_SUBOPTIMAL_KHR :=
  acquire_present_forward_result samplePlatform (sampleCreated true ⟨1024, 600⟩) ⟨0, 0⟩
    ⟨VK_ERROR_OUT_OF_DATE_KHR, none⟩ 1 77 VK_SUBOPTIMAL_KHR


/-! ## C7: the headless ring -/

theorem range'_foldl_set (f : Nat → Nat) (n : Nat) :
    ∀ (i : Nat) (pre : List Nat), pre.length = i →
      (List.range' i n).foldl (fun c k => c.set k (f k)) (pre ++ List.replicate n 0)
        = pre ++ (List.range' i n).map f := by
  induction n with
  | zero => intro i pre _; simp
  | succ n ih =>
    intro i pre hlen
    have hset : (pre ++ List.replicate (n + 1) 0).set i (f i)
        = (pre ++ [f i]) ++ List.replicate n 0 := by
      rw [List.set_append_right _ _ (by omega)]
      simp [hlen, List.replicate_succ]
    simp only [List.range'_succ, List.foldl_cons, hset, List.map_cons]
    rw [ih (i + 1) (pre ++ [f i]) (by simp [hlen])]
    simp

theorem createColorImages_ok_inv {P : Platform} {context : VulkanContext} {extent : VkExtent2D}
    {reply : Nat → ImageReply} (n : Nat) :
    ∀ (i : Nat) (s s1 : VulkanPlatformSwapChainImpl) (events : List Event),
      createColorImages P context extent reply n i s = .ok (s1, events) →
      s1 = { s with
              mMemory :=
                (List.range' i n).foldl
                  (fun m k => registryInsert m (reply k).image (reply k).memory) s.mMemory
              mSwapChainBundle :=
                { s.mSwapChainBundle with
                    colors :=
                      (List.range' i n).foldl (fun c k => c.set k (reply k).image)
                        s.mSwapChainBundle.colors } } := by
  induction n with
  | zero =>
    intro i s s1 events h
    simp only [createColorImages, Except.ok.injEq, Prod.mk.injEq] at h
    rw [← h.1]
    rfl
  | succ n ih =>
    intro i s s1 events h
    simp only [createColorImages] at h
    split at h
    · cases h
    · rename_i image s0 ev0 himg
      obtain ⟨rfl, rfl, -⟩ := createImage_ok_inv himg
      split at h
      · cases h
      · rename_i s2 rest hrest
        simp only [Except.ok.injEq, Prod.mk.injEq] at h
        obtain ⟨rfl, -⟩ := h
        rw [ih _ _ _ _ hrest]
        simp [List.range'_succ]

/-- What a successful headless construction built. -/
theorem headless_construct_ok_inv {P : Platform} {context : VulkanContext}
    {device queue : VkHandle} {extent : VkExtent2D} {flags : Nat} {members : SwapChainBundle}
    {colorReply : Nat → ImageReply} {depthReply : ImageReply}
    {s0 : VulkanPlatformHeadlessSwapChain} {events : List Event}
    (h : VulkanPlatformHeadlessSwapChain.construct P context device queue extent flags members
          colorReply depthReply = .ok (s0, events)) :
    s0.mCurrentIndex = 0
    ∧ s0.mSwapChainBundle.colors =
        (List.range' 0 P.HEADLESS_SWAPCHAIN_SIZE).map (fun k => (colorReply k).image)
    ∧ s0.mSwapChainBundle.depth = depthReply.image
    ∧ s0.mMemory =
        registryInsert
          ((List.range' 0 P.HEADLESS_SWAPCHAIN_SIZE).foldl
            (fun m k => registryInsert m (colorReply k).image (colorReply k).memory) [])
          depthReply.image depthReply.memory := by
  unfold VulkanPlatformHeadlessSwapChain.construct at h
  simp only at h
  split at h
  · cases h
  · rename_i b3 colorEvents hcolors
    split at h
    · cases h
    · rename_i depthFormat hdf
      split at h
      · cases h
      · rename_i depth b5 depthEvents hdepth
        obtain ⟨rfl, rfl, -⟩ := createImage_ok_inv hdepth
        have hb3 := createColorImages_ok_inv _ _ _ _ _ hcolors
        simp only [Except.ok.injEq, Prod.mk.injEq] at h
        obtain ⟨rfl, -⟩ := h
        subst hb3
        refine ⟨rfl, ?_, rfl, rfl⟩
        have := range'_foldl_set (fun k => (colorReply k).image) P.HEADLESS_SWAPCHAIN_SIZE 0 []
          rfl
        simpa [VulkanPlatformSwapChainImpl.construct, resizeImages] using this

theorem headlessRun_spec (P : Platform) (calls : List HeadlessCall) :
    ∀ (s : VulkanPlatformHeadlessSwapChain) (out : ImageSyncData) (j : Nat),
      s.mCurrentIndex = j % P.HEADLESS_SWAPCHAIN_SIZE →
      (∀ x ∈ (headlessRun P s out calls).1, x.1 = VK_SUCCESS)
      ∧ acquiredIndices (headlessRun P s out calls).1
          = (List.range' j (acquireCount calls)).map (fun k => k % P.HEADLESS_SWAPCHAIN_SIZE)
      ∧ (headlessRun P s out calls).2.1.toVulkanPlatformSwapChainImpl
          = s.toVulkanPlatformSwapChainImpl := by
  induction calls with
  | nil =>
    intro s out j _
    simp [headlessRun, acquiredIndices, acquireCount]
  | cons call rest ih =>
    intro s out j hj
    cases call with
    | acquire =>
      have hnext : (s.acquire P out).2.1.mCurrentIndex = (j + 1) % P.HEADLESS_SWAPCHAIN_SIZE := by
        simp [VulkanPlatformHeadlessSwapChain.acquire, hj, Nat.mod_add_mod]
      obtain ⟨h1, h2, h3⟩ := ih (s.acquire P out).2.1 (s.acquire P out).2.2.1 (j + 1) hnext
      refine ⟨?_, ?_, ?_⟩
      · intro x hx
        simp only [headlessRun, List.mem_cons] at hx
        rcases hx with rfl | hx
        · rfl
        · exact h1 x hx
      · simp only [acquiredIndices, headlessRun, acquireCount,
          List.range'_succ, List.map_cons] at h2 ⊢
        rw [List.filterMap_cons_some (by rfl), h2]
        simp [VulkanPlatformHeadlessSwapChain.acquire, hj]
      · simp only [headlessRun]
        rw [h3]
        rfl
    | present index finished =>
      obtain ⟨h1, h2, h3⟩ := ih s out j hj
      refine ⟨?_, ?_, ?_⟩
      · intro x hx
        simp only [headlessRun, VulkanPlatformHeadlessSwapChain.present, List.mem_cons] at hx
        rcases hx with rfl | hx
        · rfl
        · exact h1 x hx
      · simpa [acquiredIndices, headlessRun, acquireCount,
          VulkanPlatformHeadlessSwapChain.present] using h2
      · simpa [headlessRun, VulkanPlatformHeadlessSwapChain.present] using h3

/-- C7: on a freshly constructed headless swap chain, for every finite interleaving of
`acquire` and `present` calls, every call returns `VK_SUCCESS`; the k-th `acquire`
(k = 0, 1, 2, ...) writes image index `k mod HEADLESS_SWAPCHAIN_SIZE` into the sync data;
`present` returns the object unchanged and makes no driver call, so the bundle and the registry
are the same after the run; and every written index is below the length of `bundle.colors`,
which is `HEADLESS_SWAPCHAIN_SIZE`. -/
theorem headless_acquire_present_sequence (P : Platform) (context : VulkanContext)
    (device queue : VkHandle) (extent : VkExtent2D) (flags : Nat) (members : SwapChainBundle)
    (colorReply : Nat → ImageReply) (depthReply : ImageReply)
    (s0 : VulkanPlatformHeadlessSwapChain) (events : List Event)
    (out : ImageSyncData) (calls : List HeadlessCall)
    (hsize : 0 < P.HEADLESS_SWAPCHAIN_SIZE)
    (h : VulkanPlatformHeadlessSwapChain.construct P context device queue extent flags members
          colorReply depthReply = .ok (s0, events)) :
    (∀ x ∈ (headlessRun P s0 out calls).1, x.1 = VK_SUCCESS)
    ∧ acquiredIndices (headlessRun P s0 out calls).1
        = (List.range (acquireCount calls)).map (fun k => k % P.HEADLESS_SWAPCHAIN_SIZE)
    ∧ (∀ index ∈ acquiredIndices (headlessRun P s0 out calls).1,
        index < (headlessRun P s0 out calls).2.1.mSwapChainBundle.colors.length)
    ∧ s0.mSwapChainBundle.colors.length = P.HEADLESS_SWAPCHAIN_SIZE
    ∧ (headlessRun P s0 out calls).2.1.toVulkanPlatformSwapChainImpl
        = s0.toVulkanPlatformSwapChainImpl
    ∧ (∀ (s : VulkanPlatformHeadlessSwapChain) index finished,
        s.present index finished = (VK_SUCCESS, s, [])) := by
  obtain ⟨hindex, hcolors, -, -⟩ := headless_construct_ok_inv h
  have hlen : s0.mSwapChainBundle.colors.length = P.HEADLESS_SWAPCHAIN_SIZE := by
    rw [hcolors]
    simp
  obtain ⟨h1, h2, h3⟩ := headlessRun_spec P calls s0 out 0 (by simp [hindex])
  have h2' : acquiredIndices (headlessRun P s0 out calls).1
      = (List.range (acquireCount calls)).map (fun k => k % P.HEADLESS_SWAPCHAIN_SIZE) := by
    rw [h2, List.range_eq_range']
  refine ⟨h1, h2', ?_, hlen, h3, fun _ _ _ => rfl⟩
  intro index hmem
  rw [h2'] at hmem
  simp only [List.mem_map] at hmem
  obtain ⟨k, -, rfl⟩ := hmem
  rw [h3, hlen]
  exact Nat.mod_lt _ hsize

/-- C7 on the sample headless swap chain (ring size 3): the calls acquire, present, acquire,
acquire, present, acquire all return `VK_SUCCESS` and the four `acquire` calls write the
indices 0, 1, 2, 0. -/
theorem headless_acquire_present_sequence_witness :
    VulkanPlatformHeadlessSwapChain.construct samplePlatform sampleContext 1 2 ⟨64, 64⟩ 0x20
        sampleMembers (fun i => sampleImageReply (100 + i) (200 + i)) (sampleImageReply 150 250)
      = .ok (sampleHeadless, sampleHeadlessEvents)
    ∧ (headlessRun samplePlatform sampleHeadless ⟨0, 7⟩
          [.acquire, .present 0 77, .acquire, .acquire, .present 2 78, .acquire]).1
        = [ (VK_SUCCESS, some 0), (VK_SUCCESS, none), (VK_SUCCESS, some 1), (VK_SUCCESS, some 2),
            (VK_SUCCESS, none), (VK_SUCCESS, some 0) ]
    ∧ acquiredIndices (headlessRun samplePlatform sampleHeadless ⟨0, 7⟩
          [.acquire, .present 0 77, .acquire, .acquire, .present 2 78, .acquire]).1
        = (List.range (acquireCount
              [.acquire, .present 0 77, .acquire, .acquire, .present 2 78, .acquire])).map
            (fun k => k % samplePlatform.HEADLESS_SWAPCHAIN_SIZE) :=
  ⟨by decide, by decide,
   (headless_acquire_present_sequence samplePlatform sampleContext 1 2 ⟨64, 64⟩ 0x20
      sampleMembers (fun i => sampleImageReply (100 + i) (200 + i)) (sampleImageReply 150 250)
      sampleHeadless sampleHeadlessEvents ⟨0, 7⟩
      [.acquire, .present 0 77, .acquire, .acquire, .present 2 78, .acquire]
      (by decide) (by decide)).2.1⟩


/-! ## C8: `destroy` twice -/

theorem getD_set_null (imageReady : List VkSemaphore) (i j : Nat) :
    (imageReady.set i VK_NULL_HANDLE).getD j VK_NULL_HANDLE
      = if j = i then VK_NULL_HANDLE else imageReady.getD j VK_NULL_HANDLE := by
  simp only [List.getD_eq_getElem?_getD, List.getElem?_set]
  by_cases hji : j = i
  · subst hji
    by_cases hlt : j < imageReady.length <;> simp [hlt]
  · have : ¬ i = j := fun h => hji h.symm
    simp [hji, this]

theorem destroySemaphores_getD (device : VkHandle) (n : Nat) :
    ∀ (i : Nat) (imageReady : List VkSemaphore) (j : Nat),
      (destroySemaphores device n i imageReady).1.getD j VK_NULL_HANDLE
        = if i ≤ j ∧ j < i + n then VK_NULL_HANDLE else imageReady.getD j VK_NULL_HANDLE := by
  induction n with
  | zero =>
    intro i a j
    have : ¬ (i ≤ j ∧ j < i + 0) := by omega
    simp only [destroySemaphores, this, if_false]
  | succ n ih =>
    intro i a j
    simp only [destroySemaphores]
    split
    · rw [ih, getD_set_null]
      by_cases hji : j = i
      · subst hji
        simp
      · by_cases hr : i + 1 ≤ j ∧ j < i + 1 + n
        · have : i ≤ j ∧ j < i + (n + 1) := by omega
          simp [hr, this]
        · have : ¬ (i ≤ j ∧ j < i + (n + 1)) := by omega
          simp [hr, this, hji]
    · rename_i hnull
      rw [ih]
      by_cases hji : j = i
      · subst hji
        have h1 : ¬ (j + 1 ≤ j ∧ j < j + 1 + n) := by omega
        have h2 : j ≤ j ∧ j < j + (n + 1) := by omega
        simp only [h1, h2, if_true, if_false]
        simpa using hnull
      · by_cases hr : i + 1 ≤ j ∧ j < i + 1 + n
        · have : i ≤ j ∧ j < i + (n + 1) := by omega
          simp [hr, this]
        · have : ¬ (i ≤ j ∧ j < i + (n + 1)) := by omega
          simp [hr, this]

theorem destroySemaphores_of_null (device : VkHandle) (n : Nat) :
    ∀ (i : Nat) (imageReady : List VkSemaphore),
      (∀ j, i ≤ j → j < i + n → imageReady.getD j VK_NULL_HANDLE = VK_NULL_HANDLE) →
      destroySemaphores device n i imageReady = (imageReady, []) := by
  induction n with
  | zero => intro i a _; rfl
  | succ n ih =>
    intro i a hnull
    simp only [destroySemaphores]
    have hi : a.getD i VK_NULL_HANDLE = VK_NULL_HANDLE := hnull i (le_refl _) (by omega)
    simp only [hi, ne_eq, not_true_eq_false, if_false]
    exact ih (i + 1) a (fun j h1 h2 => hnull j (by omega) (by omega))

theorem destroySemaphores_twice (device : VkHandle) (n i : Nat) (imageReady : List VkSemaphore) :
    destroySemaphores device n i (destroySemaphores device n i imageReady).1
      = ((destroySemaphores device n i imageReady).1, []) := by
  apply destroySemaphores_of_null
  intro j h1 h2
  rw [destroySemaphores_getD]
  simp [h1, h2]

theorem base_destroy_of_destroyed (s : VulkanPlatformSwapChainImpl)
    (hdepth : s.mSwapChainBundle.depth = VK_NULL_HANDLE) (hcolors : s.mSwapChainBundle.colors = []) :
    s.destroy = (s, []) := by
  obtain ⟨device, queue, ⟨colors, depth, colorFormat, depthFormat, extent, isProtected⟩, m⟩ := s
  simp only at hdepth hcolors
  subst hdepth hcolors
  simp [VulkanPlatformSwapChainImpl.destroy]

theorem base_destroy_twice (s : VulkanPlatformSwapChainImpl) :
    s.destroy.1.destroy = (s.destroy.1, [])
    ∧ s.destroy.1.mSwapChainBundle.depth = VK_NULL_HANDLE
    ∧ s.destroy.1.mSwapChainBundle.colors = [] :=
  ⟨base_destroy_of_destroyed _ rfl rfl, rfl, rfl⟩

theorem surface_destroy_of_destroyed (P : Platform) (d : VulkanPlatformSurfaceSwapChain)
    (hdepth : d.mSwapChainBundle.depth = VK_NULL_HANDLE) (hcolors : d.mSwapChainBundle.colors = [])
    (hswapchain : d.mSwapchain = VK_NULL_HANDLE)
    (hpool : ∀ j, j < P.IMAGE_READY_SEMAPHORE_COUNT →
      d.mImageReady.getD j VK_NULL_HANDLE = VK_NULL_HANDLE) :
    d.destroy P = (d, [.vkQueueWaitIdle d.mQueue]) := by
  have hsem := destroySemaphores_of_null d.mDevice P.IMAGE_READY_SEMAPHORE_COUNT 0 d.mImageReady
    (fun j _ h2 => hpool j (by omega))
  have hbase := base_destroy_of_destroyed d.toVulkanPlatformSwapChainImpl hdepth hcolors
  unfold VulkanPlatformSurfaceSwapChain.destroy
  simp only [hsem, hbase, hswapchain, ne_eq, not_true_eq_false, if_false, List.append_nil]
  rw [← hswapchain]

theorem destroyColorImages_nil (device : VkHandle) (m : MemoryRegistry) :
    destroyColorImages device [] m = (m, []) := rfl

/-- C8, as stated, fails for the headless swap chain: `destroy` on the sample headless object
(depth image 150) destroys the three color images and leaves the depth image in place, and so
does a second `destroy`, which makes no call; the bundle's depth is 150, not null. -/
theorem headless_destroy_depth_counterexample :
    sampleHeadless.destroy.1.destroy = (sampleHeadless.destroy.1, [])
    ∧ sampleHeadless.destroy.1.destroy.1.mSwapChainBundle.depth = 150
    ∧ sampleHeadless.destroy.1.destroy.1.mSwapChainBundle.depth ≠ VK_NULL_HANDLE
    ∧ sampleHeadless.destroy.1.destroy.1.mMemory = [(150, 250)] := by
  decide

/-- C8, amended: `destroy` is idempotent for the base, the surface-backed and the headless swap
chain. For every state, a second `destroy` right after a first one leaves the whole object
(bundle, registry, semaphore pool, swap chain handle) exactly as the first left it and issues
no image-destroy, memory-free, semaphore-destroy or swapchain-destroy call: the base and the
headless one make no call at all, the surface-backed one only waits for the queue. After the
base and the surface-backed `destroy` the depth is null and the colors are empty, and after
the surface-backed one the pool slots and the swap chain handle are null; after the headless
`destroy` the colors are empty and the depth is the one held before (it is left to the base
class). -/
theorem destroy_idempotent (P : Platform) :
    (∀ s : VulkanPlatformSwapChainImpl,
        s.destroy.1.destroy = (s.destroy.1, [])
        ∧ s.destroy.1.mSwapChainBundle.depth = VK_NULL_HANDLE
        ∧ s.destroy.1.mSwapChainBundle.colors = [])
    ∧ (∀ s : VulkanPlatformSurfaceSwapChain,
        (s.destroy P).1.destroy P = ((s.destroy P).1, [.vkQueueWaitIdle s.mQueue])
        ∧ (s.destroy P).1.mSwapChainBundle.depth = VK_NULL_HANDLE
        ∧ (s.destroy P).1.mSwapChainBundle.colors = []
        ∧ (s.destroy P).1.mSwapchain = VK_NULL_HANDLE
        ∧ (∀ i, i < P.IMAGE_READY_SEMAPHORE_COUNT →
            (s.destroy P).1.mImageReady.getD i VK_NULL_HANDLE = VK_NULL_HANDLE))
    ∧ (∀ s : VulkanPlatformHeadlessSwapChain,
        s.destroy.1.destroy = (s.destroy.1, [])
        ∧ s.destroy.1.mSwapChainBundle.colors = []
        ∧ s.destroy.1.mSwapChainBundle.depth = s.mSwapChainBundle.depth) := by
  refine ⟨base_destroy_twice, ?_, ?_⟩
  · intro s
    have hsc := surface_destroy_swapchain P s
    have hpool : ∀ i, i < P.IMAGE_READY_SEMAPHORE_COUNT →
        (s.destroy P).1.mImageReady.getD i VK_NULL_HANDLE = VK_NULL_HANDLE := by
      intro i hi
      show (destroySemaphores s.mDevice P.IMAGE_READY_SEMAPHORE_COUNT 0 s.mImageReady).1.getD i
        VK_NULL_HANDLE = VK_NULL_HANDLE
      rw [destroySemaphores_getD]
      simp [hi]
    exact ⟨surface_destroy_of_destroyed P _ rfl rfl hsc hpool, rfl, rfl, hsc, hpool⟩
  · intro s
    refine ⟨?_, rfl, rfl⟩
    simp [VulkanPlatformHeadlessSwapChain.destroy, destroyColorImages]

/-- C8, amended, on the sample objects: the second `destroy` repeats no destruction. -/
theorem destroy_idempotent_witness :
    ((sampleSurface false).destroy samplePlatform).1.destroy samplePlatform
      = (sampleDestroyed false, [.vkQueueWaitIdle 2])
    ∧ sampleHeadless.destroy.1.destroy.2 = []
    ∧ sampleHeadless.destroy.1.destroy.1.mSwapChainBundle.colors = [] :=
  ⟨((destroy_idempotent samplePlatform).2.1 (sampleSurface false)).1.trans (by decide),
   by decide, by decide⟩


/-! ## C9: the image-to-memory registry -/

theorem registryFind_eq_none_iff (m : MemoryRegistry) (image : VkImage) :
    registryFind m image = none ↔ image ∉ registryKeys m := by
  unfold registryFind registryKeys
  simp only [Option.map_eq_none', List.find?_eq_none, beq_iff_eq, List.mem_map, not_exists,
    not_and]

theorem registryInsert_fresh (m : MemoryRegistry) (image : VkImage) (memory : VkDeviceMemory)
    (h : image ∉ registryKeys m) : registryInsert m image memory = m ++ [(image, memory)] := by
  unfold registryInsert
  rw [(registryFind_eq_none_iff m image).2 h]

theorem registryErase_fresh (m : MemoryRegistry) (image : VkImage)
    (h : image ∉ registryKeys m) : registryErase m image = m := by
  unfold registryErase
  rw [List.filter_eq_self]
  intro e he
  simp only [Bool.not_eq_true', beq_eq_false_iff_ne, ne_eq]
  intro heq
  exact h (List.mem_map.2 ⟨e, he, heq⟩)

theorem destroyImageAndMemory_registry (device : VkHandle) (m : MemoryRegistry)
    (image : VkImage) : (destroyImageAndMemory device m image).1 = registryErase m image := by
  unfold destroyImageAndMemory
  split
  · rfl
  · rename_i hnone
    exact (registryErase_fresh m image ((registryFind_eq_none_iff m image).1 hnone)).symm

theorem base_destroy_registry (s : VulkanPlatformSwapChainImpl) :
    s.destroy.1.mMemory =
      if s.mSwapChainBundle.depth ≠ VK_NULL_HANDLE then
        registryErase s.mMemory s.mSwapChainBundle.depth
      else s.mMemory := by
  unfold VulkanPlatformSwapChainImpl.destroy
  simp only
  split
  · exact destroyImageAndMemory_registry _ _ _
  · rfl

theorem destroyColorImages_registry (device : VkHandle) (images : List VkImage) :
    ∀ m : MemoryRegistry,
      (destroyColorImages device images m).1 = m.filter (fun e => !(images.contains e.1)) := by
  induction images with
  | nil => intro m; simp [destroyColorImages]
  | cons image rest ih =>
    intro m
    simp only [destroyColorImages, ih, destroyImageAndMemory_registry, registryErase,
      List.filter_filter]
    congr 1
    funext e
    by_cases h1 : e.1 = image <;> by_cases h2 : rest.contains e.1 = true <;>
      simp [h1, h2]

theorem registryCount_erase_self (m : MemoryRegistry) (image : VkImage) :
    registryCount (registryErase m image) image = 0 := by
  unfold registryCount registryErase
  rw [List.countP_eq_zero]
  intro e he
  have := (List.mem_filter.1 he).2
  simpa using this

theorem registryCount_erase_other (m : MemoryRegistry) (image other : VkImage)
    (h : other ≠ image) :
    registryCount (registryErase m image) other = registryCount m other := by
  unfold registryCount registryErase
  rw [List.countP_filter]
  congr 1
  funext e
  by_cases h1 : e.1 = other
  · have : ¬ e.1 = image := fun h2 => h (h1.symm.trans h2)
    simp [h1, this, h]
  · simp [h1]

theorem foldl_registryInsert_fresh (image memory : Nat → Nat) (n : Nat) :
    ∀ (i : Nat) (m : MemoryRegistry),
      (registryKeys m ++ (List.range' i n).map image).Nodup →
      (List.range' i n).foldl (fun m k => registryInsert m (image k) (memory k)) m
        = m ++ (List.range' i n).map (fun k => (image k, memory k)) := by
  induction n with
  | zero => intro i m _; simp
  | succ n ih =>
    intro i m hnodup
    simp only [List.range'_succ, List.map_cons, List.foldl_cons] at hnodup ⊢
    have hfresh : image i ∉ registryKeys m := by
      intro hmem
      have := (List.nodup_append.1 hnodup).2.2
      exact this hmem (List.mem_cons_self _ _)
    rw [registryInsert_fresh m _ _ hfresh, ih]
    · simp
    · have hkeys : registryKeys (m ++ [(image i, memory i)]) = registryKeys m ++ [image i] := by
        simp [registryKeys]
      rw [hkeys]
      simpa using hnodup


theorem registryErase_singleton (m : MemoryRegistry) (image : VkImage)
    (h : registryKeys m = [image]) : registryErase m image = [] := by
  unfold registryKeys at h
  match m, h with
  | [e], h =>
    simp only [List.map_cons, List.map_nil, List.cons.injEq, and_true] at h
    simp [registryErase, h]

theorem surface_destroy_registry (P : Platform) (s : VulkanPlatformSurfaceSwapChain)
    (hdepth : s.mSwapChainBundle.depth ≠ VK_NULL_HANDLE)
    (hkeys : registryKeys s.mMemory = [s.mSwapChainBundle.depth]) :
    (s.destroy P).1.mMemory = [] := by
  have h : (s.destroy P).1.mMemory = s.toVulkanPlatformSwapChainImpl.destroy.1.mMemory := rfl
  rw [h, base_destroy_registry, if_pos hdepth]
  exact registryErase_singleton _ _ hkeys

theorem create_registry {P : Platform} {context : VulkanContext}
    {s s1 : VulkanPlatformSurfaceSwapChain} {drv : SurfaceReplies} {r : VkResult}
    {events : List Event} (h : s.create P context drv = .ok (r, s1, events))
    (hempty : s.mMemory = []) :
    s1.mMemory = [(s1.mSwapChainBundle.depth, drv.depthImage.memory)]
    ∧ s1.mSwapChainBundle.depth = drv.depthImage.image
    ∧ s1.mSwapChainBundle.colors = drv.swapchainImages := by
  obtain ⟨_, _, _, _, _, _, _, _, _, _, rfl, _⟩ := create_ok_inv h
  simp [hempty, registryInsert, registryFind]

theorem recreate_registry {P : Platform} {context : VulkanContext}
    {s s1 : VulkanPlatformSurfaceSwapChain} {drv : SurfaceReplies} {r : VkResult}
    {events : List Event} (h : s.recreate P context drv = .ok (r, s1, events))
    (hdepth : s.mSwapChainBundle.depth ≠ VK_NULL_HANDLE)
    (hkeys : registryKeys s.mMemory = [s.mSwapChainBundle.depth]) :
    s1.mMemory = [(s1.mSwapChainBundle.depth, drv.depthImage.memory)]
    ∧ s1.mSwapChainBundle.depth = drv.depthImage.image
    ∧ s1.mSwapChainBundle.colors = drv.swapchainImages := by
  obtain ⟨createEvents, hcreate, -⟩ := recreate_ok_inv h
  exact create_registry hcreate (surface_destroy_registry P s hdepth hkeys)

theorem recreateAll_registry (P : Platform) (context : VulkanContext)
    (replies : List SurfaceReplies) :
    ∀ (s s1 : VulkanPlatformSurfaceSwapChain),
      s.mSwapChainBundle.depth ≠ VK_NULL_HANDLE →
      registryKeys s.mMemory = [s.mSwapChainBundle.depth] →
      (∀ drv ∈ replies, drv.depthImage.image ≠ VK_NULL_HANDLE) →
      recreateAll P context s replies = .ok s1 →
      s1.mSwapChainBundle.depth ≠ VK_NULL_HANDLE
      ∧ registryKeys s1.mMemory = [s1.mSwapChainBundle.depth] := by
  induction replies with
  | nil =>
    intro s s1 hdepth hkeys _ h
    simp only [recreateAll, Except.ok.injEq] at h
    subst h
    exact ⟨hdepth, hkeys⟩
  | cons drv rest ih =>
    intro s s1 hdepth hkeys hdrv h
    simp only [recreateAll] at h
    split at h
    · cases h
    · rename_i r s2 events hre
      obtain ⟨hm, hd, -⟩ := recreate_registry hre hdepth hkeys
      have hd2 : s2.mSwapChainBundle.depth ≠ VK_NULL_HANDLE := by
        rw [hd]
        exact hdrv drv (List.mem_cons_self _ _)
      have hk2 : registryKeys s2.mMemory = [s2.mSwapChainBundle.depth] := by
        rw [hm]
        rfl
      exact ih s2 s1 hd2 hk2 (fun d hdm => hdrv d (List.mem_cons_of_mem _ hdm)) h

theorem surface_construct_registry {P : Platform} {context : VulkanContext}
    {physicalDevice device queue inst surface : VkHandle} {fallbackExtent : VkExtent2D}
    {flags : Nat} {members : SwapChainBundle} {init : SurfaceMemberInitializers}
    {drv : SurfaceReplies} {s0 : VulkanPlatformSurfaceSwapChain} {events : List Event}
    (h : VulkanPlatformSurfaceSwapChain.construct P context physicalDevice device queue inst
          surface fallbackExtent flags members init drv = .ok (s0, events)) :
    s0.mMemory = [(s0.mSwapChainBundle.depth, drv.depthImage.memory)]
    ∧ s0.mSwapChainBundle.depth = drv.depthImage.image
    ∧ s0.mSwapChainBundle.colors = drv.swapchainImages := by
  unfold VulkanPlatformSurfaceSwapChain.construct at h
  simp only at h
  split at h
  · cases h
  · split at h
    · cases h
    · rename_i r s1 ev hcreate
      simp only [Except.ok.injEq, Prod.mk.injEq] at h
      obtain ⟨rfl, -⟩ := h
      exact create_registry hcreate rfl

theorem surface_destruct_registry (P : Platform) (s : VulkanPlatformSurfaceSwapChain)
    (hdepth : s.mSwapChainBundle.depth ≠ VK_NULL_HANDLE)
    (hkeys : registryKeys s.mMemory = [s.mSwapChainBundle.depth]) :
    (s.destruct P).1.mMemory = [] := by
  have h : (s.destruct P).1.mMemory
      = (s.destroy P).1.toVulkanPlatformSwapChainImpl.destroy.1.mMemory := rfl
  rw [h, base_destroy_registry]
  have hnull : (s.destroy P).1.mSwapChainBundle.depth = VK_NULL_HANDLE := rfl
  simp only [hnull, ne_eq, not_true_eq_false, if_false]
  exact surface_destroy_registry P s hdepth hkeys

theorem headless_construct_registry {P : Platform} {context : VulkanContext}
    {device queue : VkHandle} {extent : VkExtent2D} {flags : Nat} {members : SwapChainBundle}
    {colorReply : Nat → ImageReply} {depthReply : ImageReply}
    {s0 : VulkanPlatformHeadlessSwapChain} {events : List Event}
    (h : VulkanPlatformHeadlessSwapChain.construct P context device queue extent flags members
          colorReply depthReply = .ok (s0, events))
    (hdistinct : ((List.range' 0 P.HEADLESS_SWAPCHAIN_SIZE).map (fun k => (colorReply k).image)
        ++ [depthReply.image]).Nodup) :
    s0.mMemory =
      (List.range' 0 P.HEADLESS_SWAPCHAIN_SIZE).map
          (fun k => ((colorReply k).image, (colorReply k).memory))
        ++ [(depthReply.image, depthReply.memory)]
    ∧ registryKeys s0.mMemory = s0.mSwapChainBundle.colors ++ [s0.mSwapChainBundle.depth]
    ∧ (registryKeys s0.mMemory).Nodup := by
  obtain ⟨-, hcolors, hdepth, hmem⟩ := headless_construct_ok_inv h
  have hnd := List.nodup_append.1 hdistinct
  have hfold := foldl_registryInsert_fresh (fun k => (colorReply k).image)
    (fun k => (colorReply k).memory) P.HEADLESS_SWAPCHAIN_SIZE 0 []
    (by simpa [registryKeys] using hnd.1)
  simp only [List.nil_append] at hfold
  rw [hfold] at hmem
  have hfresh : depthReply.image ∉ registryKeys
      ((List.range' 0 P.HEADLESS_SWAPCHAIN_SIZE).map
        (fun k => ((colorReply k).image, (colorReply k).memory))) := by
    intro hin
    have hin2 : depthReply.image ∈
        (List.range' 0 P.HEADLESS_SWAPCHAIN_SIZE).map (fun k => (colorReply k).image) := by
      simpa [registryKeys, List.map_map, Function.comp_def] using hin
    exact hnd.2.2 hin2 (List.mem_singleton_self _)
  rw [registryInsert_fresh _ _ _ hfresh] at hmem
  have hkeys : registryKeys s0.mMemory
      = s0.mSwapChainBundle.colors ++ [s0.mSwapChainBundle.depth] := by
    rw [hmem, hcolors, hdepth]
    simp [registryKeys, List.map_map, Function.comp_def]
  refine ⟨hmem, hkeys, ?_⟩
  rw [hkeys, hcolors, hdepth]
  exact hdistinct

theorem registryKeys_filter (m : MemoryRegistry) (images : List VkImage) :
    (m.map Prod.fst).filter (fun k => !(images.contains k))
      = (m.filter (fun e => !(images.contains e.1))).map Prod.fst := by
  rw [List.filter_map]
  rfl

theorem headless_destruct_registry (s : VulkanPlatformHeadlessSwapChain)
    (hkeys : registryKeys s.mMemory = s.mSwapChainBundle.colors ++ [s.mSwapChainBundle.depth])
    (hnodup : (registryKeys s.mMemory).Nodup)
    (hdepth : s.mSwapChainBundle.depth ≠ VK_NULL_HANDLE) :
    registryKeys s.destroy.1.mMemory = [s.mSwapChainBundle.depth]
    ∧ s.destruct.1.mMemory = [] := by
  have hd : s.destroy.1.mMemory
      = s.mMemory.filter (fun e => !(s.mSwapChainBundle.colors.contains e.1)) :=
    destroyColorImages_registry _ _ _
  have hnotin : s.mSwapChainBundle.depth ∉ s.mSwapChainBundle.colors := by
    rw [hkeys] at hnodup
    intro hin
    exact (List.nodup_append.1 hnodup).2.2 hin (List.mem_singleton_self _)
  have hk1 : registryKeys s.destroy.1.mMemory = [s.mSwapChainBundle.depth] := by
    rw [hd]
    unfold registryKeys at hkeys ⊢
    rw [← registryKeys_filter s.mMemory s.mSwapChainBundle.colors, hkeys]
    simp [List.filter_append, hnotin]
  refine ⟨hk1, ?_⟩
  have h : s.destruct.1.mMemory = s.destroy.1.toVulkanPlatformSwapChainImpl.destroy.1.mMemory :=
    rfl
  have hsame : s.destroy.1.mSwapChainBundle.depth = s.mSwapChainBundle.depth := rfl
  rw [h, base_destroy_registry, hsame, if_pos hdepth]
  exact registryErase_singleton _ _ hk1


theorem registryCount_fresh (m : MemoryRegistry) (image : VkImage)
    (h : image ∉ registryKeys m) : registryCount m image = 0 := by
  unfold registryCount
  rw [List.countP_eq_zero]
  intro e he
  simp only [beq_iff_eq]
  intro heq
  exact h (List.mem_map.2 ⟨e, he, heq⟩)

theorem registryInsert_fresh_entry (m : MemoryRegistry) (image : VkImage)
    (memory : VkDeviceMemory) (h : image ∉ registryKeys m) :
    registryCount (registryInsert m image memory) image = 1
    ∧ registryFind (registryInsert m image memory) image = some memory
    ∧ (∀ other, other ≠ image →
        registryCount (registryInsert m image memory) other = registryCount m other
        ∧ registryFind (registryInsert m image memory) other = registryFind m other) := by
  rw [registryInsert_fresh m image memory h]
  have hnone := (registryFind_eq_none_iff m image).2 h
  refine ⟨?_, ?_, ?_⟩
  · have := registryCount_fresh m image h
    unfold registryCount at this ⊢
    simp [List.countP_append, this]
  · unfold registryFind at hnone ⊢
    simp only [Option.map_eq_none'] at hnone
    simp [List.find?_append, hnone]
  · intro other hne
    have hne2 : ¬ image = other := fun heq => hne heq.symm
    constructor
    · unfold registryCount
      simp [List.countP_append, List.countP_cons, hne2]
    · unfold registryFind
      cases hf : List.find? (fun e => e.1 == other) m <;>
        simp [List.find?_append, hf, hne2]

theorem registryFind_filter_other (m : MemoryRegistry) (images : List VkImage) (other : VkImage)
    (h : other ∉ images) :
    registryFind (m.filter (fun e => !(images.contains e.1))) other = registryFind m other := by
  unfold registryFind
  rw [List.find?_filter]
  congr 2
  funext e
  by_cases h1 : e.1 = other
  · subst h1
    simp [h]
  · simp [h1]

theorem registryCount_filter (m : MemoryRegistry) (images : List VkImage) (image : VkImage) :
    registryCount (m.filter (fun e => !(images.contains e.1))) image
      = if image ∈ images then 0 else registryCount m image := by
  unfold registryCount
  rw [List.countP_filter]
  split
  · rename_i hin
    rw [List.countP_eq_zero]
    intro e _
    by_cases h1 : e.1 = image
    · subst h1
      simp [hin]
    · simp [h1]
  · rename_i hnot
    congr 1
    funext e
    by_cases h1 : e.1 = image
    · subst h1
      simp [hnot]
    · simp [h1]

theorem registryErase_eq_filter (m : MemoryRegistry) (image : VkImage) :
    registryErase m image = m.filter (fun e => !([image].contains e.1)) := by
  unfold registryErase
  congr 1
  funext e
  by_cases h1 : e.1 = image <;> simp [h1]

/-- C9: the memory-registry invariant, for a driver that hands out distinct, non-null handles
for live images.

1. `createImage` with a handle that has no entry yet adds exactly one entry, mapping the image
   to the memory allocated for it, and changes the entry of no other image.
2. The base `destroy` leaves no entry for the depth image it destroys and changes no other.
3. The headless `destroy` leaves no entry for any color image and changes no other.
4. After a surface `create` on an empty registry, the registry holds exactly the depth image;
   the color images returned by the driver are stored in the bundle and not registered.
5. The same is true after construction and after every further `recreate`, however many; and
   after the destructor the registry is empty.
6. After headless construction the registry maps every color image and the depth image to its
   own memory, one entry each, and nothing else; after `destroy` only the depth image is left,
   and after the destructor the registry is empty. -/
theorem memory_registry_invariant (P : Platform) (context : VulkanContext) :
    (∀ (s s1 : VulkanPlatformSwapChainImpl) extent format isProtected (drv : ImageReply) image
        events,
        s.createImage P context extent format isProtected drv = .ok (image, s1, events) →
        drv.image ∉ registryKeys s.mMemory →
        image = drv.image
        ∧ registryCount s1.mMemory image = 1
        ∧ registryFind s1.mMemory image = some drv.memory
        ∧ (∀ other, other ≠ image →
            registryCount s1.mMemory other = registryCount s.mMemory other
            ∧ registryFind s1.mMemory other = registryFind s.mMemory other))
    ∧ (∀ (s : VulkanPlatformSwapChainImpl), s.mSwapChainBundle.depth ≠ VK_NULL_HANDLE →
        registryCount s.destroy.1.mMemory s.mSwapChainBundle.depth = 0
        ∧ (∀ other, other ≠ s.mSwapChainBundle.depth →
            registryCount s.destroy.1.mMemory other = registryCount s.mMemory other
            ∧ registryFind s.destroy.1.mMemory other = registryFind s.mMemory other))
    ∧ (∀ (s : VulkanPlatformHeadlessSwapChain),
        (∀ image ∈ s.mSwapChainBundle.colors, registryCount s.destroy.1.mMemory image = 0)
        ∧ (∀ other, other ∉ s.mSwapChainBundle.colors →
            registryCount s.destroy.1.mMemory other = registryCount s.mMemory other
            ∧ registryFind s.destroy.1.mMemory other = registryFind s.mMemory other))
    ∧ (∀ (s s1 : VulkanPlatformSurfaceSwapChain) (drv : SurfaceReplies) r events,
        s.create P context drv = .ok (r, s1, events) → s.mMemory = [] →
        s1.mMemory = [(s1.mSwapChainBundle.depth, drv.depthImage.memory)]
        ∧ s1.mSwapChainBundle.depth = drv.depthImage.image
        ∧ s1.mSwapChainBundle.colors = drv.swapchainImages)
    ∧ (∀ physicalDevice device queue inst surface fallbackExtent flags members init
        (drv : SurfaceReplies) (replies : List SurfaceReplies)
        (s0 s1 : VulkanPlatformSurfaceSwapChain) events,
        VulkanPlatformSurfaceSwapChain.construct P context physicalDevice device queue inst
          surface fallbackExtent flags members init drv = .ok (s0, events) →
        drv.depthImage.image ≠ VK_NULL_HANDLE →
        (∀ d ∈ replies, d.depthImage.image ≠ VK_NULL_HANDLE) →
        recreateAll P context s0 replies = .ok s1 →
        registryKeys s0.mMemory = [s0.mSwapChainBundle.depth]
        ∧ registryKeys s1.mMemory = [s1.mSwapChainBundle.depth]
        ∧ s1.mSwapChainBundle.depth ≠ VK_NULL_HANDLE
        ∧ (s1.destruct P).1.mMemory = [])
    ∧ (∀ device queue extent flags members (colorReply : Nat → ImageReply)
        (depthReply : ImageReply) (s0 : VulkanPlatformHeadlessSwapChain) events,
        VulkanPlatformHeadlessSwapChain.construct P context device queue extent flags members
          colorReply depthReply = .ok (s0, events) →
        ((List.range' 0 P.HEADLESS_SWAPCHAIN_SIZE).map (fun k => (colorReply k).image)
          ++ [depthReply.image]).Nodup →
        depthReply.image ≠ VK_NULL_HANDLE →
        s0.mMemory =
            (List.range' 0 P.HEADLESS_SWAPCHAIN_SIZE).map
                (fun k => ((colorReply k).image, (colorReply k).memory))
              ++ [(depthReply.image, depthReply.memory)]
        ∧ registryKeys s0.mMemory = s0.mSwapChainBundle.colors ++ [s0.mSwapChainBundle.depth]
        ∧ (registryKeys s0.mMemory).Nodup
        ∧ registryKeys s0.destroy.1.mMemory = [s0.mSwapChainBundle.depth]
        ∧ s0.destruct.1.mMemory = []) := by
  refine ⟨?_, ?_, ?_, ?_, ?_, ?_⟩
  · intro s s1 extent format isProtected drv image events h hfresh
    obtain ⟨rfl, rfl, -⟩ := createImage_ok_inv h
    exact ⟨rfl, registryInsert_fresh_entry _ _ _ hfresh⟩
  · intro s hdepth
    rw [base_destroy_registry, if_pos hdepth]
    refine ⟨registryCount_erase_self _ _, ?_⟩
    intro other hne
    refine ⟨registryCount_erase_other _ _ _ hne, ?_⟩
    rw [registryErase_eq_filter]
    exact registryFind_filter_other _ _ _ (by simpa using hne)
  · intro s
    have hd : s.destroy.1.mMemory
        = s.mMemory.filter (fun e => !(s.mSwapChainBundle.colors.contains e.1)) :=
      destroyColorImages_registry _ _ _
    rw [hd]
    constructor
    · intro image hin
      rw [registryCount_filter, if_pos hin]
    · intro other hnot
      exact ⟨by rw [registryCount_filter, if_neg hnot], registryFind_filter_other _ _ _ hnot⟩
  · intro s s1 drv r events h hempty
    exact create_registry h hempty
  · intro physicalDevice device queue inst surface fallbackExtent flags members init drv replies
      s0 s1 events hcons hnonnull hreplies hall
    obtain ⟨hm, hd, -⟩ := surface_construct_registry hcons
    have hk0 : registryKeys s0.mMemory = [s0.mSwapChainBundle.depth] := by
      rw [hm]
      rfl
    have hd0 : s0.mSwapChainBundle.depth ≠ VK_NULL_HANDLE := by
      rw [hd]
      exact hnonnull
    obtain ⟨hd1, hk1⟩ := recreateAll_registry P context replies s0 s1 hd0 hk0 hreplies hall
    exact ⟨hk0, hk1, hd1, surface_destruct_registry P s1 hd1 hk1⟩
  · intro device queue extent flags members colorReply depthReply s0 events hcons hdistinct
      hnonnull
    obtain ⟨hm, hk, hnd⟩ := headless_construct_registry hcons hdistinct
    obtain ⟨-, -, hdepth, -⟩ := headless_construct_ok_inv hcons
    have hd0 : s0.mSwapChainBundle.depth ≠ VK_NULL_HANDLE := by
      rw [hdepth]
      exact hnonnull
    obtain ⟨h1, h2⟩ := headless_destruct_registry s0 hk hnd hd0
    exact ⟨hm, hk, hnd, h1, h2⟩

/-- C9 on the sample objects: the surface-backed one is constructed and recreated twice, the
headless one is constructed; registry contents as the invariant says, empty after the
destructors. -/
theorem memory_registry_invariant_witness :
    (registryKeys (sampleCreated false ⟨1024, 600⟩).mMemory
        = [(sampleCreated false ⟨1024, 600⟩).mSwapChainBundle.depth]
      ∧ registryKeys (sampleCreated false ⟨800, 600⟩).mMemory
        = [(sampleCreated false ⟨800, 600⟩).mSwapChainBundle.depth]
      ∧ (sampleCreated false ⟨800, 600⟩).mSwapChainBundle.depth ≠ VK_NULL_HANDLE
      ∧ ((sampleCreated false ⟨800, 600⟩).destruct samplePlatform).1.mMemory = [])
    ∧ (sampleHeadless.mMemory =
          (List.range' 0 samplePlatform.HEADLESS_SWAPCHAIN_SIZE).map
              (fun k => ((sampleImageReply (100 + k) (200 + k)).image,
                (sampleImageReply (100 + k) (200 + k)).memory))
            ++ [((sampleImageReply 150 250).image, (sampleImageReply 150 250).memory)]
      ∧ registryKeys sampleHeadless.mMemory
          = sampleHeadless.mSwapChainBundle.colors ++ [sampleHeadless.mSwapChainBundle.depth]
      ∧ (registryKeys sampleHeadless.mMemory).Nodup
      ∧ registryKeys sampleHeadless.destroy.1.mMemory = [sampleHeadless.mSwapChainBundle.depth]
      ∧ sampleHeadless.destruct.1.mMemory = []) :=
  ⟨(memory_registry_invariant samplePlatform sampleContext).2.2.2.2.1 4 1 2 3 5 ⟨800, 600⟩ 0
      sampleMembers ⟨VK_NULL_HANDLE, [0, 0, 0], 0, false⟩
      (sampleReplies (sampleCaps 2 3 1024 600))
      [sampleReplies (sampleCaps 2 3 640 480), sampleReplies (sampleCaps 2 3 0xFFFFFFFF 0xFFFFFFFF)]
      (sampleCreated false ⟨1024, 600⟩) (sampleCreated false ⟨800, 600⟩)
      (sampleCreateEvents 3 ⟨1024, 600⟩ []) (by decide) (by decide) (by decide) (by decide),
   (memory_registry_invariant samplePlatform sampleContext).2.2.2.2.2 1 2 ⟨64, 64⟩ 0x20
      sampleMembers (fun i => sampleImageReply (100 + i) (200 + i)) (sampleImageReply 150 250)
      sampleHeadless sampleHeadlessEvents (by decide) (by decide) (by decide)⟩


/-! ## C10: the bundle after a successful creation -/

/-- C10, as stated, fails: with a driver that reports success everywhere but enumerates no swap
chain image and returns the null handle from `vkCreateImage`, `create` passes every check and
returns `VK_SUCCESS`, and the bundle it leaves has no color image and a null depth handle. The
same depth answer lets the headless construction complete with a null depth handle. -/
theorem create_empty_bundle_counterexample :
    ((sampleDestroyed false).create samplePlatform sampleContext sampleRepliesNoImages).toOption.map
        (fun x => (x.1, x.2.1.mSwapChainBundle.colors, x.2.1.mSwapChainBundle.depth))
      = some (VK_SUCCESS, [], VK_NULL_HANDLE)
    ∧ (VulkanPlatformHeadlessSwapChain.construct samplePlatform sampleContext 1 2 ⟨64, 64⟩ 0x20
          sampleMembers (fun i => sampleImageReply (100 + i) (200 + i))
          (sampleImageReply VK_NULL_HANDLE 250)).toOption.map
        (fun x => (x.1.mSwapChainBundle.colors, x.1.mSwapChainBundle.depth))
      = some ([100, 101, 102], VK_NULL_HANDLE) := by
  decide

/-- C10, amended: a successful creation stores what the driver returned and checks neither
value. After a successful surface-backed `create`, `bundle.colors` is the list of images the
driver enumerated for the new swap chain and `bundle.depth` is the handle `vkCreateImage`
returned, so the colors are non-empty exactly when the driver enumerated an image and the depth
is non-null exactly when the driver returned a non-null handle. After a completed headless
construction, `bundle.colors` holds the `HEADLESS_SWAPCHAIN_SIZE` images created for the ring,
in order, so it is non-empty for every positive ring size, and `bundle.depth` is again the
handle `vkCreateImage` returned. -/
theorem created_bundle_stores_driver_images (P : Platform) (context : VulkanContext) :
    (∀ (s s1 : VulkanPlatformSurfaceSwapChain) (drv : SurfaceReplies) r events,
        s.create P context drv = .ok (r, s1, events) →
        s1.mSwapChainBundle.colors = drv.swapchainImages
        ∧ s1.mSwapChainBundle.depth = drv.depthImage.image
        ∧ (s1.mSwapChainBundle.colors ≠ [] ↔ drv.swapchainImages ≠ [])
        ∧ (s1.mSwapChainBundle.depth ≠ VK_NULL_HANDLE ↔ drv.depthImage.image ≠ VK_NULL_HANDLE))
    ∧ (∀ device queue extent flags members (colorReply : Nat → ImageReply)
        (depthReply : ImageReply) (s0 : VulkanPlatformHeadlessSwapChain) events,
        VulkanPlatformHeadlessSwapChain.construct P context device queue extent flags members
          colorReply depthReply = .ok (s0, events) →
        s0.mSwapChainBundle.colors
            = (List.range' 0 P.HEADLESS_SWAPCHAIN_SIZE).map (fun k => (colorReply k).image)
        ∧ s0.mSwapChainBundle.colors.length = P.HEADLESS_SWAPCHAIN_SIZE
        ∧ (0 < P.HEADLESS_SWAPCHAIN_SIZE → s0.mSwapChainBundle.colors ≠ [])
        ∧ s0.mSwapChainBundle.depth = depthReply.image
        ∧ (s0.mSwapChainBundle.depth ≠ VK_NULL_HANDLE ↔ depthReply.image ≠ VK_NULL_HANDLE)) := by
  constructor
  · intro s s1 drv r events h
    obtain ⟨_, _, _, _, _, _, _, _, _, _, rfl, _⟩ := create_ok_inv h
    exact ⟨rfl, rfl, Iff.rfl, Iff.rfl⟩
  · intro device queue extent flags members colorReply depthReply s0 events h
    obtain ⟨-, hc, hd, -⟩ := headless_construct_ok_inv h
    have hlen : s0.mSwapChainBundle.colors.length = P.HEADLESS_SWAPCHAIN_SIZE := by
      rw [hc]
      simp
    refine ⟨hc, hlen, ?_, hd, by rw [hd]⟩
    intro hsize hnil
    rw [hnil] at hlen
    simp only [List.length_nil] at hlen
    omega

/-- C10, amended, on the sample objects: the surface-backed swap chain created with the
answers `sampleReplies` holds the enumerated images 901 and 902 and the depth image 950; the
headless one holds the three ring images and the depth image 150. -/
theorem created_bundle_stores_driver_images_witness :
    ((sampleCreated false ⟨1024, 600⟩).mSwapChainBundle.colors
        = (sampleReplies (sampleCaps 2 3 1024 600)).swapchainImages
      ∧ (sampleCreated false ⟨1024, 600⟩).mSwapChainBundle.depth
        = (sampleReplies (sampleCaps 2 3 1024 600)).depthImage.image)
    ∧ (sampleCreated false ⟨1024, 600⟩).mSwapChainBundle.colors = [901, 902]
    ∧ (sampleCreated false ⟨1024, 600⟩).mSwapChainBundle.depth = 950
    ∧ sampleHeadless.mSwapChainBundle.colors ≠ []
    ∧ sampleHeadless.mSwapChainBundle.depth = (sampleImageReply 150 250).image :=
  ⟨⟨((created_bundle_stores_driver_images samplePlatform sampleContext).1 (sampleDestroyed false)
        (sampleCreated false ⟨1024, 600⟩) (sampleReplies (sampleCaps 2 3 1024 600)) VK_SUCCESS
        (sampleCreateEvents 3 ⟨1024, 600⟩ []) (by decide)).1,
     ((created_bundle_stores_driver_images samplePlatform sampleContext).1 (sampleDestroyed false)
        (sampleCreated false ⟨1024, 600⟩) (sampleReplies (sampleCaps 2 3 1024 600)) VK_SUCCESS
        (sampleCreateEvents 3 ⟨1024, 600⟩ []) (by decide)).2.1⟩,
   by decide, by decide,
   ((created_bundle_stores_driver_images samplePlatform sampleContext).2 1 2 ⟨64, 64⟩ 0x20
      sampleMembers (fun i => sampleImageReply (100 + i) (200 + i)) (sampleImageReply 150 250)
      sampleHeadless sampleHeadlessEvents (by decide)).2.2.1 (by decide),
   ((created_bundle_stores_driver_images samplePlatform sampleContext).2 1 2 ⟨64, 64⟩ 0x20
      sampleMembers (fun i => sampleImageReply (100 + i) (200 + i)) (sampleImageReply 150 250)
      sampleHeadless sampleHeadlessEvents (by decide)).2.2.2.1⟩

/-! ## C11: `hasResized` -/

/-- C11: `hasResized` returns true exactly when the bundle's stored extent differs, in width or
in height, from the extent perceived at the call: the surface's freshly queried current extent,
or the fallback extent when the reported width or the reported height is the undefined
sentinel. It is a pure query: the object (bundle, registry, semaphore pool, swap chain handle,
flags) is the same after the call, whose only driver call is the capability query. The
comparison is `fvkutils::equivalent`, modelled from the spec. -/
theorem hasResized_compares_extents (P : Platform) (s : VulkanPlatformSurfaceSwapChain)
    (caps : VkSurfaceCapabilitiesKHR) :
    ((s.hasResized P caps).1 = true ↔
        (s.mSwapChainBundle.extent.width ≠
            (if caps.currentExtent.width = P.VULKAN_UNDEFINED_EXTENT
                ∨ caps.currentExtent.height = P.VULKAN_UNDEFINED_EXTENT then
              s.mFallbackExtent else caps.currentExtent).width
          ∨ s.mSwapChainBundle.extent.height ≠
            (if caps.currentExtent.width = P.VULKAN_UNDEFINED_EXTENT
                ∨ caps.currentExtent.height = P.VULKAN_UNDEFINED_EXTENT then
              s.mFallbackExtent else caps.currentExtent).height))
    ∧ (s.hasResized P caps).2.1 = s
    ∧ (s.hasResized P caps).2.2
        = [.vkGetPhysicalDeviceSurfaceCapabilitiesKHR s.mPhysicalDevice s.mSurface] := by
  refine ⟨?_, rfl, rfl⟩
  simp only [VulkanPlatformSurfaceSwapChain.hasResized, equivalent, perceivedExtent,
    Bool.not_eq_true', decide_eq_false_iff_not, not_and_or, ne_eq]

/-- C11 on the sample object (stored extent 640x480, fallback 800x600): a report of 640x480 is
no resize, a report whose width is undefined is perceived as 800x600 and is a resize, and the
object is unchanged. -/
theorem hasResized_compares_extents_witness :
    ((sampleSurface false).hasResized samplePlatform (sampleCaps 2 3 640 480)).1 = false
    ∧ ((sampleSurface false).hasResized samplePlatform (sampleCaps 2 3 0xFFFFFFFF 480)).1 = true
    ∧ ((sampleSurface false).hasResized samplePlatform (sampleCaps 2 3 0xFFFFFFFF 480)).2.1
        = sampleSurface false :=
  ⟨by decide, by decide,
   (hasResized_compares_extents samplePlatform (sampleSurface false)
      (sampleCaps 2 3 0xFFFFFFFF 480)).2.1⟩

/-! ## C12: `recreate` keeps the object and re-resolves the extent -/

/-- C12: a successful `recreate` is `destroy` followed by `create` on the same object (the
trace is the trace of `destroy` followed by the trace of `create` on what `destroy` left). The
surface, instance, physical device, device, queue, fallback extent and the sRGB, stencil and
protected configuration are unchanged, and the bundle's extent is the one resolved from the
capabilities queried during the recreation and the fallback extent; the extent held before
the call plays no part in it. -/
theorem recreate_preserves_identity (P : Platform) (context : VulkanContext)
    (s s1 : VulkanPlatformSurfaceSwapChain) (drv : SurfaceReplies) (r : VkResult)
    (events : List Event) (h : s.recreate P context drv = .ok (r, s1, events)) :
    (∃ createEvents, (s.destroy P).1.create P context drv = .ok (r, s1, createEvents)
        ∧ events = (s.destroy P).2 ++ createEvents)
    ∧ s1.mSurface = s.mSurface
    ∧ s1.mInstance = s.mInstance
    ∧ s1.mPhysicalDevice = s.mPhysicalDevice
    ∧ s1.mDevice = s.mDevice
    ∧ s1.mQueue = s.mQueue
    ∧ s1.mFallbackExtent = s.mFallbackExtent
    ∧ s1.mUsesRGB = s.mUsesRGB
    ∧ s1.mHasStencil = s.mHasStencil
    ∧ s1.mIsProtected = s.mIsProtected
    ∧ s1.mSwapChainBundle.extent =
        (if drv.caps.currentExtent.width = P.VULKAN_UNDEFINED_EXTENT
            ∨ drv.caps.currentExtent.height = P.VULKAN_UNDEFINED_EXTENT then
          s.mFallbackExtent
        else drv.caps.currentExtent) := by
  obtain ⟨createEvents, hcreate, hev⟩ := recreate_ok_inv h
  refine ⟨⟨createEvents, hcreate, hev⟩, ?_⟩
  obtain ⟨_, _, _, _, _, _, _, _, _, _, rfl, _⟩ := create_ok_inv hcreate
  exact ⟨rfl, rfl, rfl, rfl, rfl, rfl, rfl, rfl, rfl, rfl⟩

/-- C12 on the sample object, which holds the extent 640x480 and is recreated while the
surface reports 1024x600. -/
theorem recreate_preserves_identity_witness :
    (sampleSurface false).recreate samplePlatform sampleContext
        (sampleReplies (sampleCaps 2 3 1024 600))
      = .ok (VK_SUCCESS, sampleCreated false ⟨1024, 600⟩,
          sampleDestroyEvents ++ sampleCreateEvents 3 ⟨1024, 600⟩ [])
    ∧ (sampleCreated false ⟨1024, 600⟩).mSurface = (sampleSurface false).mSurface
    ∧ (sampleCreated false ⟨1024, 600⟩).mSwapChainBundle.extent = ⟨1024, 600⟩ :=
  ⟨by decide,
   (recreate_preserves_identity samplePlatform sampleContext (sampleSurface false)
      (sampleCreated false ⟨1024, 600⟩) (sampleReplies (sampleCaps 2 3 1024 600)) VK_SUCCESS
      (sampleDestroyEvents ++ sampleCreateEvents 3 ⟨1024, 600⟩ []) (by decide)).2.1,
   by decide⟩

/-! ## C13 and C14: the depth format -/

theorem selectDepthFormat_eq_find (P : Platform) (depthFormats : List VkFormat)
    (hasStencil : Bool) :
    selectDepthFormat P depthFormats hasStencil =
      match depthFormats.find?
          (if hasStencil then P.isVkStencilFormat else P.isVkDepthFormat) with
      | some format => .ok format
      | none => .error .noDepthFormat := by
  unfold selectDepthFormat
  cases depthFormats.find? (if hasStencil then P.isVkStencilFormat else P.isVkDepthFormat) <;>
    simp [assert_invariant]

theorem find?_eq_some_split {α : Type} (p : α → Bool) :
    ∀ (l : List α) (a : α), l.find? p = some a →
      ∃ pre post, l = pre ++ a :: post ∧ (∀ x ∈ pre, p x = false) ∧ p a = true := by
  intro l
  induction l with
  | nil => intro a h; cases h
  | cons x rest ih =>
    intro a h
    by_cases hx : p x = true
    · simp only [List.find?, hx, Option.some.injEq] at h
      subst h
      exact ⟨[], rest, rfl, by simp, hx⟩
    · have hx2 : p x = false := by simpa using hx
      simp only [List.find?, hx2] at h
      obtain ⟨pre, post, hl, hpre, ha⟩ := ih a h
      refine ⟨x :: pre, post, by simp [hl], ?_, ha⟩
      intro y hy
      rcases List.mem_cons.1 hy with rfl | hy
      · exact hx2
      · exact hpre y hy

/-- C13: when the list of depth/stencil formats contains a qualifying format (stencil-capable
if stencil was requested, depth-capable otherwise), `selectDepthFormat` returns the first
qualifying element of the list: the list splits into elements that do not qualify, the
returned format, which qualifies, and the rest. The returned format is a member of the
list. -/
theorem selectDepthFormat_first_match (P : Platform) (depthFormats : List VkFormat)
    (hasStencil : Bool)
    (h : ∃ format ∈ depthFormats,
      (if hasStencil then P.isVkStencilFormat format else P.isVkDepthFormat format) = true) :
    ∃ pre format post,
      selectDepthFormat P depthFormats hasStencil = .ok format
      ∧ depthFormats = pre ++ format :: post
      ∧ (∀ x ∈ pre,
          (if hasStencil then P.isVkStencilFormat x else P.isVkDepthFormat x) = false)
      ∧ (if hasStencil then P.isVkStencilFormat format else P.isVkDepthFormat format) = true
      ∧ format ∈ depthFormats := by
  rw [selectDepthFormat_eq_find]
  have hpred : ∀ x, (if hasStencil then P.isVkStencilFormat else P.isVkDepthFormat) x
      = (if hasStencil then P.isVkStencilFormat x else P.isVkDepthFormat x) := by
    intro x
    cases hasStencil <;> rfl
  cases hfind : depthFormats.find?
      (if hasStencil then P.isVkStencilFormat else P.isVkDepthFormat) with
  | none =>
    obtain ⟨format, hmem, hq⟩ := h
    rw [List.find?_eq_none] at hfind
    have := hfind format hmem
    rw [hpred] at this
    exact absurd hq this
  | some format =>
    obtain ⟨pre, post, hl, hpre, hf⟩ := find?_eq_some_split _ _ _ hfind
    refine ⟨pre, format, post, rfl, hl, ?_, ?_, ?_⟩
    · intro x hx
      rw [← hpred]
      exact hpre x hx
    · rw [← hpred]
      exact hf
    · rw [hl]
      simp

/-- C13 on the sample platform: in the list D32_SFLOAT (126), S8_UINT (127), D24_UNORM_S8_UINT
(129) the first stencil-capable format is 127 and the first depth-capable format is 126. -/
theorem selectDepthFormat_first_match_witness :
    (∃ pre format post,
      selectDepthFormat samplePlatform [126, 127, 129] true = .ok format
      ∧ [126, 127, 129] = pre ++ format :: post
      ∧ (∀ x ∈ pre, (if true then samplePlatform.isVkStencilFormat x
          else samplePlatform.isVkDepthFormat x) = false)
      ∧ (if true then samplePlatform.isVkStencilFormat format
          else samplePlatform.isVkDepthFormat format) = true
      ∧ format ∈ [126, 127, 129])
    ∧ selectDepthFormat samplePlatform [126, 127, 129] true = .ok 127
    ∧ selectDepthFormat samplePlatform [126, 127, 129] false = .ok 126 :=
  ⟨selectDepthFormat_first_match samplePlatform [126, 127, 129] true ⟨127, by decide, by decide⟩,
   by decide, by decide⟩

/-- C14: when no format of the device's depth/stencil list matches the request (the list is
empty, or holds no stencil-capable format although stencil was requested, or no depth-capable
format), `selectDepthFormat` ends in the fatal "Cannot find suitable swapchain depth format"
and returns no format; the surface-backed `create` and the headless construction that call it
then end in a fatal violation too, so no bundle with a depth image comes out of them. The
fatal outcome of a failed `assert_invariant` is modelled from the spec. -/
theorem selectDepthFormat_no_match_fatal (P : Platform) (context : VulkanContext)
    (hasStencil : Bool)
    (h : ∀ format ∈ context.getAttachmentDepthStencilFormats,
      (if hasStencil then P.isVkStencilFormat format else P.isVkDepthFormat format) = false) :
    selectDepthFormat P context.getAttachmentDepthStencilFormats hasStencil
      = .error .noDepthFormat
    ∧ (∀ (s : VulkanPlatformSurfaceSwapChain) (drv : SurfaceReplies),
        s.mHasStencil = hasStencil →
        (∃ e, s.create P context drv = .error e)
        ∧ (∀ surfaceFormat,
            selectSurfaceFormat s.mUsesRGB drv.surfaceFormats = .ok surfaceFormat →
            foundSuitablePresentMode drv.presentModes = true →
            drv.swapchainResult = VK_SUCCESS →
            s.create P context drv = .error .noDepthFormat))
    ∧ (∀ device queue extent flags members (colorReply : Nat → ImageReply)
        (depthReply : ImageReply),
        decide (flags &&& P.SWAP_CHAIN_HAS_STENCIL_BUFFER ≠ 0) = hasStencil →
        ∃ e, VulkanPlatformHeadlessSwapChain.construct P context device queue extent flags
          members colorReply depthReply = .error e) := by
  have hsel : selectDepthFormat P context.getAttachmentDepthStencilFormats hasStencil
      = .error .noDepthFormat := by
    rw [selectDepthFormat_eq_find]
    have : context.getAttachmentDepthStencilFormats.find?
        (if hasStencil then P.isVkStencilFormat else P.isVkDepthFormat) = none := by
      rw [List.find?_eq_none]
      intro x hx
      have := h x hx
      cases hasStencil <;> simpa using this
    rw [this]
  refine ⟨hsel, ?_, ?_⟩
  · intro s drv hst
    subst hst
    constructor
    · cases hc : s.create P context drv with
      | error e => exact ⟨e, rfl⟩
      | ok x =>
        obtain ⟨r, s1, events⟩ := x
        obtain ⟨_, _, _, _, _, _, _, hdf, _⟩ := create_ok_inv hc
        rw [hsel] at hdf
        cases hdf
    · intro surfaceFormat hsf hpm hsc
      unfold VulkanPlatformSurfaceSwapChain.create
      simp only [hsf, hpm, hsc, hsel, Bool.true_eq_false, if_false, ne_eq, not_true_eq_false]
  · intro device queue extent flags members colorReply depthReply hflag
    unfold VulkanPlatformHeadlessSwapChain.construct
    simp only [hflag, hsel]
    split
    · rename_i e _
      exact ⟨e, rfl⟩
    · exact ⟨_, rfl⟩

/-- C14 on the sample platform with a context that offers only D32_SFLOAT (126) while stencil
is requested. -/
theorem selectDepthFormat_no_match_fatal_witness :
    selectDepthFormat samplePlatform sampleContextNoStencil.getAttachmentDepthStencilFormats true
      = .error .noDepthFormat
    ∧ sampleDestroyedStencil.create samplePlatform sampleContextNoStencil
        (sampleReplies (sampleCaps 2 3 1024 600))
      = .error .noDepthFormat :=
  ⟨(selectDepthFormat_no_match_fatal samplePlatform sampleContextNoStencil true
      (by decide)).1,
   ((selectDepthFormat_no_match_fatal samplePlatform sampleContextNoStencil true
      (by decide)).2.1 sampleDestroyedStencil (sampleReplies (sampleCaps 2 3 1024 600)) rfl).2
      ⟨VK_FORMAT_B8G8R8A8_UNORM, 0⟩ (by decide) (by decide) (by decide)⟩

/-! ## C15 and C16: `DescriptorSet::commit` -/

theorem range_filter_eq_singleton (b : Nat) :
    ∀ n, b < n → (List.range n).filter (fun i => decide (b = i)) = [b] := by
  intro n
  induction n with
  | zero => intro h; omega
  | succ n ih =>
    intro h
    rw [List.range_succ, List.filter_append]
    by_cases hb : b < n
    · have hne : ¬ b = n := by omega
      rw [ih hb]
      simp [List.filter, hne]
    · have heq : b = n := by omega
      subst heq
      have hnil : (List.range b).filter (fun i => decide (b = i)) = [] := by
        rw [List.filter_eq_nil_iff]
        intro i hi
        have := List.mem_range.1 hi
        simp only [decide_eq_true_eq]
        omega
      rw [hnil]
      simp [List.filter]

theorem dirty_bits_of_single (binding : Nat) (h : binding < 64) :
    (List.range 64).filter (fun i => bitsetTest (bitsetSet 0 binding) i) = [binding] := by
  have hfun : (fun i => bitsetTest (bitsetSet 0 binding) i) = fun i => decide (binding = i) := by
    funext i
    simp only [bitsetTest, bitsetSet, Nat.zero_or, Nat.one_shiftLeft, Nat.testBit_two_pow]
  rw [hfun]
  exact range_filter_eq_singleton binding 64 h

theorem bitsetSet_ne_zero (bits binding : Nat) : bitsetSet bits binding ≠ 0 := by
  intro h
  have h1 : (bitsetSet bits binding).testBit binding = true := by
    simp [bitsetSet, Nat.testBit_or, Nat.one_shiftLeft, Nat.testBit_two_pow_self]
  rw [h] at h1
  simp at h1

/-- C15: on a descriptor set with no dirty bit, `setBuffer` on a binding `b` that the layout
declares as a buffer, then `commit`, pushes exactly one backend update, the buffer update for
binding `b` with the handle, offset and size just written, and leaves every dirty bit clear;
a further `commit` pushes nothing and leaves the set as it is. `setBuffer` and `commitSlow` are
modelled from the spec, `commit` is the inline function of the header. -/
theorem setBuffer_commit_pushes_one (layout : DescriptorSetLayout) (s : DescriptorSet)
    (binding boh offset size : Nat)
    (hclean : s.mDirty = 0)
    (hdeclared : layout.declared binding = some .buffer)
    (hbit : binding < 64)
    (hslot : binding < s.mDescriptors.length) :
    ∃ s1,
      s.setBuffer layout binding boh offset size = .ok s1
      ∧ bitsetTest s1.mDirty binding = true
      ∧ DescriptorSet.commit DescriptorSet.commitSlow layout s1
          = ({ s1 with mDirty := 0 },
             [.updateDescriptorSetBuffer s.mDescriptorSetHandle binding boh offset size])
      ∧ (∀ i, bitsetTest
            (DescriptorSet.commit DescriptorSet.commitSlow layout s1).1.mDirty i = false)
      ∧ DescriptorSet.commit DescriptorSet.commitSlow layout
            (DescriptorSet.commit DescriptorSet.commitSlow layout s1).1
          = ((DescriptorSet.commit DescriptorSet.commitSlow layout s1).1, []) := by
  have hset : s.setBuffer layout binding boh offset size
      = .ok { s with
                mDescriptors := s.mDescriptors.set binding (.buffer boh offset size)
                mDirty := bitsetSet s.mDirty binding
                mValid := bitsetSet s.mValid binding } := by
    unfold DescriptorSet.setBuffer
    rw [hdeclared]
  have hcommit : DescriptorSet.commit DescriptorSet.commitSlow layout
      { s with
          mDescriptors := s.mDescriptors.set binding (.buffer boh offset size)
          mDirty := bitsetSet s.mDirty binding
          mValid := bitsetSet s.mValid binding }
      = ({ s with
            mDescriptors := s.mDescriptors.set binding (.buffer boh offset size)
            mDirty := 0
            mValid := bitsetSet s.mValid binding },
         [.updateDescriptorSetBuffer s.mDescriptorSetHandle binding boh offset size]) := by
    have hany : bitsetAny (bitsetSet 0 binding) = true := by
      simp [bitsetAny, bitsetSet_ne_zero]
    have hslotval : (s.mDescriptors.set binding (Desc.buffer boh offset size)).getD binding
        (Desc.buffer 0 0 0) = Desc.buffer boh offset size := by
      simp [List.getD_eq_getElem?_getD, List.getElem?_set, hslot]
    simp only [DescriptorSet.commit, hclean, hany, if_true, DescriptorSet.commitSlow,
      dirty_bits_of_single binding hbit, List.map_cons, List.map_nil, descriptorUpdate, hslotval]
  refine ⟨_, hset, ?_, hcommit, ?_, ?_⟩
  · simp [bitsetTest, bitsetSet, Nat.testBit_or, Nat.one_shiftLeft, Nat.testBit_two_pow_self]
  · intro i
    rw [hcommit]
    simp [bitsetTest]
  · rw [hcommit]
    simp [DescriptorSet.commit, bitsetAny]

/-- C15 on the sample descriptor set: buffer 70 at offset 16 with size 256 is written to
binding 3, the commit pushes that one update, the next commit pushes none. -/
theorem setBuffer_commit_pushes_one_witness :
    sampleDescriptorSet.setBuffer sampleLayout 3 70 16 256 = .ok sampleDescriptorSetWritten
    ∧ DescriptorSet.commit DescriptorSet.commitSlow sampleLayout sampleDescriptorSetWritten
        = (sampleDescriptorSetCommitted, [.updateDescriptorSetBuffer 9 3 70 16 256])
    ∧ DescriptorSet.commit DescriptorSet.commitSlow sampleLayout sampleDescriptorSetCommitted
        = (sampleDescriptorSetCommitted, [])
    ∧ (∃ s1,
        sampleDescriptorSet.setBuffer sampleLayout 3 70 16 256 = .ok s1
        ∧ bitsetTest s1.mDirty 3 = true
        ∧ DescriptorSet.commit DescriptorSet.commitSlow sampleLayout s1
            = ({ s1 with mDirty := 0 },
               [.updateDescriptorSetBuffer sampleDescriptorSet.mDescriptorSetHandle 3 70 16 256])
        ∧ (∀ i, bitsetTest
              (DescriptorSet.commit DescriptorSet.commitSlow sampleLayout s1).1.mDirty i = false)
        ∧ DescriptorSet.commit DescriptorSet.commitSlow sampleLayout
              (DescriptorSet.commit DescriptorSet.commitSlow sampleLayout s1).1
            = ((DescriptorSet.commit DescriptorSet.commitSlow sampleLayout s1).1, [])) :=
  ⟨by decide, by decide, by decide,
   setBuffer_commit_pushes_one sampleLayout sampleDescriptorSet 3 70 16 256 (by decide)
     (by decide) (by decide) (by decide)⟩

/-- C16: `commit` takes the slow path exactly when at least one dirty bit is set. With a dirty
bit, its outcome is the outcome of `commitSlow`; with none, it returns at once: no driver call
is made and the set (descriptors, dirty bits, valid bits, handle) is unchanged, whatever
`commitSlow` would do. So the outcome of `commit` depends on `commitSlow` if and only if a bit
is dirty. -/
theorem commit_slow_path_iff_dirty
    (commitSlow : DescriptorSetLayout → DescriptorSet → DescriptorSet × List DriverCall)
    (layout : DescriptorSetLayout) (s : DescriptorSet) :
    ((∃ i, bitsetTest s.mDirty i = true) →
        DescriptorSet.commit commitSlow layout s = commitSlow layout s)
    ∧ ((∀ i, bitsetTest s.mDirty i = false) →
        DescriptorSet.commit commitSlow layout s = (s, []))
    ∧ ((∃ i, bitsetTest s.mDirty i = true) ↔
        ∃ slow : DescriptorSetLayout → DescriptorSet → DescriptorSet × List DriverCall,
          DescriptorSet.commit slow layout s ≠ (s, [])) := by
  have hany : bitsetAny s.mDirty = true ↔ ∃ i, bitsetTest s.mDirty i = true := by
    unfold bitsetAny bitsetTest
    simp only [ne_eq, decide_eq_true_eq]
    constructor
    · intro hne
      exact Nat.ne_zero_implies_bit_true hne
    · rintro ⟨i, hi⟩ hzero
      rw [hzero] at hi
      simp at hi
  refine ⟨?_, ?_, ?_⟩
  · intro hdirty
    simp [DescriptorSet.commit, hany.2 hdirty]
  · intro hclean
    have : ¬ bitsetAny s.mDirty = true := by
      rw [hany]
      rintro ⟨i, hi⟩
      rw [hclean i] at hi
      cases hi
    simp [DescriptorSet.commit, this]
  · constructor
    · intro hdirty
      refine ⟨fun _ t => (t, [.updateDescriptorSetBuffer 0 0 0 0 0]), ?_⟩
      simp [DescriptorSet.commit, hany.2 hdirty]
    · rintro ⟨slow, hslow⟩
      rw [← hany]
      by_contra hno
      apply hslow
      simp [DescriptorSet.commit, hno]

/-- C16 on the sample descriptor sets, with the `commitSlow` of the spec: the written set
(dirty bit 3) takes the slow path, the committed set (no dirty bit) returns at once. -/
theorem commit_slow_path_iff_dirty_witness :
    DescriptorSet.commit DescriptorSet.commitSlow sampleLayout sampleDescriptorSetWritten
      = DescriptorSet.commitSlow sampleLayout sampleDescriptorSetWritten
    ∧ DescriptorSet.commit DescriptorSet.commitSlow sampleLayout sampleDescriptorSetCommitted
      = (sampleDescriptorSetCommitted, []) :=
  ⟨(commit_slow_path_iff_dirty DescriptorSet.commitSlow sampleLayout
      sampleDescriptorSetWritten).1 ⟨3, by decide⟩,
   (commit_slow_path_iff_dirty DescriptorSet.commitSlow sampleLayout
      sampleDescriptorSetCommitted).2.1 (fun i => by simp [sampleDescriptorSetCommitted, bitsetTest])⟩

/-! ## C17: what `createImageAndMemory` asks for -/

/-- C17: for every format and protected flag, the image that `createImageAndMemory` creates
asks for transfer-source and transfer-destination usage plus exactly one attachment usage,
depth/stencil-attachment when `isVkDepthFormat` holds for the format and color-attachment
otherwise; its create flags are the protected bit exactly when `isProtected` is true. The
memory properties passed to `selectMemoryType` are device-local, plus protected exactly when
`isProtected` is true. A successful run starts with `vkCreateImage` on that create info and
allocates from the memory type that `selectMemoryType` returned; when the image is created and
the returned index is not below `VK_MAX_MEMORY_TYPES`, the run ends in the fatal
"unable to find a memory type that meets requirements". -/
theorem createImageAndMemory_request (P : Platform) (context : VulkanContext)
    (device : VkHandle) (extent : VkExtent2D) (format : VkFormat) (isProtected : Bool)
    (drv : ImageReply) :
    (imageCreateInfo P extent format isProtected).usage
        = (VK_IMAGE_USAGE_TRANSFER_SRC_BIT ||| VK_IMAGE_USAGE_TRANSFER_DST_BIT
            ||| (if P.isVkDepthFormat format = true then
                  VK_IMAGE_USAGE_DEPTH_STENCIL_ATTACHMENT_BIT
                else VK_IMAGE_USAGE_COLOR_ATTACHMENT_BIT))
    ∧ ((imageCreateInfo P extent format isProtected).usage
          &&& VK_IMAGE_USAGE_DEPTH_STENCIL_ATTACHMENT_BIT ≠ 0 ↔ P.isVkDepthFormat format = true)
    ∧ ((imageCreateInfo P extent format isProtected).usage
          &&& VK_IMAGE_USAGE_COLOR_ATTACHMENT_BIT ≠ 0 ↔ P.isVkDepthFormat format = false)
    ∧ (imageCreateInfo P extent format isProtected).flags
        = (if isProtected = true then VK_IMAGE_CREATE_PROTECTED_BIT else 0)
    ∧ (imageCreateInfo P extent format isProtected).format = format
    ∧ requiredMemoryFlags isProtected
        = (VK_MEMORY_PROPERTY_DEVICE_LOCAL_BIT
            ||| (if isProtected = true then VK_MEMORY_PROPERTY_PROTECTED_BIT else 0))
    ∧ (requiredMemoryFlags isProtected &&& VK_MEMORY_PROPERTY_DEVICE_LOCAL_BIT ≠ 0)
    ∧ (requiredMemoryFlags isProtected &&& VK_MEMORY_PROPERTY_PROTECTED_BIT ≠ 0
        ↔ isProtected = true)
    ∧ (∀ x, createImageAndMemory P context device extent format isProtected drv = .ok x →
        x = ((drv.image, drv.memory),
              [ .vkCreateImage device (imageCreateInfo P extent format isProtected),
                .vkGetImageMemoryRequirements device drv.image,
                .vkAllocateMemory device
                  { allocationSize := drv.size
                    memoryTypeIndex :=
                      context.selectMemoryType drv.memoryTypeBits
                        (requiredMemoryFlags isProtected) },
                .vkBindImageMemory device drv.image drv.memory ])
        ∧ context.selectMemoryType drv.memoryTypeBits (requiredMemoryFlags isProtected)
            < VK_MAX_MEMORY_TYPES)
    ∧ (drv.createResult = VK_SUCCESS →
        ¬ context.selectMemoryType drv.memoryTypeBits (requiredMemoryFlags isProtected)
            < VK_MAX_MEMORY_TYPES →
        createImageAndMemory P context device extent format isProtected drv
          = .error .noMemoryType) := by
  refine ⟨?_, ?_, ?_, ?_, rfl, rfl, ?_, ?_, ?_, ?_⟩
  · simp only [imageCreateInfo]
    cases P.isVkDepthFormat format <;> decide
  · simp only [imageCreateInfo]
    cases P.isVkDepthFormat format <;> decide
  · simp only [imageCreateInfo]
    cases P.isVkDepthFormat format <;> decide
  · unfold imageCreateInfo
    cases isProtected <;> rfl
  · cases isProtected <;> decide
  · cases isProtected <;> decide
  · intro x hx
    refine ⟨createImageAndMemory_ok_inv hx, ?_⟩
    unfold createImageAndMemory at hx
    simp only at hx
    split at hx
    · cases hx
    · split at hx
      · cases hx
      · rename_i hlt
        simpa using hlt
  · intro hcreate hnot
    unfold createImageAndMemory
    simp only [hcreate, ne_eq, not_true_eq_false, if_false, hnot, not_false_eq_true, if_true]

/-- C17 on the sample platform: a protected D24_UNORM_S8_UINT (129) image and an unprotected
RGBA8 (37) image, and a context whose memory type query fails with index 32. -/
theorem createImageAndMemory_request_witness :
    (imageCreateInfo samplePlatform ⟨64, 64⟩ 129 true).usage = 0x23
    ∧ (imageCreateInfo samplePlatform ⟨64, 64⟩ 129 true).flags = 0x800
    ∧ (imageCreateInfo samplePlatform ⟨64, 64⟩ 37 false).usage = 0x13
    ∧ (imageCreateInfo samplePlatform ⟨64, 64⟩ 37 false).flags = 0
    ∧ requiredMemoryFlags true = 0x21
    ∧ requiredMemoryFlags false = 0x1
    ∧ createImageAndMemory samplePlatform sampleContextNoMemory 1 ⟨64, 64⟩ 37 false
        (sampleImageReply 100 200) = .error .noMemoryType :=
  ⟨by decide, by decide, by decide, by decide, by decide, by decide,
   (createImageAndMemory_request samplePlatform sampleContextNoMemory 1 ⟨64, 64⟩ 37 false
      (sampleImageReply 100 200)).2.2.2.2.2.2.2.2.2 (by decide) (by decide)⟩

/-! ## C18: the queue is idle before anything is torn down -/

theorem destroySemaphores_length (device : VkHandle) (n : Nat) :
    ∀ (i : Nat) (imageReady : List VkSemaphore),
      (destroySemaphores device n i imageReady).1.length = imageReady.length := by
  induction n with
  | zero => intro i a; rfl
  | succ n ih =>
    intro i a
    simp only [destroySemaphores]
    split
    · simp [ih]
    · exact ih _ _

theorem surface_destroy_events (P : Platform) (s : VulkanPlatformSurfaceSwapChain) :
    (s.destroy P).2 =
      .vkQueueWaitIdle s.mQueue ::
        (s.toVulkanPlatformSwapChainImpl.destroy.2
          ++ (destroySemaphores s.mDevice P.IMAGE_READY_SEMAPHORE_COUNT 0 s.mImageReady).2
          ++ (if s.mSwapchain ≠ VK_NULL_HANDLE then
                [.vkDestroySwapchainKHR s.mDevice s.mSwapchain] else [])) := by
  unfold VulkanPlatformSurfaceSwapChain.destroy
  simp only [List.singleton_append, List.cons_append, List.nil_append, List.append_assoc]
  split <;> rfl

theorem destruction_after_head (q : VkHandle) (rest : List Event) :
    ∀ pre e post, Event.vkQueueWaitIdle q :: rest = pre ++ e :: post →
      isDestruction e = true → Event.vkQueueWaitIdle q ∈ pre := by
  intro pre e post hsplit hdes
  cases pre with
  | nil =>
    simp only [List.nil_append, List.cons.injEq] at hsplit
    rw [← hsplit.1] at hdes
    cases hdes
  | cons x pre1 =>
    simp only [List.cons_append, List.cons.injEq] at hsplit
    rw [← hsplit.1]
    exact List.mem_cons_self _ _

/-- C18: in every execution of the surface-backed `destroy`, also the one inside `recreate` and
the one inside the destructor, `vkQueueWaitIdle` on the object's queue is the first driver
call, so every image-destroy, memory-free, semaphore-destroy and swapchain-destroy call of the
trace comes after it. Afterwards the swap chain handle is null and every slot of the semaphore
pool is null. -/
theorem surface_destroy_waits_for_idle_first (P : Platform) (context : VulkanContext)
    (s : VulkanPlatformSurfaceSwapChain) :
    (∃ rest, (s.destroy P).2 = .vkQueueWaitIdle s.mQueue :: rest)
    ∧ (∀ pre e post, (s.destroy P).2 = pre ++ e :: post → isDestruction e = true →
        Event.vkQueueWaitIdle s.mQueue ∈ pre)
    ∧ (s.destroy P).1.mSwapchain = VK_NULL_HANDLE
    ∧ (∀ i, i < P.IMAGE_READY_SEMAPHORE_COUNT →
        (s.destroy P).1.mImageReady.getD i VK_NULL_HANDLE = VK_NULL_HANDLE)
    ∧ (s.mImageReady.length = P.IMAGE_READY_SEMAPHORE_COUNT →
        (s.destroy P).1.mImageReady = List.replicate P.IMAGE_READY_SEMAPHORE_COUNT VK_NULL_HANDLE)
    ∧ (∀ drv r s1 events, s.recreate P context drv = .ok (r, s1, events) →
        (∃ rest, events = .vkQueueWaitIdle s.mQueue :: rest)
        ∧ (∀ pre e post, events = pre ++ e :: post → isDestruction e = true →
            Event.vkQueueWaitIdle s.mQueue ∈ pre))
    ∧ (∃ rest, (s.destruct P).2 = .vkQueueWaitIdle s.mQueue :: rest)
    ∧ (∀ pre e post, (s.destruct P).2 = pre ++ e :: post → isDestruction e = true →
        Event.vkQueueWaitIdle s.mQueue ∈ pre) := by
  have hev := surface_destroy_events P s
  have hpool : ∀ i, i < P.IMAGE_READY_SEMAPHORE_COUNT →
      (s.destroy P).1.mImageReady.getD i VK_NULL_HANDLE = VK_NULL_HANDLE := by
    intro i hi
    show (destroySemaphores s.mDevice P.IMAGE_READY_SEMAPHORE_COUNT 0 s.mImageReady).1.getD i
      VK_NULL_HANDLE = VK_NULL_HANDLE
    rw [destroySemaphores_getD]
    simp [hi]
  have hlen : (s.destroy P).1.mImageReady.length = s.mImageReady.length :=
    destroySemaphores_length _ _ _ _
  have hdestruct : (s.destruct P).2
      = (s.destroy P).2 ++ ([.vkDestroySurfaceKHR s.mInstance s.mSurface]
          ++ (s.destroy P).1.toVulkanPlatformSwapChainImpl.destroy.2) := by
    unfold VulkanPlatformSurfaceSwapChain.destruct
    simp only [List.append_assoc]
  refine ⟨⟨_, hev⟩, ?_, surface_destroy_swapchain P s, hpool, ?_, ?_, ?_, ?_⟩
  · rw [hev]
    exact destruction_after_head _ _
  · intro hfull
    apply List.ext_getElem
    · rw [hlen, hfull, List.length_replicate]
    · intro i h1 h2
      have hi : i < P.IMAGE_READY_SEMAPHORE_COUNT := by
        rw [hlen, hfull] at h1
        exact h1
      have := hpool i hi
      rw [List.getD_eq_getElem?_getD, List.getElem?_eq_getElem h1] at this
      simpa using this
  · intro drv r s1 events hre
    obtain ⟨createEvents, -, rfl⟩ := recreate_ok_inv hre
    rw [hev, List.cons_append]
    exact ⟨⟨_, rfl⟩, destruction_after_head _ _⟩
  · rw [hdestruct, hev, List.cons_append]
    exact ⟨_, rfl⟩
  · rw [hdestruct, hev, List.cons_append]
    exact destruction_after_head _ _

/-- C18 on the sample object: the trace of `destroy` starts with the wait on queue 2, and the
pool and the swap chain handle are null afterwards. -/
theorem surface_destroy_waits_for_idle_first_witness :
    ((sampleSurface false).destroy samplePlatform).2
      = [ .vkQueueWaitIdle 2, .vkDestroyImage 1 21, .vkFreeMemory 1 31,
          .vkDestroySemaphore 1 41, .vkDestroySemaphore 1 42, .vkDestroySemaphore 1 43,
          .vkDestroySwapchainKHR 1 7 ]
    ∧ ((sampleSurface false).destroy samplePlatform).1.mSwapchain = VK_NULL_HANDLE
    ∧ ((sampleSurface false).destroy samplePlatform).1.mImageReady
        = List.replicate samplePlatform.IMAGE_READY_SEMAPHORE_COUNT VK_NULL_HANDLE :=
  ⟨by decide,
   (surface_destroy_waits_for_idle_first samplePlatform sampleContext (sampleSurface false)).2.2.1,
   (surface_destroy_waits_for_idle_first samplePlatform sampleContext
      (sampleSurface false)).2.2.2.2.1 (by decide)⟩

/-! ## C19: who destroys the color images -/

theorem destroyedImages_append (a b : List Event) :
    destroyedImages (a ++ b) = destroyedImages a ++ destroyedImages b := by
  induction a with
  | nil => rfl
  | cons e rest ih => cases e <;> simp [destroyedImages, ih]

theorem freedMemories_append (a b : List Event) :
    freedMemories (a ++ b) = freedMemories a ++ freedMemories b := by
  induction a with
  | nil => rfl
  | cons e rest ih => cases e <;> simp [freedMemories, ih]

theorem destroyImageAndMemory_trace (device : VkHandle) (m : MemoryRegistry) (image : VkImage) :
    destroyedImages (destroyImageAndMemory device m image).2 = [image]
    ∧ freedMemories (destroyImageAndMemory device m image).2 = (registryFind m image).toList := by
  unfold destroyImageAndMemory
  cases h : registryFind m image <;> simp [destroyedImages, freedMemories]

theorem destroyColorImages_destroyed (device : VkHandle) (images : List VkImage) :
    ∀ m : MemoryRegistry, destroyedImages (destroyColorImages device images m).2 = images := by
  induction images with
  | nil => intro m; rfl
  | cons image rest ih =>
    intro m
    simp only [destroyColorImages, destroyedImages_append, ih,
      (destroyImageAndMemory_trace device m image).1, List.singleton_append]

theorem destroyColorImages_freed (device : VkHandle) (images : List VkImage) :
    ∀ m : MemoryRegistry, images.Nodup →
      freedMemories (destroyColorImages device images m).2
        = images.filterMap (registryFind m) := by
  induction images with
  | nil => intro m _; rfl
  | cons image rest ih =>
    intro m hnodup
    have hnd := List.nodup_cons.1 hnodup
    simp only [destroyColorImages, freedMemories_append,
      (destroyImageAndMemory_trace device m image).2, destroyImageAndMemory_registry,
      ih _ hnd.2]
    have hrest : rest.filterMap (registryFind (registryErase m image))
        = rest.filterMap (registryFind m) := by
      apply List.filterMap_congr
      intro x hx
      rw [registryErase_eq_filter]
      apply registryFind_filter_other
      intro hin
      have : x = image := by simpa using hin
      exact hnd.1 (this ▸ hx)
    rw [hrest]
    cases hfind : registryFind m image <;> simp [List.filterMap_cons, hfind]

theorem destroySemaphores_trace (device : VkHandle) (n : Nat) :
    ∀ (i : Nat) (imageReady : List VkSemaphore),
      destroyedImages (destroySemaphores device n i imageReady).2 = []
      ∧ freedMemories (destroySemaphores device n i imageReady).2 = [] := by
  induction n with
  | zero => intro i a; exact ⟨rfl, rfl⟩
  | succ n ih =>
    intro i a
    simp only [destroySemaphores]
    split
    · simpa [destroyedImages, freedMemories] using ih _ _
    · exact ih _ _

theorem base_destroy_trace (s : VulkanPlatformSwapChainImpl) :
    destroyedImages s.destroy.2
        = (if s.mSwapChainBundle.depth ≠ VK_NULL_HANDLE then [s.mSwapChainBundle.depth] else [])
    ∧ freedMemories s.destroy.2
        = (if s.mSwapChainBundle.depth ≠ VK_NULL_HANDLE then
            (registryFind s.mMemory s.mSwapChainBundle.depth).toList else []) := by
  unfold VulkanPlatformSwapChainImpl.destroy
  simp only
  split
  · exact destroyImageAndMemory_trace _ _ _
  · exact ⟨rfl, rfl⟩

/-- C19: the color images are owned by the headless swap chain and borrowed by the others.
The headless `destroy` issues one `vkDestroyImage` per element of `bundle.colors`, in order,
and leaves no registry entry for any of them; when the handles are distinct it frees exactly
the memory registered for each. The base `destroy` and the surface-backed `destroy` only clear
the list: the one image they destroy is the depth image (when it is not null), the one memory
they free is the memory registered for it, and no color image other than a handle equal to the
depth image appears in a `vkDestroyImage` call. -/
theorem color_image_ownership (P : Platform) :
    (∀ s : VulkanPlatformHeadlessSwapChain,
        destroyedImages s.destroy.2 = s.mSwapChainBundle.colors
        ∧ (∀ image ∈ s.mSwapChainBundle.colors, registryCount s.destroy.1.mMemory image = 0)
        ∧ (s.mSwapChainBundle.colors.Nodup →
            freedMemories s.destroy.2
              = s.mSwapChainBundle.colors.filterMap (registryFind s.mMemory))
        ∧ s.destroy.1.mSwapChainBundle.colors = [])
    ∧ (∀ s : VulkanPlatformSwapChainImpl,
        destroyedImages s.destroy.2
            = (if s.mSwapChainBundle.depth ≠ VK_NULL_HANDLE then [s.mSwapChainBundle.depth]
               else [])
        ∧ freedMemories s.destroy.2
            = (if s.mSwapChainBundle.depth ≠ VK_NULL_HANDLE then
                (registryFind s.mMemory s.mSwapChainBundle.depth).toList else [])
        ∧ (∀ image ∈ s.mSwapChainBundle.colors, image ≠ s.mSwapChainBundle.depth →
            image ∉ destroyedImages s.destroy.2)
        ∧ s.destroy.1.mSwapChainBundle.colors = [])
    ∧ (∀ s : VulkanPlatformSurfaceSwapChain,
        destroyedImages (s.destroy P).2
            = (if s.mSwapChainBundle.depth ≠ VK_NULL_HANDLE then [s.mSwapChainBundle.depth]
               else [])
        ∧ freedMemories (s.destroy P).2
            = (if s.mSwapChainBundle.depth ≠ VK_NULL_HANDLE then
                (registryFind s.mMemory s.mSwapChainBundle.depth).toList else [])
        ∧ (∀ image ∈ s.mSwapChainBundle.colors, image ≠ s.mSwapChainBundle.depth →
            image ∉ destroyedImages (s.destroy P).2)
        ∧ (s.destroy P).1.mSwapChainBundle.colors = []) := by
  have hnotin : ∀ (depth : VkImage) (l : List VkImage) (image : VkImage),
      l = (if depth ≠ VK_NULL_HANDLE then [depth] else []) → image ≠ depth → image ∉ l := by
    intro depth l image hl hne hin
    rw [hl] at hin
    split at hin
    · exact hne (List.mem_singleton.1 hin)
    · cases hin
  refine ⟨?_, ?_, ?_⟩
  · intro s
    refine ⟨destroyColorImages_destroyed _ _ _, ?_, ?_, rfl⟩
    · intro image hin
      have hd : s.destroy.1.mMemory
          = s.mMemory.filter (fun e => !(s.mSwapChainBundle.colors.contains e.1)) :=
        destroyColorImages_registry _ _ _
      rw [hd, registryCount_filter, if_pos hin]
    · intro hnodup
      exact destroyColorImages_freed _ _ _ hnodup
  · intro s
    obtain ⟨h1, h2⟩ := base_destroy_trace s
    exact ⟨h1, h2, fun image _ hne => hnotin _ _ image h1 hne, rfl⟩
  · intro s
    obtain ⟨h1, h2⟩ := base_destroy_trace s.toVulkanPlatformSwapChainImpl
    have hd : destroyedImages (s.destroy P).2
        = (if s.mSwapChainBundle.depth ≠ VK_NULL_HANDLE then [s.mSwapChainBundle.depth]
           else []) := by
      rw [surface_destroy_events]
      have hsc : destroyedImages (if s.mSwapchain ≠ VK_NULL_HANDLE then
          [Event.vkDestroySwapchainKHR s.mDevice s.mSwapchain] else []) = [] := by
        split <;> rfl
      simp only [destroyedImages, destroyedImages_append, h1,
        (destroySemaphores_trace _ _ _ _).1, List.append_nil, hsc]
    have hf : freedMemories (s.destroy P).2
        = (if s.mSwapChainBundle.depth ≠ VK_NULL_HANDLE then
            (registryFind s.mMemory s.mSwapChainBundle.depth).toList else []) := by
      rw [surface_destroy_events]
      have hsc : freedMemories (if s.mSwapchain ≠ VK_NULL_HANDLE then
          [Event.vkDestroySwapchainKHR s.mDevice s.mSwapchain] else []) = [] := by
        split <;> rfl
      simp only [freedMemories, freedMemories_append, h2,
        (destroySemaphores_trace _ _ _ _).2, List.append_nil, hsc]
    exact ⟨hd, hf, fun image _ hne => hnotin _ _ image hd hne, rfl⟩

/-- C19 on the sample objects: the headless `destroy` destroys the color images 100, 101, 102
and frees their memory 200, 201, 202; the surface-backed `destroy` destroys only the depth
image 21 and frees only its memory 31, and the color images 11 and 12 are in no call. -/
theorem color_image_ownership_witness :
    destroyedImages sampleHeadless.destroy.2 = [100, 101, 102]
    ∧ freedMemories sampleHeadless.destroy.2 = [200, 201, 202]
    ∧ destroyedImages ((sampleSurface false).destroy samplePlatform).2 = [21]
    ∧ freedMemories ((sampleSurface false).destroy samplePlatform).2 = [31]
    ∧ destroyedImages sampleHeadless.destroy.2 = sampleHeadless.mSwapChainBundle.colors :=
  ⟨by decide, by decide, by decide, by decide,
   ((color_image_ownership samplePlatform).1 sampleHeadless).1⟩

/-! ## C20: the semaphore pool is used round-robin -/

theorem acquire_index (P : Platform) (s : VulkanPlatformSurfaceSwapChain)
    (out : ImageSyncData) (reply : AcquireReply) :
    (s.acquire P out reply).2.1.mCurrentImageReadyIndex
      = ((s.mCurrentImageReadyIndex + 1) % UINT32_MOD) % P.IMAGE_READY_SEMAPHORE_COUNT := by
  unfold VulkanPlatformSurfaceSwapChain.acquire
  simp only
  split <;> rfl

theorem acquire_frame (P : Platform) (s : VulkanPlatformSurfaceSwapChain)
    (out : ImageSyncData) (reply : AcquireReply) :
    (s.acquire P out reply).2.1.mImageReady = s.mImageReady
    ∧ (s.acquire P out reply).2.1.toVulkanPlatformSwapChainImpl = s.toVulkanPlatformSwapChainImpl
    ∧ (s.acquire P out reply).2.1.mSwapchain = s.mSwapchain := by
  unfold VulkanPlatformSurfaceSwapChain.acquire
  simp only
  split <;> exact ⟨rfl, rfl, rfl⟩

theorem acquireAll_slots (P : Platform) (hcount : 0 < P.IMAGE_READY_SEMAPHORE_COUNT)
    (hsmall : P.IMAGE_READY_SEMAPHORE_COUNT < 2 ^ 32) (replies : List AcquireReply) :
    ∀ (s : VulkanPlatformSurfaceSwapChain) (out : ImageSyncData),
      s.mCurrentImageReadyIndex + 1 < 2 ^ 32 →
      acquireSlots (acquireAll P s out replies)
        = (List.range replies.length).map
            (fun n => (s.mCurrentImageReadyIndex + 1 + n) % P.IMAGE_READY_SEMAPHORE_COUNT) := by
  induction replies with
  | nil => intro s out _; rfl
  | cons reply rest ih =>
    intro s out hindex
    have hstep : (s.acquire P out reply).2.1.mCurrentImageReadyIndex
        = (s.mCurrentImageReadyIndex + 1) % P.IMAGE_READY_SEMAPHORE_COUNT := by
      rw [acquire_index, UINT32_MOD, Nat.mod_eq_of_lt hindex]
    have hlt : (s.acquire P out reply).2.1.mCurrentImageReadyIndex
        < P.IMAGE_READY_SEMAPHORE_COUNT := by
      rw [hstep]
      exact Nat.mod_lt _ hcount
    have hrest := ih (s.acquire P out reply).2.1 (s.acquire P out reply).2.2.1 (by omega)
    simp only [acquireAll, acquireSlots, List.map_cons, List.length_cons] at hrest ⊢
    rw [hrest, List.range_succ_eq_map, List.map_cons, List.map_map, hstep]
    congr 1
    apply List.map_congr_left
    intro n _
    simp only [Function.comp, Nat.succ_eq_add_one]
    rw [Nat.add_assoc ((s.mCurrentImageReadyIndex + 1) % P.IMAGE_READY_SEMAPHORE_COUNT) 1 n,
      Nat.mod_add_mod]
    congr 1
    omega

theorem mod_ne_of_lt_apart (a d c : Nat) (h0 : 0 < d) (h1 : d < c) :
    a % c ≠ (a + d) % c := by
  intro heq
  have h := Nat.sub_mod_eq_zero_of_mod_eq heq.symm
  rw [Nat.add_sub_cancel_left, Nat.mod_eq_of_lt h1] at h
  omega

/-- C20: the surface-backed `acquire` uses the semaphore pool round-robin. For a pool of
positive size and an index that has room to be incremented (any index below the pool size
has), each call advances the current index to `(index + 1) mod IMAGE_READY_SEMAPHORE_COUNT`,
which is below the pool size; its first driver call is `vkAcquireNextImageKHR` with the pool
semaphore at the new index and the timeout `UINT64_MAX`; it writes that same semaphore and the
image index reported by the driver into the sync data, and leaves the pool as it is. Over a
run of calls, call number n uses slot `(index + 1 + n) mod IMAGE_READY_SEMAPHORE_COUNT`: two
calls exactly a pool size apart use the same slot, two calls less than a pool size apart use
different slots. -/
theorem acquire_round_robin (P : Platform) (s : VulkanPlatformSurfaceSwapChain)
    (out : ImageSyncData) (hcount : 0 < P.IMAGE_READY_SEMAPHORE_COUNT)
    (hsmall : P.IMAGE_READY_SEMAPHORE_COUNT < 2 ^ 32)
    (hindex : s.mCurrentImageReadyIndex + 1 < 2 ^ 32) :
    (∀ reply : AcquireReply,
        (s.acquire P out reply).2.1.mCurrentImageReadyIndex
            = (s.mCurrentImageReadyIndex + 1) % P.IMAGE_READY_SEMAPHORE_COUNT
        ∧ (s.acquire P out reply).2.1.mCurrentImageReadyIndex < P.IMAGE_READY_SEMAPHORE_COUNT
        ∧ (s.acquire P out reply).2.2.2.head?
            = some (.vkAcquireNextImageKHR s.mDevice s.mSwapchain UINT64_MAX
                (s.mImageReady.getD
                  ((s.mCurrentImageReadyIndex + 1) % P.IMAGE_READY_SEMAPHORE_COUNT)
                  VK_NULL_HANDLE)
                VK_NULL_HANDLE)
        ∧ (s.acquire P out reply).2.2.1.imageReadySemaphore
            = s.mImageReady.getD
                ((s.mCurrentImageReadyIndex + 1) % P.IMAGE_READY_SEMAPHORE_COUNT) VK_NULL_HANDLE
        ∧ (∀ imageIndex, reply.imageIndex = some imageIndex →
            (s.acquire P out reply).2.2.1.imageIndex = imageIndex)
        ∧ (s.acquire P out reply).2.1.mImageReady = s.mImageReady)
    ∧ (∀ replies : List AcquireReply,
        acquireSlots (acquireAll P s out replies)
            = (List.range replies.length).map
                (fun n => (s.mCurrentImageReadyIndex + 1 + n) % P.IMAGE_READY_SEMAPHORE_COUNT)
        ∧ (∀ slot ∈ acquireSlots (acquireAll P s out replies),
            slot < P.IMAGE_READY_SEMAPHORE_COUNT)
        ∧ (∀ n, n + P.IMAGE_READY_SEMAPHORE_COUNT < replies.length →
            (acquireSlots (acquireAll P s out replies)).getD
                (n + P.IMAGE_READY_SEMAPHORE_COUNT) 0
              = (acquireSlots (acquireAll P s out replies)).getD n 0)
        ∧ (∀ n d, 0 < d → d < P.IMAGE_READY_SEMAPHORE_COUNT → n + d < replies.length →
            (acquireSlots (acquireAll P s out replies)).getD n 0
              ≠ (acquireSlots (acquireAll P s out replies)).getD (n + d) 0)) := by
  have hmod : ((s.mCurrentImageReadyIndex + 1) % UINT32_MOD) % P.IMAGE_READY_SEMAPHORE_COUNT
      = (s.mCurrentImageReadyIndex + 1) % P.IMAGE_READY_SEMAPHORE_COUNT := by
    rw [UINT32_MOD, Nat.mod_eq_of_lt hindex]
  constructor
  · intro reply
    refine ⟨?_, ?_, ?_, ?_, ?_, (acquire_frame P s out reply).1⟩
    · rw [acquire_index, hmod]
    · rw [acquire_index, hmod]
      exact Nat.mod_lt _ hcount
    · unfold VulkanPlatformSurfaceSwapChain.acquire
      simp only [hmod]
      split <;> rfl
    · unfold VulkanPlatformSurfaceSwapChain.acquire
      simp only [hmod]
      split <;> rfl
    · intro imageIndex hsome
      unfold VulkanPlatformSurfaceSwapChain.acquire
      simp only [hsome]
      split <;> rfl
  · intro replies
    have hslots := acquireAll_slots P hcount hsmall replies s out hindex
    have hget : ∀ n, n < replies.length →
        (acquireSlots (acquireAll P s out replies)).getD n 0
          = (s.mCurrentImageReadyIndex + 1 + n) % P.IMAGE_READY_SEMAPHORE_COUNT := by
      intro n hn
      rw [hslots, List.getD_eq_getElem?_getD, List.getElem?_map,
        List.getElem?_range hn]
      rfl
    refine ⟨hslots, ?_, ?_, ?_⟩
    · intro slot hslot
      rw [hslots] at hslot
      obtain ⟨n, -, rfl⟩ := List.mem_map.1 hslot
      exact Nat.mod_lt _ hcount
    · intro n hn
      rw [hget _ hn, hget n (by omega), ← Nat.add_assoc, Nat.add_mod_right]
    · intro n d h0 h1 hn
      rw [hget n (by omega), hget _ hn, ← Nat.add_assoc]
      exact mod_ne_of_lt_apart _ d _ h0 h1

/-- C20 on the created sample object (pool 960, 961, 962, index 0): five calls use the slots
1, 2, 0, 1, 2, and the first one hands semaphore 961 to the driver and writes it, with the
reported image index 1, into the sync data. -/
theorem acquire_round_robin_witness :
    acquireSlots (acquireAll samplePlatform (sampleCreated false ⟨1024, 600⟩) ⟨0, 0⟩
        [⟨VK_SUCCESS, some 0⟩, ⟨VK_SUCCESS, some 1⟩, ⟨VK_SUBOPTIMAL_KHR, some 0⟩,
          ⟨VK_SUCCESS, some 1⟩, ⟨VK_SUCCESS, some 0⟩])
      = [1, 2, 0, 1, 2]
    ∧ (sampleCreated false ⟨1024, 600⟩).acquire samplePlatform ⟨0, 0⟩ ⟨VK_SUCCESS, some 1⟩
      = (VK_SUCCESS, { sampleCreated false ⟨1024, 600⟩ with mCurrentImageReadyIndex := 1 },
          ⟨961, 1⟩, [.vkAcquireNextImageKHR 1 900 UINT64_MAX 961 VK_NULL_HANDLE])
    ∧ ((sampleCreated false ⟨1024, 600⟩).acquire samplePlatform ⟨0, 0⟩
          ⟨VK_SUCCESS, some 1⟩).2.1.mCurrentImageReadyIndex
        = ((sampleCreated false ⟨1024, 600⟩).mCurrentImageReadyIndex + 1)
            % samplePlatform.IMAGE_READY_SEMAPHORE_COUNT :=
  ⟨by decide, by decide,
   ((acquire_round_robin samplePlatform (sampleCreated false ⟨1024, 600⟩) ⟨0, 0⟩ (by decide)
      (by decide) (by decide)).1 ⟨VK_SUCCESS, some 1⟩).1⟩

/-! ## C21: the name helpers of `MaterialInstance` -/

theorem strlen_terminated (body : List Nat) (h : (0 : Nat) ∉ body) :
    strlen (body ++ [0]) = (body ++ [0]).length - 1 := by
  induction body with
  | nil => rfl
  | cons c rest ih =>
    have hc : c ≠ 0 := fun hc0 => h (hc0 ▸ List.mem_cons_self _ _)
    have hrest : (0 : Nat) ∉ rest := fun hin => h (List.mem_cons_of_mem _ hin)
    have ih2 := ih hrest
    simp only [List.length_append, List.length_cons, List.length_nil] at ih2 ⊢
    show strlen (c :: (rest ++ [0])) = rest.length + 1 + (0 + 1) - 1
    rw [strlen, if_neg hc, ih2]
    omega

/-- C21: every `setParameter` / `getParameter` convenience overload only determines the name
length and calls the name+length form, whatever that form does. The string-literal overload,
given a `const char[N]`, forwards the array and `N - 1`, whatever the characters are (it does
not look at them); the C-string overload forwards the pointer and `strlen(name)`; the value
arguments are passed through unchanged. For a literal with no embedded NUL, that is a body
without NUL followed by the terminator, `strlen` is `N - 1` and the two overloads of each
family make the same call. -/
theorem parameter_helpers_delegate :
    (∀ (T R : Type) (target : List Nat → Nat → T → R) (s : List Nat) (value : T),
        setParameterLiteral target (StringLiteral.construct s) value
            = target s (s.length - 1) value
        ∧ setParameterCString target s value = target s (strlen s) value)
    ∧ (∀ (A R : Type) (target : List Nat → Nat → A → Nat → R) (s : List Nat) (values : A)
        (count : Nat),
        setParameterArrayLiteral target (StringLiteral.construct s) values count
            = target s (s.length - 1) values count
        ∧ setParameterArrayCString target s values count = target s (strlen s) values count)
    ∧ (∀ (X S R : Type) (target : List Nat → Nat → X → S → R) (s : List Nat) (texture : X)
        (sampler : S),
        setParameterTextureLiteral target (StringLiteral.construct s) texture sampler
            = target s (s.length - 1) texture sampler
        ∧ setParameterTextureCString target s texture sampler
            = target s (strlen s) texture sampler)
    ∧ (∀ (K C R : Type) (target : List Nat → Nat → K → C → R) (s : List Nat) (type : K)
        (color : C),
        setParameterRgbLiteral target (StringLiteral.construct s) type color
            = target s (s.length - 1) type color
        ∧ setParameterRgbCString target s type color = target s (strlen s) type color
        ∧ setParameterRgbaLiteral target (StringLiteral.construct s) type color
            = target s (s.length - 1) type color
        ∧ setParameterRgbaCString target s type color = target s (strlen s) type color)
    ∧ (∀ (T : Type) (target : List Nat → Nat → T) (s : List Nat),
        getParameterLiteral target (StringLiteral.construct s) = target s (s.length - 1)
        ∧ getParameterCString target s = target s (strlen s))
    ∧ (∀ body : List Nat, (0 : Nat) ∉ body →
        strlen (body ++ [0]) = (body ++ [0]).length - 1
        ∧ (∀ (T R : Type) (target : List Nat → Nat → T → R) (value : T),
            setParameterLiteral target (StringLiteral.construct (body ++ [0])) value
              = setParameterCString target (body ++ [0]) value)
        ∧ (∀ (A R : Type) (target : List Nat → Nat → A → Nat → R) (values : A) (count : Nat),
            setParameterArrayLiteral target (StringLiteral.construct (body ++ [0])) values count
              = setParameterArrayCString target (body ++ [0]) values count)
        ∧ (∀ (X S R : Type) (target : List Nat → Nat → X → S → R) (texture : X) (sampler : S),
            setParameterTextureLiteral target (StringLiteral.construct (body ++ [0])) texture
                sampler
              = setParameterTextureCString target (body ++ [0]) texture sampler)
        ∧ (∀ (K C R : Type) (target : List Nat → Nat → K → C → R) (type : K) (color : C),
            setParameterRgbLiteral target (StringLiteral.construct (body ++ [0])) type color
              = setParameterRgbCString target (body ++ [0]) type color
            ∧ setParameterRgbaLiteral target (StringLiteral.construct (body ++ [0])) type color
              = setParameterRgbaCString target (body ++ [0]) type color)
        ∧ (∀ (T : Type) (target : List Nat → Nat → T),
            getParameterLiteral target (StringLiteral.construct (body ++ [0]))
              = getParameterCString target (body ++ [0]))) := by
  refine ⟨fun _ _ _ _ _ => ⟨rfl, rfl⟩, fun _ _ _ _ _ _ => ⟨rfl, rfl⟩,
    fun _ _ _ _ _ _ _ => ⟨rfl, rfl⟩, fun _ _ _ _ _ _ _ => ⟨rfl, rfl, rfl, rfl⟩,
    fun _ _ _ => ⟨rfl, rfl⟩, ?_⟩
  intro body hbody
  have hlen := strlen_terminated body hbody
  refine ⟨hlen, ?_, ?_, ?_, ?_, ?_⟩
  · intro T R target value
    simp only [setParameterLiteral, setParameterCString, StringLiteral.construct, hlen]
  · intro A R target values count
    simp only [setParameterArrayLiteral, setParameterArrayCString, StringLiteral.construct, hlen]
  · intro X S R target texture sampler
    simp only [setParameterTextureLiteral, setParameterTextureCString, StringLiteral.construct,
      hlen]
  · intro K C R target type color
    simp only [setParameterRgbLiteral, setParameterRgbCString, setParameterRgbaLiteral,
      setParameterRgbaCString, StringLiteral.construct, hlen, and_self]
  · intro T target
    simp only [getParameterLiteral, getParameterCString, StringLiteral.construct, hlen]

/-- C21 on the literal "abc" (characters 97, 98, 99 and the terminator): both helpers call the
name+length form with length 3 and the value 5. On the literal "a\\0b", which has an embedded
NUL, the literal overload forwards length 3 and the C-string overload length 1. -/
theorem parameter_helpers_delegate_witness :
    setParameterLiteral recordCall (StringLiteral.construct ([97, 98, 99] ++ [0])) 5
      = setParameterCString recordCall ([97, 98, 99] ++ [0]) 5
    ∧ setParameterLiteral recordCall (StringLiteral.construct [97, 98, 99, 0]) 5
      = ([97, 98, 99, 0], 3, 5)
    ∧ setParameterLiteral recordCall (StringLiteral.construct [97, 0, 98, 0]) 5
      = ([97, 0, 98, 0], 3, 5)
    ∧ setParameterCString recordCall [97, 0, 98, 0] 5 = ([97, 0, 98, 0], 1, 5) :=
  ⟨(parameter_helpers_delegate.2.2.2.2.2 [97, 98, 99] (by decide)).2.1 Nat
      (List Nat × Nat × Nat) recordCall 5,
   by decide, by decide, by decide⟩

/-! ## C22: `create` and `hasResized` resolve the extent alike -/

theorem resolveExtent_eq_perceivedExtent (P : Platform) (currentExtent fallbackExtent : VkExtent2D) :
    resolveExtent P currentExtent fallbackExtent
      = perceivedExtent P currentExtent fallbackExtent := by
  unfold resolveExtent perceivedExtent
  rfl

/-- C22: `create` and `hasResized` resolve the surface extent by the same rule, so for every
capability report and fallback extent, `hasResized` called right after a successful `create`
or `recreate`, while the surface reports the capabilities it reported during that creation,
returns false. The comparison is `fvkutils::equivalent`, modelled from the spec. -/
theorem hasResized_false_after_create (P : Platform) (context : VulkanContext)
    (s s1 : VulkanPlatformSurfaceSwapChain) (drv : SurfaceReplies) (r : VkResult)
    (events : List Event)
    (h : s.create P context drv = .ok (r, s1, events)
      ∨ s.recreate P context drv = .ok (r, s1, events)) :
    (s1.hasResized P drv.caps).1 = false
    ∧ (∀ currentExtent fallbackExtent,
        resolveExtent P currentExtent fallbackExtent
          = perceivedExtent P currentExtent fallbackExtent)
    ∧ s1.mSwapChainBundle.extent = perceivedExtent P drv.caps.currentExtent s1.mFallbackExtent := by
  have hcreate : ∀ (s0 : VulkanPlatformSurfaceSwapChain) (ev : List Event),
      s0.create P context drv = .ok (r, s1, ev) →
      s1.mSwapChainBundle.extent
        = perceivedExtent P drv.caps.currentExtent s1.mFallbackExtent := by
    intro s0 ev h0
    obtain ⟨_, _, _, _, _, _, _, _, _, _, rfl, _⟩ := create_ok_inv h0
    exact resolveExtent_eq_perceivedExtent P _ _
  have hext : s1.mSwapChainBundle.extent
      = perceivedExtent P drv.caps.currentExtent s1.mFallbackExtent := by
    rcases h with h | h
    · exact hcreate s events h
    · obtain ⟨createEvents, hc, -⟩ := recreate_ok_inv h
      exact hcreate _ createEvents hc
  refine ⟨?_, resolveExtent_eq_perceivedExtent P, hext⟩
  simp [VulkanPlatformSurfaceSwapChain.hasResized, equivalent, ← hext]

/-- C22 on the sample object, created while the surface reports an undefined width: the bundle
gets the fallback extent and `hasResized` with the same report answers false. -/
theorem hasResized_false_after_create_witness :
    (sampleDestroyed false).create samplePlatform sampleContext
        (sampleReplies (sampleCaps 2 3 0xFFFFFFFF 600))
      = .ok (VK_SUCCESS, sampleCreated false ⟨800, 600⟩, sampleCreateEvents 3 ⟨800, 600⟩ [])
    ∧ ((sampleCreated false ⟨800, 600⟩).hasResized samplePlatform
        (sampleReplies (sampleCaps 2 3 0xFFFFFFFF 600)).caps).1 = false :=
  ⟨by decide,
   (hasResized_false_after_create samplePlatform sampleContext (sampleDestroyed false)
      (sampleCreated false ⟨800, 600⟩) (sampleReplies (sampleCaps 2 3 0xFFFFFFFF 600))
      VK_SUCCESS (sampleCreateEvents 3 ⟨800, 600⟩ []) (Or.inl (by decide))).1⟩

/-! ## C23: the suboptimal flag only goes up -/

theorem acquire_suboptimal (P : Platform) (s : VulkanPlatformSurfaceSwapChain)
    (out : ImageSyncData) (reply : AcquireReply) :
    (s.acquire P out reply).1 = reply.result
    ∧ (s.acquire P out reply).2.1.mSuboptimal
        = (s.mSuboptimal || decide (reply.result = VK_SUBOPTIMAL_KHR))
    ∧ suboptimalWarnings (s.acquire P out reply).2.2.2
        = (if reply.result = VK_SUBOPTIMAL_KHR ∧ s.mSuboptimal = false then 1 else 0) := by
  unfold VulkanPlatformSurfaceSwapChain.acquire
  simp only
  split
  · rename_i h
    simp [h.1, suboptimalWarnings]
  · rename_i h
    refine ⟨rfl, ?_, rfl⟩
    by_cases h1 : reply.result = VK_SUBOPTIMAL_KHR
    · have h2 : s.mSuboptimal = true := by
        cases hs : s.mSuboptimal
        · exact absurd ⟨h1, hs⟩ h
        · rfl
      simp [h1, h2]
    · simp [h1]

theorem present_suboptimal (s : VulkanPlatformSurfaceSwapChain) (index : Nat)
    (finished : VkSemaphore) (result : VkResult) :
    (s.present index finished result).1 = result
    ∧ (s.present index finished result).2.1.mSuboptimal
        = (s.mSuboptimal || decide (result = VK_SUBOPTIMAL_KHR))
    ∧ suboptimalWarnings (s.present index finished result).2.2
        = (if result = VK_SUBOPTIMAL_KHR ∧ s.mSuboptimal = false then 1 else 0) := by
  unfold VulkanPlatformSurfaceSwapChain.present
  simp only
  split
  · rename_i h
    simp [h.1, suboptimalWarnings]
  · rename_i h
    refine ⟨rfl, ?_, rfl⟩
    by_cases h1 : result = VK_SUBOPTIMAL_KHR
    · have h2 : s.mSuboptimal = true := by
        cases hs : s.mSuboptimal
        · exact absurd ⟨h1, hs⟩ h
        · rfl
      simp [h1, h2]
    · simp [h1]

/-- One step of `surfaceRun`: the first entry of the log and the object the rest runs on. -/
theorem surfaceRun_cons (P : Platform) (s : VulkanPlatformSurfaceSwapChain)
    (out : ImageSyncData) (call : SurfaceCall) (rest : List SurfaceCall) :
    ∃ (s1 : VulkanPlatformSurfaceSwapChain) (out1 : ImageSyncData) (events : List Event),
      surfaceRun P s out (call :: rest)
        = ((call.driverResult, events) :: (surfaceRun P s1 out1 rest).1,
           (surfaceRun P s1 out1 rest).2)
      ∧ s1.mSuboptimal = (s.mSuboptimal || decide (call.driverResult = VK_SUBOPTIMAL_KHR))
      ∧ suboptimalWarnings events
          = (if call.driverResult = VK_SUBOPTIMAL_KHR ∧ s.mSuboptimal = false then 1 else 0) := by
  cases call with
  | acquire reply =>
    obtain ⟨h1, h2, h3⟩ := acquire_suboptimal P s out reply
    refine ⟨(s.acquire P out reply).2.1, (s.acquire P out reply).2.2.1,
      (s.acquire P out reply).2.2.2, ?_, h2, h3⟩
    simp only [surfaceRun, SurfaceCall.driverResult, h1]
  | present index finished result =>
    obtain ⟨h1, h2, h3⟩ := present_suboptimal s index finished result
    refine ⟨(s.present index finished result).2.1, out, (s.present index finished result).2.2,
      ?_, h2, h3⟩
    simp only [surfaceRun, SurfaceCall.driverResult, h1]

theorem surfaceRun_results (P : Platform) (calls : List SurfaceCall) :
    ∀ (s : VulkanPlatformSurfaceSwapChain) (out : ImageSyncData),
      (surfaceRun P s out calls).1.map Prod.fst = calls.map SurfaceCall.driverResult := by
  induction calls with
  | nil => intro s out; rfl
  | cons call rest ih =>
    intro s out
    obtain ⟨s1, out1, events, hrun, -, -⟩ := surfaceRun_cons P s out call rest
    rw [hrun]
    simp [ih]

theorem surfaceRun_flag (P : Platform) (calls : List SurfaceCall) :
    ∀ (s : VulkanPlatformSurfaceSwapChain) (out : ImageSyncData),
      (surfaceRun P s out calls).2.mSuboptimal
        = (s.mSuboptimal
            || calls.any (fun call => decide (call.driverResult = VK_SUBOPTIMAL_KHR))) := by
  induction calls with
  | nil => intro s out; simp [surfaceRun]
  | cons call rest ih =>
    intro s out
    obtain ⟨s1, out1, events, hrun, hflag, -⟩ := surfaceRun_cons P s out call rest
    rw [hrun]
    simp only [ih, hflag, List.any_cons, Bool.or_assoc]

theorem surfaceRun_set (P : Platform) (calls : List SurfaceCall) :
    ∀ (s : VulkanPlatformSurfaceSwapChain) (out : ImageSyncData),
      s.mSuboptimal = true →
      (surfaceRun P s out calls).1.map (fun x => suboptimalWarnings x.2)
        = List.replicate calls.length 0 := by
  induction calls with
  | nil => intro s out _; rfl
  | cons call rest ih =>
    intro s out hs
    obtain ⟨s1, out1, events, hrun, hflag, hwarn⟩ := surfaceRun_cons P s out call rest
    rw [hrun]
    have h1 : s1.mSuboptimal = true := by simp [hflag, hs]
    simp [ih s1 out1 h1, hwarn, hs, List.replicate_succ]

theorem surfaceRun_first_suboptimal (P : Platform) (pre : List SurfaceCall) :
    ∀ (s : VulkanPlatformSurfaceSwapChain) (out : ImageSyncData) (call : SurfaceCall)
      (post : List SurfaceCall),
      s.mSuboptimal = false →
      (∀ c ∈ pre, c.driverResult ≠ VK_SUBOPTIMAL_KHR) →
      call.driverResult = VK_SUBOPTIMAL_KHR →
      (surfaceRun P s out (pre ++ call :: post)).1.map (fun x => suboptimalWarnings x.2)
        = List.replicate pre.length 0 ++ 1 :: List.replicate post.length 0 := by
  induction pre with
  | nil =>
    intro s out call post hs _ hcall
    obtain ⟨s1, out1, events, hrun, hflag, hwarn⟩ := surfaceRun_cons P s out call post
    have h1 : s1.mSuboptimal = true := by simp [hflag, hcall]
    simp only [List.nil_append, hrun, List.map_cons, surfaceRun_set P post s1 out1 h1, hwarn,
      hcall, hs, and_self, if_true, List.length_nil, List.replicate_zero]
  | cons c rest ih =>
    intro s out call post hs hpre hcall
    obtain ⟨s1, out1, events, hrun, hflag, hwarn⟩ :=
      surfaceRun_cons P s out c (rest ++ call :: post)
    have hc : c.driverResult ≠ VK_SUBOPTIMAL_KHR := hpre c (List.mem_cons_self _ _)
    have h1 : s1.mSuboptimal = false := by simp [hflag, hs, hc]
    have hrest := ih s1 out1 call post h1
      (fun x hx => hpre x (List.mem_cons_of_mem _ hx)) hcall
    simp only [List.cons_append, hrun, List.map_cons, hrest, hwarn, hc, false_and, if_false,
      List.length_cons, List.replicate_succ]

theorem surfaceRun_none_suboptimal (P : Platform) (calls : List SurfaceCall) :
    ∀ (s : VulkanPlatformSurfaceSwapChain) (out : ImageSyncData),
      (∀ c ∈ calls, c.driverResult ≠ VK_SUBOPTIMAL_KHR) →
      (surfaceRun P s out calls).1.map (fun x => suboptimalWarnings x.2)
        = List.replicate calls.length 0 := by
  induction calls with
  | nil => intro s out _; rfl
  | cons call rest ih =>
    intro s out hall
    obtain ⟨s1, out1, events, hrun, -, hwarn⟩ := surfaceRun_cons P s out call rest
    have hc : call.driverResult ≠ VK_SUBOPTIMAL_KHR := hall call (List.mem_cons_self _ _)
    rw [hrun]
    simp [ih s1 out1 (fun x hx => hall x (List.mem_cons_of_mem _ hx)), hwarn, hc,
      List.replicate_succ]

theorem sum_replicate_zero (n : Nat) : (List.replicate n 0).sum = 0 := by
  induction n with
  | zero => rfl
  | succ n ih => simp [List.replicate_succ, ih]

/-- C23: the suboptimal flag of a surface-backed swap chain is monotone under `acquire` and
`present`. Each call returns the driver result, leaves the flag set if it was set, sets it
exactly when the driver result is suboptimal, and logs the warning exactly when the result is
suboptimal and the flag was clear. So over every sequence of `acquire` and `present` calls with
arbitrary driver results: the flag at the end is the flag at the start or-ed with "some result
was suboptimal"; a flag that is set stays set and silences every call; starting with a clear
flag, the calls before the first suboptimal result log nothing, the call with the first
suboptimal result logs the warning once, and no later call logs it; in all, the warning is
logged at most once. -/
theorem suboptimal_flag_monotone (P : Platform) (s : VulkanPlatformSurfaceSwapChain)
    (out : ImageSyncData) :
    (∀ reply : AcquireReply,
        (s.acquire P out reply).1 = reply.result
        ∧ (s.acquire P out reply).2.1.mSuboptimal
            = (s.mSuboptimal || decide (reply.result = VK_SUBOPTIMAL_KHR))
        ∧ suboptimalWarnings (s.acquire P out reply).2.2.2
            = (if reply.result = VK_SUBOPTIMAL_KHR ∧ s.mSuboptimal = false then 1 else 0))
    ∧ (∀ index finished result,
        (s.present index finished result).1 = result
        ∧ (s.present index finished result).2.1.mSuboptimal
            = (s.mSuboptimal || decide (result = VK_SUBOPTIMAL_KHR))
        ∧ suboptimalWarnings (s.present index finished result).2.2
            = (if result = VK_SUBOPTIMAL_KHR ∧ s.mSuboptimal = false then 1 else 0))
    ∧ (∀ calls : List SurfaceCall,
        (surfaceRun P s out calls).1.map Prod.fst = calls.map SurfaceCall.driverResult
        ∧ (surfaceRun P s out calls).2.mSuboptimal
            = (s.mSuboptimal
                || calls.any (fun call => decide (call.driverResult = VK_SUBOPTIMAL_KHR)))
        ∧ (s.mSuboptimal = true →
            (surfaceRun P s out calls).2.mSuboptimal = true
            ∧ (surfaceRun P s out calls).1.map (fun x => suboptimalWarnings x.2)
                = List.replicate calls.length 0)
        ∧ ((∀ c ∈ calls, c.driverResult ≠ VK_SUBOPTIMAL_KHR) →
            (surfaceRun P s out calls).1.map (fun x => suboptimalWarnings x.2)
              = List.replicate calls.length 0)
        ∧ ((surfaceRun P s out calls).1.map (fun x => suboptimalWarnings x.2)).sum ≤ 1)
    ∧ (∀ (pre : List SurfaceCall) (call : SurfaceCall) (post : List SurfaceCall),
        s.mSuboptimal = false →
        (∀ c ∈ pre, c.driverResult ≠ VK_SUBOPTIMAL_KHR) →
        call.driverResult = VK_SUBOPTIMAL_KHR →
        (surfaceRun P s out (pre ++ call :: post)).1.map (fun x => suboptimalWarnings x.2)
            = List.replicate pre.length 0 ++ 1 :: List.replicate post.length 0
        ∧ (surfaceRun P s out (pre ++ call :: post)).2.mSuboptimal = true) := by
  refine ⟨acquire_suboptimal P s out, present_suboptimal s, ?_, ?_⟩
  · intro calls
    refine ⟨surfaceRun_results P calls s out, surfaceRun_flag P calls s out, ?_,
      surfaceRun_none_suboptimal P calls s out, ?_⟩
    · intro hs
      exact ⟨by simp [surfaceRun_flag, hs], surfaceRun_set P calls s out hs⟩
    · cases hs : s.mSuboptimal with
      | true =>
        rw [surfaceRun_set P calls s out hs, sum_replicate_zero]
        exact Nat.zero_le _
      | false =>
        cases hfind : calls.find?
            (fun call => decide (call.driverResult = VK_SUBOPTIMAL_KHR)) with
        | none =>
          have hall : ∀ c ∈ calls, c.driverResult ≠ VK_SUBOPTIMAL_KHR := by
            intro c hc
            have := (List.find?_eq_none.1 hfind) c hc
            simpa using this
          rw [surfaceRun_none_suboptimal P calls s out hall, sum_replicate_zero]
          exact Nat.zero_le _
        | some call =>
          obtain ⟨pre, post, hsplit, hpre, hcall⟩ := find?_eq_some_split _ _ _ hfind
          have hpre2 : ∀ c ∈ pre, c.driverResult ≠ VK_SUBOPTIMAL_KHR := by
            intro c hc
            simpa using hpre c hc
          have hcall2 : call.driverResult = VK_SUBOPTIMAL_KHR := by simpa using hcall
          rw [hsplit, surfaceRun_first_suboptimal P pre s out call post hs hpre2 hcall2]
          simp [sum_replicate_zero]
  · intro pre call post hs hpre hcall
    refine ⟨surfaceRun_first_suboptimal P pre s out call post hs hpre hcall, ?_⟩
    simp [surfaceRun_flag, hcall]

/-- C23 on the created sample object (flag clear): of the calls acquire (success), present
(suboptimal), acquire (suboptimal), present (success), only the second logs the warning, and
the flag is set at the end. -/
theorem suboptimal_flag_monotone_witness :
    (surfaceRun samplePlatform (sampleCreated false ⟨1024, 600⟩) ⟨0, 0⟩
        [.acquire ⟨VK_SUCCESS, some 0⟩, .present 0 77 VK_SUBOPTIMAL_KHR,
          .acquire ⟨VK_SUBOPTIMAL_KHR, some 1⟩, .present 1 77 VK_SUCCESS]).1.map
        (fun x => (x.1, suboptimalWarnings x.2))
      = [(VK_SUCCESS, 0), (VK_SUBOPTIMAL_KHR, 1), (VK_SUBOPTIMAL_KHR, 0), (VK_SUCCESS, 0)]
    ∧ (surfaceRun samplePlatform (sampleCreated false ⟨1024, 600⟩) ⟨0, 0⟩
        ([.acquire ⟨VK_SUCCESS, some 0⟩] ++ .present 0 77 VK_SUBOPTIMAL_KHR ::
          [.acquire ⟨VK_SUBOPTIMAL_KHR, some 1⟩, .present 1 77 VK_SUCCESS])).2.mSuboptimal = true :=
  ⟨by decide,
   ((suboptimal_flag_monotone samplePlatform (sampleCreated false ⟨1024, 600⟩) ⟨0, 0⟩).2.2.2
      [.acquire ⟨VK_SUCCESS, some 0⟩] (.present 0 77 VK_SUBOPTIMAL_KHR)
      [.acquire ⟨VK_SUBOPTIMAL_KHR, some 1⟩, .present 1 77 VK_SUCCESS]
      (by decide) (by decide) (by decide)).2⟩

end Filament
